import Mathlib

/-!
# STM32 RTC driver (`drivers/rtc/rtc_ll_stm32.c`)

A shallow embedding of the driver: C integers are `Int`/`Nat` with explicit
wrap-around, the RTC peripheral is a register file threaded through every
operation together with the instance mutex and a chronological trace of the
operations performed, and the autonomous behaviour of the hardware (status
flags, the running calendar counter) is supplied by an `Env`.
-/

namespace RtcStm32

/-! ## errno values and C integer conversions -/

/-- Value of `EIO` from errno.h. -/
def EIO : Int := 5

/-- Value of `EBUSY` from errno.h. -/
def EBUSY : Int := 16

/-- Value of `EINVAL` from errno.h. -/
def EINVAL : Int := 22

/-- Smallest `int32_t`. -/
def INT32_MIN : Int := -2147483648

/-- Largest `int32_t`. -/
def INT32_MAX : Int := 2147483647

/-- The value is representable as an `int32_t` (a C `int` on this target). -/
def in_int32 (x : Int) : Prop := INT32_MIN ≤ x ∧ x ≤ INT32_MAX

instance (x : Int) : Decidable (in_int32 x) := by
  unfold in_int32; exact inferInstance

/-- Two's complement wrap of an integer to `int32_t`. -/
def to_int32 (x : Int) : Int := (x + 2147483648) % 4294967296 - 2147483648

/-- Conversion of an integer to `uint8_t`. -/
def to_uint8 (x : Int) : Nat := (x % 256).toNat

/-- Conversion of an integer to `uint32_t`. -/
def to_uint32 (x : Int) : Nat := (x % 4294967296).toNat

/-! ## Constants of the driver -/

/-- RTC start time: 1st, Jan, 2000. -/
def RTC_YEAR_REF : Nat := 2000

/-- Start time of struct tm: 1st, Jan, 1900. -/
def TM_YEAR_REF : Nat := 1900

/-- Pulses added by the single-bit CALP field. -/
def MAX_CALP : Int := 512

/-- Largest value of the CALM field. -/
def MAX_CALM : Int := 511

/-- Timeout in microseconds used to wait for flags. -/
def RTC_TIMEOUT : Nat := 1000000

/-- Hardware weekday code of Sunday (`LL_RTC_WEEKDAY_SUNDAY`). -/
def LL_RTC_WEEKDAY_SUNDAY : Nat := 7

/-- Hour format value for 24 hour mode (`LL_RTC_HOURFORMAT_24HOUR`). -/
def LL_RTC_HOURFORMAT_24HOUR : Nat := 0

/-- CALR bit 15, the insert-pulse flag (`RTC_CALR_CALP`). -/
def RTC_CALR_CALP : Nat := 0x8000

/-- CALR bits 8:0, the masked-pulse count (`RTC_CALR_CALM`). -/
def RTC_CALR_CALM : Nat := 0x1FF

/-- Value of the CALP field when pulses are inserted. -/
def LL_RTC_CALIB_INSERTPULSE_SET : Nat := RTC_CALR_CALP

/-- Value of the CALP field when no pulse is inserted. -/
def LL_RTC_CALIB_INSERTPULSE_NONE : Nat := 0

/-! ## Helpers of Zephyr's `sys/util.h` -/

/-- Modelled from the spec: Zephyr's `DIV_ROUND_CLOSEST(n, d)` macro of
sys/util.h is not under src/. On `int` operands it is `(n - d/2)/d` when `n`
and `d` have opposite signs and `(n + d/2)/d` otherwise, with C truncating
division; every intermediate result is wrapped to 32 bits. -/
def DIV_ROUND_CLOSEST (n d : Int) : Int :=
  if (decide (n < 0)) ^^ (decide (d < 0)) then
    to_int32 (Int.tdiv (to_int32 (n - to_int32 (Int.tdiv d 2))) d)
  else
    to_int32 (Int.tdiv (to_int32 (n + to_int32 (Int.tdiv d 2))) d)

/-- Modelled from the spec: the same `DIV_ROUND_CLOSEST` macro (not under
src/) on a `uint64_t` numerator and a `uint32_t` denominator, where neither
operand is negative: `(n + d/2)/d` in 64-bit unsigned arithmetic. -/
def DIV_ROUND_CLOSEST_u64 (n d : Nat) : Nat :=
  ((n + d / 2) % 18446744073709551616) / d

/-- Modelled from the spec: Zephyr's `bin2bcd` of sys/util.h is not under
src/; `((bin / 10) << 4) | (bin % 10)` returned as a `uint8_t`. -/
def bin2bcd (bin : Nat) : Nat := (((bin / 10) <<< 4) ||| (bin % 10)) % 256

/-- Modelled from the spec: Zephyr's `bcd2bin` of sys/util.h is not under
src/; `10 * (bcd >> 4) + (bcd & 0x0F)` returned as a `uint8_t`. -/
def bcd2bin (bcd : Nat) : Nat := (10 * (bcd >>> 4) + (bcd &&& 0x0F)) % 256

/-! ## Calibration conversions -/

/-- Convert a part per billion calibration value to a number of clock pulses
added or removed each 2^20 clock cycles: `ppb * 2048 / 1953125`. -/
def PPB_TO_NB_PULSES (ppb : Int) : Int :=
  DIV_ROUND_CLOSEST (to_int32 (ppb * 2048)) 1953125

/-- Convert a number of clock pulses to a part per billion calibration
value: `pulses * 1953125 / 2048`. -/
def NB_PULSES_TO_PPB (pulses : Int) : Int :=
  DIV_ROUND_CLOSEST (to_int32 (pulses * 1953125)) 2048

/-- Largest supported calibration. -/
def MAX_PPB : Int := NB_PULSES_TO_PPB MAX_CALP

/-- Smallest supported calibration. -/
def MIN_PPB : Int := to_int32 (-NB_PULSES_TO_PPB MAX_CALM)

/-! ## Data model -/

/-- The fields of `struct rtc_stm32_config` the driver reads. -/
structure rtc_stm32_config where
  async_prescaler : Nat
  sync_prescaler : Nat
  deriving DecidableEq, Repr

/-- The `rtc_config` instance: prescaler values for LSI @ 32 KHz. -/
def rtc_config_LSI : rtc_stm32_config :=
  { async_prescaler := 0x7F, sync_prescaler := 0x00F9 }

/-- The `rtc_config` instance: prescaler values for LSE @ 32768 Hz. -/
def rtc_config_LSE : rtc_stm32_config :=
  { async_prescaler := 0x7F, sync_prescaler := 0x00FF }

/-- Zephyr's `struct rtc_time`; every member is a C `int`. -/
structure rtc_time where
  tm_sec : Int
  tm_min : Int
  tm_hour : Int
  tm_mday : Int
  tm_mon : Int
  tm_year : Int
  tm_wday : Int
  tm_yday : Int
  tm_isdst : Int
  tm_nsec : Int
  deriving DecidableEq, Repr

/-- Registers of the RTC peripheral the driver touches. -/
inductive Reg
  | TR | DR | SSR | CR | PRER | CALR
  deriving DecidableEq, Repr

/-- One operation performed by the driver, in the order of the trace. A
read carries the value returned to the driver, a write the new content of
the register. -/
inductive Event
  | DisableWriteProtection
  | EnableWriteProtection
  | EnableInitMode
  | DisableInitMode
  | IsActiveFlag_INIT (v : Bool)
  | IsActiveFlag_RECALP (v : Bool)
  | read (r : Reg) (v : Nat)
  | write (r : Reg) (v : Nat)
  | k_mutex_lock
  | k_mutex_unlock
  | k_msleep (ms : Nat)
  deriving DecidableEq, Repr

/-- The event is an access to the RTC peripheral (anything but the mutex
and the sleep). -/
def Event.isRegisterAccess : Event → Bool
  | .k_mutex_lock => false
  | .k_mutex_unlock => false
  | .k_msleep _ => false
  | _ => true

/-- The event writes one of the calendar registers DR or TR. -/
def Event.isCalendarWrite : Event → Bool
  | .write .DR _ => true
  | .write .TR _ => true
  | _ => false

/-- The register file: the 32-bit words of the RTC, the init-mode request
bit and the state of the write protection. -/
structure Regs where
  TR : Nat
  DR : Nat
  SSR : Nat
  CR : Nat
  PRER : Nat
  CALR : Nat
  INIT : Bool
  write_protected : Bool
  deriving DecidableEq, Repr

/-- State threaded through the driver: the register file, the instance
mutex (`locked` at entry of an operation means another caller holds it),
the uptime in microseconds, the number of operations performed so far and
their trace. -/
structure World where
  regs : Regs
  locked : Bool
  now : Nat
  steps : Nat
  trace : List Event
  deriving DecidableEq, Repr

/-- What the hardware does on its own: the value of the INITF and RECALPF
status flags at each step, and the evolution of the calendar counter
`(TR, DR, SSR)` before each step. -/
structure Env where
  INITF : Nat → Bool
  RECALPF : Nat → Bool
  tick : Nat → Nat × Nat × Nat → Nat × Nat × Nat

/-- One step of hardware time: the calendar counter evolves and the step is
counted. Every hardware access and every sleep starts with it. -/
def World.advance (env : Env) (w : World) : World :=
  let c := env.tick w.steps (w.regs.TR, w.regs.DR, w.regs.SSR)
  { w with regs := { w.regs with TR := c.1, DR := c.2.1, SSR := c.2.2 },
           steps := w.steps + 1 }

/-! ## Register access macros and the LL layer

The STM32 LL header (`stm32_ll_rtc.h`) is not part of the driver; its
functions are transcribed here for the register layout of the RTC: in DR the
year is bits 23:16, the weekday bits 15:13, the month bits 12:8 and the day
bits 5:0; in TR the hour is bits 21:16, the minute bits 14:8 and the second
bits 6:0. -/

/-- Modelled from the spec: `MODIFY_REG(REG, CLEARMASK, SETMASK)` of the
STM32 headers (not under src/) on a 32-bit register:
`(REG & ~CLEARMASK) | SETMASK`. -/
def MODIFY_REG (reg clearmask setmask : Nat) : Nat :=
  ((reg &&& (0xFFFFFFFF ^^^ clearmask)) ||| setmask) % 4294967296

/-- Modelled from the spec: `READ_BIT(REG, BIT)` of the STM32 headers (not
under src/): `REG & BIT`. -/
def READ_BIT (reg bit : Nat) : Nat := reg &&& bit

/-- Modelled from the spec: new DR content of `LL_RTC_DATE_SetYear` (LL
layer, not under src/): the BCD year goes to the YT and YU fields. -/
def DATE_SetYear (dr Year : Nat) : Nat :=
  MODIFY_REG dr (0xF00000 ||| 0x0F0000)
    (((Year &&& 0xF0) <<< (20 - 4)) ||| ((Year &&& 0x0F) <<< 16))

/-- Modelled from the spec: new DR content of `LL_RTC_DATE_SetMonth` (LL
layer, not under src/): the BCD month goes to the MT and MU fields. -/
def DATE_SetMonth (dr Month : Nat) : Nat :=
  MODIFY_REG dr (0x1000 ||| 0x0F00)
    (((Month &&& 0xF0) <<< (12 - 4)) ||| ((Month &&& 0x0F) <<< 8))

/-- Modelled from the spec: new DR content of `LL_RTC_DATE_SetDay` (LL
layer, not under src/): the BCD day goes to the DT and DU fields. -/
def DATE_SetDay (dr Day : Nat) : Nat :=
  MODIFY_REG dr (0x30 ||| 0x0F)
    (((Day &&& 0xF0) <<< (4 - 4)) ||| ((Day &&& 0x0F) <<< 0))

/-- Modelled from the spec: new DR content of `LL_RTC_DATE_SetWeekDay` (LL
layer, not under src/): the weekday code goes to the WDU field. -/
def DATE_SetWeekDay (dr WeekDay : Nat) : Nat :=
  MODIFY_REG dr 0xE000 ((WeekDay <<< 13) % 4294967296)

/-- Modelled from the spec: value returned by `LL_RTC_DATE_Get` (LL layer,
not under src/) for a DR content, in the format 0xWWDDMMYY. -/
def DATE_Get (dr : Nat) : Nat :=
  let temp := READ_BIT dr
    (0xE000 ||| 0x1000 ||| 0x0F00 ||| 0x30 ||| 0x0F ||| 0xF00000 ||| 0x0F0000)
  ((((temp &&& 0xE000) >>> 13) <<< 24) |||
   (((((temp &&& 0x30) >>> 4) <<< 4) ||| ((temp &&& 0x0F) >>> 0)) <<< 16) |||
   (((((temp &&& 0x1000) >>> 12) <<< 4) ||| ((temp &&& 0x0F00) >>> 8)) <<< 8) |||
   ((((temp &&& 0xF00000) >>> 20) <<< 4) ||| ((temp &&& 0x0F0000) >>> 16)))

/-- Modelled from the spec: new TR content of `LL_RTC_TIME_SetHour` (LL
layer, not under src/): the BCD hour goes to the HT and HU fields. -/
def TIME_SetHour (tr Hours : Nat) : Nat :=
  MODIFY_REG tr (0x300000 ||| 0x0F0000)
    (((Hours &&& 0xF0) <<< (20 - 4)) ||| ((Hours &&& 0x0F) <<< 16))

/-- Modelled from the spec: new TR content of `LL_RTC_TIME_SetMinute` (LL
layer, not under src/): the BCD minute goes to the MNT and MNU fields. -/
def TIME_SetMinute (tr Minutes : Nat) : Nat :=
  MODIFY_REG tr (0x7000 ||| 0x0F00)
    (((Minutes &&& 0xF0) <<< (12 - 4)) ||| ((Minutes &&& 0x0F) <<< 8))

/-- Modelled from the spec: new TR content of `LL_RTC_TIME_SetSecond` (LL
layer, not under src/): the BCD second goes to the ST and SU fields. -/
def TIME_SetSecond (tr Seconds : Nat) : Nat :=
  MODIFY_REG tr (0x70 ||| 0x0F)
    (((Seconds &&& 0xF0) <<< (4 - 4)) ||| ((Seconds &&& 0x0F) <<< 0))

/-- Modelled from the spec: value returned by `LL_RTC_TIME_Get` (LL layer,
not under src/) for a TR content, in the format 0x00HHMMSS. -/
def TIME_Get (tr : Nat) : Nat :=
  let temp := READ_BIT tr
    (0x300000 ||| 0x0F0000 ||| 0x7000 ||| 0x0F00 ||| 0x70 ||| 0x0F)
  ((((((temp &&& 0x300000) >>> 20) <<< 4) ||| ((temp &&& 0x0F0000) >>> 16)) <<< 16) |||
   (((((temp &&& 0x7000) >>> 12) <<< 4) ||| ((temp &&& 0x0F00) >>> 8)) <<< 8) |||
   ((((temp &&& 0x70) >>> 4) <<< 4) ||| ((temp &&& 0x0F) >>> 0)))

/-- Modelled from the spec: `__LL_RTC_GET_YEAR` (LL layer, not under src/). -/
def __LL_RTC_GET_YEAR (date : Nat) : Nat := date &&& 0xFF

/-- Modelled from the spec: `__LL_RTC_GET_MONTH` (LL layer, not under src/). -/
def __LL_RTC_GET_MONTH (date : Nat) : Nat := (date >>> 8) &&& 0xFF

/-- Modelled from the spec: `__LL_RTC_GET_DAY` (LL layer, not under src/). -/
def __LL_RTC_GET_DAY (date : Nat) : Nat := (date >>> 16) &&& 0xFF

/-- Modelled from the spec: `__LL_RTC_GET_WEEKDAY` (LL layer, not under src/). -/
def __LL_RTC_GET_WEEKDAY (date : Nat) : Nat := (date >>> 24) &&& 0xFF

/-- Modelled from the spec: `__LL_RTC_GET_HOUR` (LL layer, not under src/). -/
def __LL_RTC_GET_HOUR (time : Nat) : Nat := (time >>> 16) &&& 0xFF

/-- Modelled from the spec: `__LL_RTC_GET_MINUTE` (LL layer, not under src/). -/
def __LL_RTC_GET_MINUTE (time : Nat) : Nat := (time >>> 8) &&& 0xFF

/-- Modelled from the spec: `__LL_RTC_GET_SECOND` (LL layer, not under src/). -/
def __LL_RTC_GET_SECOND (time : Nat) : Nat := time &&& 0xFF

/-! ## Primitive operations on the world

Each hardware access first lets one step of hardware time pass, then acts on
the register file and logs itself. -/

/-- Modelled from the spec: `LL_RTC_DisableWriteProtection` (LL layer, not
under src/): the write-unlocked state is entered. -/
def LL_RTC_DisableWriteProtection (env : Env) (w : World) : World :=
  let w1 := w.advance env
  { w1 with regs := { w1.regs with write_protected := false },
            trace := w1.trace ++ [Event.DisableWriteProtection] }

/-- Modelled from the spec: `LL_RTC_EnableWriteProtection` (LL layer, not
under src/): the write-unlocked state is left. -/
def LL_RTC_EnableWriteProtection (env : Env) (w : World) : World :=
  let w1 := w.advance env
  { w1 with regs := { w1.regs with write_protected := true },
            trace := w1.trace ++ [Event.EnableWriteProtection] }

/-- Modelled from the spec: `LL_RTC_EnableInitMode` (LL layer, not under
src/): initialization mode is requested. -/
def LL_RTC_EnableInitMode (env : Env) (w : World) : World :=
  let w1 := w.advance env
  { w1 with regs := { w1.regs with INIT := true },
            trace := w1.trace ++ [Event.EnableInitMode] }

/-- Modelled from the spec: `LL_RTC_DisableInitMode` (LL layer, not under
src/): the initialization mode request is cleared. -/
def LL_RTC_DisableInitMode (env : Env) (w : World) : World :=
  let w1 := w.advance env
  { w1 with regs := { w1.regs with INIT := false },
            trace := w1.trace ++ [Event.DisableInitMode] }

/-- Modelled from the spec: `LL_RTC_IsActiveFlag_INIT` (LL layer, not under
src/): the INITF flag as the hardware shows it at this step. -/
def LL_RTC_IsActiveFlag_INIT (env : Env) (w : World) : Bool × World :=
  let v := env.INITF w.steps
  let w1 := w.advance env
  (v, { w1 with trace := w1.trace ++ [Event.IsActiveFlag_INIT v] })

/-- Modelled from the spec: `LL_RTC_IsActiveFlag_RECALP` (LL layer, not
under src/): the RECALPF flag as the hardware shows it at this step. -/
def LL_RTC_IsActiveFlag_RECALP (env : Env) (w : World) : Bool × World :=
  let v := env.RECALPF w.steps
  let w1 := w.advance env
  (v, { w1 with trace := w1.trace ++ [Event.IsActiveFlag_RECALP v] })

/-- Modelled from the spec: `LL_RTC_DATE_Get` (LL layer, not under src/). -/
def LL_RTC_DATE_Get (env : Env) (w : World) : Nat × World :=
  let w1 := w.advance env
  let v := DATE_Get w1.regs.DR
  (v, { w1 with trace := w1.trace ++ [Event.read Reg.DR v] })

/-- Modelled from the spec: `LL_RTC_TIME_Get` (LL layer, not under src/). -/
def LL_RTC_TIME_Get (env : Env) (w : World) : Nat × World :=
  let w1 := w.advance env
  let v := TIME_Get w1.regs.TR
  (v, { w1 with trace := w1.trace ++ [Event.read Reg.TR v] })

/-- Modelled from the spec: `LL_RTC_TIME_GetSubSecond` (LL layer, not under
src/): the 16-bit SS field of SSR. -/
def LL_RTC_TIME_GetSubSecond (env : Env) (w : World) : Nat × World :=
  let w1 := w.advance env
  let v := READ_BIT w1.regs.SSR 0xFFFF
  (v, { w1 with trace := w1.trace ++ [Event.read Reg.SSR v] })

/-- A read-modify-write of DR through one of the LL setters. -/
def write_DR (env : Env) (f : Nat → Nat) (w : World) : World :=
  let w1 := w.advance env
  let v := f w1.regs.DR
  { w1 with regs := { w1.regs with DR := v },
            trace := w1.trace ++ [Event.write Reg.DR v] }

/-- A read-modify-write of TR through one of the LL setters. -/
def write_TR (env : Env) (f : Nat → Nat) (w : World) : World :=
  let w1 := w.advance env
  let v := f w1.regs.TR
  { w1 with regs := { w1.regs with TR := v },
            trace := w1.trace ++ [Event.write Reg.TR v] }

/-- Stateful `LL_RTC_DATE_SetYear(RTC, Year)`. -/
def LL_RTC_DATE_SetYear (env : Env) (Year : Nat) (w : World) : World :=
  write_DR env (fun dr => DATE_SetYear dr Year) w

/-- Stateful `LL_RTC_DATE_SetMonth(RTC, Month)`. -/
def LL_RTC_DATE_SetMonth (env : Env) (Month : Nat) (w : World) : World :=
  write_DR env (fun dr => DATE_SetMonth dr Month) w

/-- Stateful `LL_RTC_DATE_SetDay(RTC, Day)`. -/
def LL_RTC_DATE_SetDay (env : Env) (Day : Nat) (w : World) : World :=
  write_DR env (fun dr => DATE_SetDay dr Day) w

/-- Stateful `LL_RTC_DATE_SetWeekDay(RTC, WeekDay)`. -/
def LL_RTC_DATE_SetWeekDay (env : Env) (WeekDay : Nat) (w : World) : World :=
  write_DR env (fun dr => DATE_SetWeekDay dr WeekDay) w

/-- Stateful `LL_RTC_TIME_SetHour(RTC, Hours)`. -/
def LL_RTC_TIME_SetHour (env : Env) (Hours : Nat) (w : World) : World :=
  write_TR env (fun tr => TIME_SetHour tr Hours) w

/-- Stateful `LL_RTC_TIME_SetMinute(RTC, Minutes)`. -/
def LL_RTC_TIME_SetMinute (env : Env) (Minutes : Nat) (w : World) : World :=
  write_TR env (fun tr => TIME_SetMinute tr Minutes) w

/-- Stateful `LL_RTC_TIME_SetSecond(RTC, Seconds)`. -/
def LL_RTC_TIME_SetSecond (env : Env) (Seconds : Nat) (w : World) : World :=
  write_TR env (fun tr => TIME_SetSecond tr Seconds) w

/-- Modelled from the spec: `LL_RTC_GetHourFormat` (LL layer, not under
src/): the FMT bit of CR. -/
def LL_RTC_GetHourFormat (env : Env) (w : World) : Nat × World :=
  let w1 := w.advance env
  let v := READ_BIT w1.regs.CR 0x40
  (v, { w1 with trace := w1.trace ++ [Event.read Reg.CR v] })

/-- Modelled from the spec: `LL_RTC_GetSynchPrescaler` (LL layer, not under
src/): the PREDIV_S field of PRER. -/
def LL_RTC_GetSynchPrescaler (env : Env) (w : World) : Nat × World :=
  let w1 := w.advance env
  let v := READ_BIT w1.regs.PRER 0x7FFF
  (v, { w1 with trace := w1.trace ++ [Event.read Reg.PRER v] })

/-- Modelled from the spec: `LL_RTC_GetAsynchPrescaler` (LL layer, not under
src/): the PREDIV_A field of PRER. -/
def LL_RTC_GetAsynchPrescaler (env : Env) (w : World) : Nat × World :=
  let w1 := w.advance env
  let v := (READ_BIT w1.regs.PRER 0x7F0000) >>> 16
  (v, { w1 with trace := w1.trace ++ [Event.read Reg.PRER v] })

/-- Modelled from the spec: `LL_RTC_SetHourFormat` (LL layer, not under
src/). -/
def LL_RTC_SetHourFormat (env : Env) (HourFormat : Nat) (w : World) : World :=
  let w1 := w.advance env
  let v := MODIFY_REG w1.regs.CR 0x40 HourFormat
  { w1 with regs := { w1.regs with CR := v },
            trace := w1.trace ++ [Event.write Reg.CR v] }

/-- Modelled from the spec: `LL_RTC_SetSynchPrescaler` (LL layer, not under
src/). -/
def LL_RTC_SetSynchPrescaler (env : Env) (SynchPrescaler : Nat) (w : World) : World :=
  let w1 := w.advance env
  let v := MODIFY_REG w1.regs.PRER 0x7FFF SynchPrescaler
  { w1 with regs := { w1.regs with PRER := v },
            trace := w1.trace ++ [Event.write Reg.PRER v] }

/-- Modelled from the spec: `LL_RTC_SetAsynchPrescaler` (LL layer, not under
src/). -/
def LL_RTC_SetAsynchPrescaler (env : Env) (AsynchPrescaler : Nat) (w : World) : World :=
  let w1 := w.advance env
  let v := MODIFY_REG w1.regs.PRER 0x7F0000 ((AsynchPrescaler <<< 16) % 4294967296)
  { w1 with regs := { w1.regs with PRER := v },
            trace := w1.trace ++ [Event.write Reg.PRER v] }

/-- Modelled from the spec: `LL_RTC_EnableShadowRegBypass` (LL layer, not
under src/): the BYPSHAD bit of CR is set. -/
def LL_RTC_EnableShadowRegBypass (env : Env) (w : World) : World :=
  let w1 := w.advance env
  let v := (w1.regs.CR ||| 0x20) % 4294967296
  { w1 with regs := { w1.regs with CR := v },
            trace := w1.trace ++ [Event.write Reg.CR v] }

/-- The statement `MODIFY_REG(RTC->CALR, clearmask, setmask)`. -/
def MODIFY_REG_CALR (env : Env) (clearmask setmask : Nat) (w : World) : World :=
  let w1 := w.advance env
  let v := MODIFY_REG w1.regs.CALR clearmask setmask
  { w1 with regs := { w1.regs with CALR := v },
            trace := w1.trace ++ [Event.write Reg.CALR v] }

/-- The expression `sys_read32(&RTC->CALR)`. -/
def sys_read32_CALR (env : Env) (w : World) : Nat × World :=
  let w1 := w.advance env
  let v := w1.regs.CALR % 4294967296
  (v, { w1 with trace := w1.trace ++ [Event.read Reg.CALR v] })

/-- Modelled from the spec: `k_mutex_lock(&data->lock, K_NO_WAIT)` (kernel,
not under src/): a non-blocking acquisition; if the lock is already held it
fails immediately with `-EBUSY` and changes nothing. -/
def k_mutex_lock (w : World) : Int × World :=
  if w.locked then (-EBUSY, w)
  else (0, { w with locked := true, trace := w.trace ++ [Event.k_mutex_lock] })

/-- Modelled from the spec: `k_mutex_unlock(&data->lock)` (kernel, not under
src/): the lock is released. -/
def k_mutex_unlock (w : World) : World :=
  { w with locked := false, trace := w.trace ++ [Event.k_mutex_unlock] }

/-- Modelled from the spec: `k_msleep(ms)` (kernel, not under src/): the
caller sleeps, the uptime grows by `ms` milliseconds. -/
def k_msleep (env : Env) (ms : Nat) (w : World) : World :=
  let w1 := w.advance env
  { w1 with now := w1.now + 1000 * ms, trace := w1.trace ++ [Event.k_msleep ms] }

/-- The loop of `WAIT_FOR`: `while (!(expr) && timeout > elapsed) delay;`.
The recursion is on a bound of the number of passes. -/
def WAIT_FOR_loop (expr : World → Bool × World) (delay : World → World)
    (timeout start : Nat) : Nat → World → World
  | 0, w => w
  | fuel + 1, w =>
    let r := expr w
    if !r.1 && decide (timeout > r.2.now - start) then
      WAIT_FOR_loop expr delay timeout start fuel (delay r.2)
    else r.2

/-- Modelled from the spec: Zephyr's `WAIT_FOR(expr, timeout, delay_stmt)`
of sys/util.h is not under src/: `expr` is polled, with `delay_stmt` between
two polls, until it holds or `timeout` microseconds have elapsed since the
start; the result is one more evaluation of `expr`. The cycle counter is
taken at one cycle per microsecond. A delay of at least one microsecond per
pass ends the loop within `timeout + 1` passes. -/
def WAIT_FOR (expr : World → Bool × World) (timeout : Nat) (delay : World → World)
    (w : World) : Bool × World :=
  expr (WAIT_FOR_loop expr delay timeout w.now (timeout + 1) w)

/-! ## The driver -/

/-- Source function `rtc_stm32_enter_initialization_mode`. -/
def rtc_stm32_enter_initialization_mode (env : Env) (w : World) : Int × World :=
  let w1 := LL_RTC_EnableInitMode env w
  let success := WAIT_FOR (LL_RTC_IsActiveFlag_INIT env) RTC_TIMEOUT (k_msleep env 1) w1
  if !success.1 then
    (- EIO, success.2)
  else
    (0, success.2)

/-- Source function `rtc_stm32_leave_initialization_mode`. -/
def rtc_stm32_leave_initialization_mode (env : Env) (w : World) : World :=
  LL_RTC_DisableInitMode env w

/-- Source function `rtc_stm32_configure`; `has_BYPSHAD` says whether the SoC
header defines `RTC_CR_BYPSHAD`. -/
def rtc_stm32_configure (env : Env) (has_BYPSHAD : Bool) (cfg : rtc_stm32_config)
    (w : World) : Int × World :=
  let hour_format := LL_RTC_GetHourFormat env w
  let sync_prescaler := LL_RTC_GetSynchPrescaler env hour_format.2
  let async_prescaler := LL_RTC_GetAsynchPrescaler env sync_prescaler.2
  let w1 := LL_RTC_DisableWriteProtection env async_prescaler.2
  let r : Int × World :=
    if hour_format.1 ≠ LL_RTC_HOURFORMAT_24HOUR ∨
       sync_prescaler.1 ≠ cfg.sync_prescaler % 4294967296 ∨
       async_prescaler.1 ≠ cfg.async_prescaler % 4294967296 then
      let e := rtc_stm32_enter_initialization_mode env w1
      let w2 :=
        if e.1 = 0 then
          LL_RTC_SetAsynchPrescaler env (cfg.async_prescaler % 4294967296)
            (LL_RTC_SetSynchPrescaler env (cfg.sync_prescaler % 4294967296)
              (LL_RTC_SetHourFormat env LL_RTC_HOURFORMAT_24HOUR e.2))
        else e.2
      (e.1, rtc_stm32_leave_initialization_mode env w2)
    else (0, w1)
  let w3 := if has_BYPSHAD then LL_RTC_EnableShadowRegBypass env r.2 else r.2
  let w4 := LL_RTC_EnableWriteProtection env w3
  (r.1, w4)

/-- Source function `rtc_stm32_set_time`. -/
def rtc_stm32_set_time (env : Env) (timeptr : rtc_time) (w : World) : Int × World :=
  let real_year : Nat := to_uint32 (to_int32 (timeptr.tm_year + TM_YEAR_REF))
  if real_year < RTC_YEAR_REF then
    (-EINVAL, w)
  else if timeptr.tm_wday = -1 then
    (-EINVAL, w)
  else
    let l := k_mutex_lock w
    if l.1 ≠ 0 then
      (l.1, l.2)
    else
      let w1 := LL_RTC_DisableWriteProtection env l.2
      let e := rtc_stm32_enter_initialization_mode env w1
      if e.1 ≠ 0 then
        (e.1, k_mutex_unlock e.2)
      else
        let w2 := LL_RTC_DATE_SetYear env
          (bin2bcd (to_uint8 (to_uint32 ((real_year : Int) - RTC_YEAR_REF)))) e.2
        let w3 := LL_RTC_DATE_SetMonth env
          (bin2bcd (to_uint8 (to_int32 (timeptr.tm_mon + 1)))) w2
        let w4 := LL_RTC_DATE_SetDay env (bin2bcd (to_uint8 timeptr.tm_mday)) w3
        let w5 :=
          if timeptr.tm_wday = 0 then
            LL_RTC_DATE_SetWeekDay env LL_RTC_WEEKDAY_SUNDAY w4
          else
            LL_RTC_DATE_SetWeekDay env (to_uint32 timeptr.tm_wday) w4
        let w6 := LL_RTC_TIME_SetHour env (bin2bcd (to_uint8 timeptr.tm_hour)) w5
        let w7 := LL_RTC_TIME_SetMinute env (bin2bcd (to_uint8 timeptr.tm_min)) w6
        let w8 := LL_RTC_TIME_SetSecond env (bin2bcd (to_uint8 timeptr.tm_sec)) w7
        let w9 := rtc_stm32_leave_initialization_mode env w8
        let w10 := LL_RTC_EnableWriteProtection env w9
        (e.1, k_mutex_unlock w10)

/-- The inner loop of `rtc_stm32_get_time`: read time and subseconds and
relaunch if a second increment occurred while doing so (`rtc_time_` is the
local variable `rtc_time`). The recursion is on a bound of the number of
passes; `none` when the bound is reached. -/
def get_time_read_time (env : Env) : Nat → World → Option (Nat × Nat × World)
  | 0, _ => none
  | fuel + 1, w =>
    let rtc_time_ := LL_RTC_TIME_Get env w
    let rtc_subsecond := LL_RTC_TIME_GetSubSecond env rtc_time_.2
    let again := LL_RTC_TIME_Get env rtc_subsecond.2
    if rtc_time_.1 ≠ again.1 then
      get_time_read_time env fuel again.2
    else
      some (rtc_time_.1, rtc_subsecond.1, again.2)

/-- The outer loop of `rtc_stm32_get_time`: read date, time and subseconds
and relaunch if a day increment occurred while doing so. The recursion is on
a bound of the number of passes; `none` when the bound is reached. -/
def get_time_read_date (env : Env) : Nat → World → Option (Nat × Nat × Nat × World)
  | 0, _ => none
  | fuel + 1, w =>
    let rtc_date := LL_RTC_DATE_Get env w
    match get_time_read_time env (fuel + 1) rtc_date.2 with
    | none => none
    | some (rtc_time_, rtc_subsecond, w1) =>
      let again := LL_RTC_DATE_Get env w1
      if rtc_date.1 ≠ again.1 then
        get_time_read_date env fuel again.2
      else
        some (rtc_date.1, rtc_time_, rtc_subsecond, again.2)

/-- The translation of an agreed snapshot to `struct rtc_time` at the end of
`rtc_stm32_get_time`; `rtc_time_` is the local variable `rtc_time`. -/
def get_time_fill (cfg : rtc_stm32_config) (rtc_date rtc_time_ rtc_subsecond : Nat)
    (timeptr : rtc_time) : rtc_time :=
  let hw_wday : Int := to_int32 (__LL_RTC_GET_WEEKDAY rtc_date)
  let temp : Nat :=
    (to_uint32 ((cfg.sync_prescaler : Int) - rtc_subsecond) * 1000000000)
      % 18446744073709551616
  { timeptr with
    tm_year := to_int32 ((bcd2bin (__LL_RTC_GET_YEAR rtc_date) : Int) + RTC_YEAR_REF - TM_YEAR_REF)
    tm_mon := to_int32 ((bcd2bin (__LL_RTC_GET_MONTH rtc_date) : Int) - 1)
    tm_mday := bcd2bin (__LL_RTC_GET_DAY rtc_date)
    tm_wday := if hw_wday = LL_RTC_WEEKDAY_SUNDAY then 0 else hw_wday
    tm_hour := bcd2bin (__LL_RTC_GET_HOUR rtc_time_)
    tm_min := bcd2bin (__LL_RTC_GET_MINUTE rtc_time_)
    tm_sec := bcd2bin (__LL_RTC_GET_SECOND rtc_time_)
    tm_nsec := to_int32 (DIV_ROUND_CLOSEST_u64 temp ((cfg.sync_prescaler + 1) % 4294967296))
    tm_yday := -1
    tm_isdst := -1 }

/-- Source function `rtc_stm32_get_time`; `timeptr` is the structure the
caller passes, the result carries its content on return. `none` when the
retry loops did not end within `fuel` passes. -/
def rtc_stm32_get_time (fuel : Nat) (env : Env) (cfg : rtc_stm32_config)
    (timeptr : rtc_time) (w : World) : Option (Int × rtc_time × World) :=
  let l := k_mutex_lock w
  if l.1 ≠ 0 then
    some (l.1, timeptr, l.2)
  else
    match get_time_read_date env fuel l.2 with
    | none => none
    | some (rtc_date, rtc_time_, rtc_subsecond, w1) =>
      let w2 := k_mutex_unlock w1
      some (0, get_time_fill cfg rtc_date rtc_time_ rtc_subsecond timeptr, w2)

/-- Source function `rtc_stm32_set_calibration`. The two `__ASSERT_NO_MSG`
are taken as enabled: `none` is the failed assertion. -/
def rtc_stm32_set_calibration (env : Env) (calibration : Int) (w : World) :
    Option Int × World :=
  if calibration > MAX_PPB ∨ calibration < MIN_PPB then
    (some (-EINVAL), w)
  else
    let nb_pulses : Int := PPB_TO_NB_PULSES calibration
    if ¬ (nb_pulses ≤ MAX_CALP) then (none, w)
    else if ¬ (nb_pulses ≥ to_int32 (-MAX_CALM)) then (none, w)
    else
      let calp : Nat :=
        if nb_pulses > 0 then LL_RTC_CALIB_INSERTPULSE_SET else LL_RTC_CALIB_INSERTPULSE_NONE
      let calm : Nat :=
        if nb_pulses > 0 then to_uint32 (to_int32 (MAX_CALP - nb_pulses))
        else to_uint32 (to_int32 (-nb_pulses))
      let r := WAIT_FOR
        (fun w0 => let f := LL_RTC_IsActiveFlag_RECALP env w0; (decide (f.1 = false), f.2))
        100000 (k_msleep env 1) w
      if !r.1 then
        (some (- EIO), r.2)
      else
        let w1 := LL_RTC_DisableWriteProtection env r.2
        let w2 := MODIFY_REG_CALR env (RTC_CALR_CALP ||| RTC_CALR_CALM) (calp ||| calm) w1
        let w3 := LL_RTC_EnableWriteProtection env w2
        (some 0, w3)

/-- Source function `rtc_stm32_get_calibration`; the second component is
the value stored through the `calibration` pointer. -/
def rtc_stm32_get_calibration (env : Env) (w : World) : Int × Int × World :=
  let calr := sys_read32_CALR env w
  let calp_enabled : Bool := decide (READ_BIT calr.1 RTC_CALR_CALP ≠ 0)
  let calm : Nat := READ_BIT calr.1 RTC_CALR_CALM
  let nb_pulses : Int := to_int32 (-(to_int32 (calm : Int)))
  let nb_pulses : Int := if calp_enabled then to_int32 (nb_pulses + MAX_CALP) else nb_pulses
  (0, NB_PULSES_TO_PPB nb_pulses, calr.2)

/-- The hardware weekday code `rtc_stm32_set_time` passes to the LL layer. -/
def set_time_weekday_code (timeptr : rtc_time) : Nat :=
  if timeptr.tm_wday = 0 then LL_RTC_WEEKDAY_SUNDAY else to_uint32 timeptr.tm_wday

/-- The DR content after the four date writes of `rtc_stm32_set_time`. -/
def set_time_DR (timeptr : rtc_time) (dr : Nat) : Nat :=
  DATE_SetWeekDay (DATE_SetDay (DATE_SetMonth (DATE_SetYear dr
    (bin2bcd (to_uint8 (to_uint32 ((to_uint32 (to_int32 (timeptr.tm_year + TM_YEAR_REF)) : Int)
      - RTC_YEAR_REF)))))
    (bin2bcd (to_uint8 (to_int32 (timeptr.tm_mon + 1)))))
    (bin2bcd (to_uint8 timeptr.tm_mday)))
    (set_time_weekday_code timeptr)

/-- The TR content after the three time writes of `rtc_stm32_set_time`. -/
def set_time_TR (timeptr : rtc_time) (tr : Nat) : Nat :=
  TIME_SetSecond (TIME_SetMinute (TIME_SetHour tr (bin2bcd (to_uint8 timeptr.tm_hour)))
    (bin2bcd (to_uint8 timeptr.tm_min))) (bin2bcd (to_uint8 timeptr.tm_sec))

/-- A hardware whose INITF flag reads as set, whose RECALPF flag reads as
clear and whose calendar counter stands still. -/
def quiet_env : Env :=
  { INITF := fun _ => true, RECALPF := fun _ => false, tick := fun _ c => c }

/-- A register file after reset, write protected, with a free lock. -/
def idle_world : World :=
  { regs := { TR := 0, DR := 0x2101, SSR := 0, CR := 0, PRER := 0x7F00FF, CALR := 0,
              INIT := false, write_protected := true },
    locked := false, now := 0, steps := 0, trace := [] }

/-- Tuesday 31 December 2024, 23:59:58. -/
def sample_time : rtc_time :=
  { tm_sec := 58, tm_min := 59, tm_hour := 23, tm_mday := 31, tm_mon := 11, tm_year := 124,
    tm_wday := 2, tm_yday := -1, tm_isdst := -1, tm_nsec := 0 }

/-- The poll of `rtc_stm32_set_calibration`: `LL_RTC_IsActiveFlag_RECALP(RTC) == 0`. -/
def recalp_is_clear (env : Env) (w0 : World) : Bool × World :=
  let f := LL_RTC_IsActiveFlag_RECALP env w0
  (decide (f.1 = false), f.2)

/-- The CALP field `rtc_stm32_set_calibration` computes for a pulse count. -/
def calibration_calp (nb_pulses : Int) : Nat :=
  if nb_pulses > 0 then LL_RTC_CALIB_INSERTPULSE_SET else LL_RTC_CALIB_INSERTPULSE_NONE

/-- The CALM field `rtc_stm32_set_calibration` computes for a pulse count. -/
def calibration_calm (nb_pulses : Int) : Nat :=
  if nb_pulses > 0 then to_uint32 (to_int32 (MAX_CALP - nb_pulses))
  else to_uint32 (to_int32 (-nb_pulses))

/-- The event is a read of the date register. -/
def isDateRead : Event → Bool
  | .read .DR _ => true
  | _ => false

/-- A hardware whose date register holds Saturday 1 January 2000 at the
first step and Sunday 2 January 2000 from then on, the time register and
the subsecond counter reading zero. -/
def date_change_env : Env :=
  { INITF := fun _ => true, RECALPF := fun _ => false,
    tick := fun n _ => (0, if n = 0 then 0x00C101 else 0x00E102, 0) }

/-- The event belongs to a bounded wait: a poll of a flag or a sleep. -/
def Event.isWaitEvent : Event → Bool
  | .IsActiveFlag_INIT _ => true
  | .IsActiveFlag_RECALP _ => true
  | .k_msleep _ => true
  | _ => false

/-- What a bounded wait leaves alone between `w` and `w1`: the lock, every
register but the running calendar counter, and the trace up to polls and
sleeps appended to it. -/
def WaitFrame (w w1 : World) : Prop :=
  w1.locked = w.locked ∧ w1.regs.write_protected = w.regs.write_protected ∧
  w1.regs.INIT = w.regs.INIT ∧ w1.regs.CALR = w.regs.CALR ∧ w1.regs.CR = w.regs.CR ∧
  w1.regs.PRER = w.regs.PRER ∧
  ∃ l, w1.trace = w.trace ++ l ∧ ∀ e ∈ l, e.isWaitEvent = true

/-- The state in which `rtc_stm32_set_time` calls
`rtc_stm32_enter_initialization_mode`: the lock taken, the write protection
disabled. -/
def set_time_entry (env : Env) (w : World) : World :=
  LL_RTC_DisableWriteProtection env (k_mutex_lock w).2

/-- A hardware whose INITF flag never shows. -/
def stuck_env : Env :=
  { INITF := fun _ => false, RECALPF := fun _ => false, tick := fun _ c => c }

/-- The pulse count `rtc_stm32_get_calibration` decodes from the CALR
content it read. -/
def get_calibration_nb_pulses (calr : Nat) : Int :=
  let calp_enabled : Bool := decide (READ_BIT calr RTC_CALR_CALP ≠ 0)
  let calm : Nat := READ_BIT calr RTC_CALR_CALM
  let nb_pulses : Int := to_int32 (-(to_int32 (calm : Int)))
  if calp_enabled then to_int32 (nb_pulses + MAX_CALP) else nb_pulses

/-- Specification of rounding to nearest, halves away from zero: the sign of
`num` times the floor of `|num| / den + 1/2`, for a positive `den`. -/
def round_half_away_from_zero (num den : Int) : Int :=
  if num < 0 then -((2 * (-num) + den) / (2 * den)) else (2 * num + den) / (2 * den)

/-- The event is an operation on the instance mutex. -/
def Event.isMutexEvent : Event → Bool
  | .k_mutex_lock => true
  | .k_mutex_unlock => true
  | _ => false

/-- Every access to the RTC peripheral in the list of events happens while
the caller holds the instance lock; `held` says whether it holds the lock
at the start of the list. -/
def lock_guarded : Bool → List Event → Bool
  | _, [] => true
  | held, e :: es =>
    match e with
    | .k_mutex_lock => lock_guarded true es
    | .k_mutex_unlock => lock_guarded false es
    | _ => (held || !e.isRegisterAccess) && lock_guarded held es

/-- The event is one `rtc_stm32_set_calibration` may perform: a poll, a
sleep, the disabling or enabling of the write protection, a write of CALR. -/
def Event.isCalibrationEvent : Event → Bool
  | .IsActiveFlag_RECALP _ => true
  | .IsActiveFlag_INIT _ => true
  | .k_msleep _ => true
  | .DisableWriteProtection => true
  | .EnableWriteProtection => true
  | .write .CALR _ => true
  | _ => false

/-- The hardware hour format is not 24-hour, or a prescaler of the hardware
differs from the configured one: the condition under which
`rtc_stm32_configure` enters initialization mode. -/
def configure_needs_init (cfg : rtc_stm32_config) (regs : Regs) : Prop :=
  READ_BIT regs.CR 0x40 ≠ LL_RTC_HOURFORMAT_24HOUR ∨
  READ_BIT regs.PRER 0x7FFF ≠ cfg.sync_prescaler % 4294967296 ∨
  (READ_BIT regs.PRER 0x7F0000) >>> 16 ≠ cfg.async_prescaler % 4294967296

instance (cfg : rtc_stm32_config) (regs : Regs) : Decidable (configure_needs_init cfg regs) := by
  unfold configure_needs_init; exact inferInstance

/-- The state in which `rtc_stm32_configure` decides whether to enter
initialization mode: the three reads done, the write protection disabled. -/
def configure_entry (env : Env) (w : World) : World :=
  LL_RTC_DisableWriteProtection env
    (LL_RTC_GetAsynchPrescaler env
      (LL_RTC_GetSynchPrescaler env (LL_RTC_GetHourFormat env w).2).2).2

/-- The end of `rtc_stm32_configure`: the shadow register bypass where the
SoC has it, then the write protection. -/
def configure_exit (env : Env) (has_BYPSHAD : Bool) (w : World) : World :=
  LL_RTC_EnableWriteProtection env
    (if has_BYPSHAD then LL_RTC_EnableShadowRegBypass env w else w)

/-- The events of `rtc_stm32_configure` before its decision: the three reads
and the write protection disable. -/
def configure_entry_events (regs : Regs) : List Event :=
  [Event.read Reg.CR (READ_BIT regs.CR 0x40),
   Event.read Reg.PRER (READ_BIT regs.PRER 0x7FFF),
   Event.read Reg.PRER ((READ_BIT regs.PRER 0x7F0000) >>> 16),
   Event.DisableWriteProtection]

/-- The events of `rtc_stm32_configure` after its decision, on a CR of
content `cr`: the shadow register bypass where the SoC has it, then the write
protection enable. -/
def configure_exit_events (has_BYPSHAD : Bool) (cr : Nat) : List Event :=
  (if has_BYPSHAD then [Event.write Reg.CR ((cr ||| 0x20) % 4294967296)] else [])
    ++ [Event.EnableWriteProtection]

/-- The PRER content after `LL_RTC_SetSynchPrescaler` and
`LL_RTC_SetAsynchPrescaler` wrote the configured prescalers. -/
def configure_PRER (cfg : rtc_stm32_config) (prer : Nat) : Nat :=
  MODIFY_REG (MODIFY_REG prer 0x7FFF (cfg.sync_prescaler % 4294967296)) 0x7F0000
    (((cfg.async_prescaler % 4294967296) <<< 16) % 4294967296)

/-! ## Integer arithmetic of the calibration conversions -/

theorem to_int32_of_in_range (x : Int) (h1 : -2147483648 ≤ x) (h2 : x ≤ 2147483647) :
    to_int32 x = x := by
  unfold to_int32; omega

theorem tdiv_of_nonneg (a b : Int) (ha : 0 ≤ a) (hb : 0 ≤ b) : Int.tdiv a b = a / b :=
  Int.tdiv_eq_ediv ha hb

theorem tdiv_of_nonpos (a b : Int) (ha : a ≤ 0) (hb : 0 ≤ b) :
    Int.tdiv a b = -((-a) / b) := by
  have h := Int.neg_tdiv (-a) b
  rw [neg_neg] at h
  rw [h, Int.tdiv_eq_ediv (by omega) hb]

/-- The ppb to pulses conversion in terms of floor division, for operands
far from overflow. -/
theorem PPB_TO_NB_PULSES_eq (ppb : Int) (h1 : -1000000 ≤ ppb) (h2 : ppb ≤ 1000000) :
    PPB_TO_NB_PULSES ppb =
      if ppb < 0 then -((976562 - ppb * 2048) / 1953125)
      else (ppb * 2048 + 976562) / 1953125 := by
  unfold PPB_TO_NB_PULSES DIV_ROUND_CLOSEST
  have hd : Int.tdiv 1953125 2 = 976562 := by decide
  rw [hd, to_int32_of_in_range (ppb * 2048) (by omega) (by omega),
    to_int32_of_in_range 976562 (by omega) (by omega)]
  by_cases hneg : ppb < 0
  · have hn : ppb * 2048 < 0 := by omega
    simp only [hn, hneg, decide_True, if_true]
    simp only [show ¬ ((1953125 : Int) < 0) by omega, decide_False, Bool.xor_false, if_true]
    rw [to_int32_of_in_range (ppb * 2048 - 976562) (by omega) (by omega),
      tdiv_of_nonpos _ _ (by omega) (by omega)]
    have e : -(ppb * 2048 - 976562) = 976562 - ppb * 2048 := by ring
    rw [e]
    apply to_int32_of_in_range <;> omega
  · have hn : ¬ ppb * 2048 < 0 := by omega
    simp only [hn, hneg, decide_False, if_false]
    simp only [show ¬ ((1953125 : Int) < 0) by omega, decide_False, Bool.xor_false,
      Bool.false_eq_true, if_false]
    rw [to_int32_of_in_range (ppb * 2048 + 976562) (by omega) (by omega),
      tdiv_of_nonneg _ _ (by omega) (by omega)]
    apply to_int32_of_in_range <;> omega

/-- The pulses to ppb conversion in terms of floor division, for operands
far from overflow. -/
theorem NB_PULSES_TO_PPB_eq (p : Int) (h1 : -1000 ≤ p) (h2 : p ≤ 1000) :
    NB_PULSES_TO_PPB p =
      if p < 0 then -((1024 - p * 1953125) / 2048)
      else (p * 1953125 + 1024) / 2048 := by
  unfold NB_PULSES_TO_PPB DIV_ROUND_CLOSEST
  have hd : Int.tdiv 2048 2 = 1024 := by decide
  rw [hd, to_int32_of_in_range (p * 1953125) (by omega) (by omega),
    to_int32_of_in_range 1024 (by omega) (by omega)]
  by_cases hneg : p < 0
  · have hn : p * 1953125 < 0 := by omega
    simp only [hn, hneg, decide_True, if_true]
    simp only [show ¬ ((2048 : Int) < 0) by omega, decide_False, Bool.xor_false, if_true]
    rw [to_int32_of_in_range (p * 1953125 - 1024) (by omega) (by omega),
      tdiv_of_nonpos _ _ (by omega) (by omega)]
    have e : -(p * 1953125 - 1024) = 1024 - p * 1953125 := by ring
    rw [e]
    apply to_int32_of_in_range <;> omega
  · have hn : ¬ p * 1953125 < 0 := by omega
    simp only [hn, hneg, decide_False, if_false]
    simp only [show ¬ ((2048 : Int) < 0) by omega, decide_False, Bool.xor_false,
      Bool.false_eq_true, if_false]
    rw [to_int32_of_in_range (p * 1953125 + 1024) (by omega) (by omega),
      tdiv_of_nonneg _ _ (by omega) (by omega)]
    apply to_int32_of_in_range <;> omega

theorem MAX_PPB_eq : MAX_PPB = 488281 := by decide

theorem MIN_PPB_eq : MIN_PPB = -487328 := by decide

/-- Within the supported range the pulse count is the nearest integer to
`ppb * 2048 / 1953125` and lies in `-511 .. 512`. -/
theorem PPB_TO_NB_PULSES_range (ppb : Int) (h1 : -487328 ≤ ppb) (h2 : ppb ≤ 488281) :
    -511 ≤ PPB_TO_NB_PULSES ppb ∧ PPB_TO_NB_PULSES ppb ≤ 512 ∧
    PPB_TO_NB_PULSES ppb * 1953125 - ppb * 2048 ≤ 976562 ∧
    ppb * 2048 - PPB_TO_NB_PULSES ppb * 1953125 ≤ 976562 := by
  rw [PPB_TO_NB_PULSES_eq ppb (by omega) (by omega)]
  split <;> omega

/-- For a pulse count the hardware can hold, the ppb value is the nearest
integer to `p * 1953125 / 2048`. -/
theorem NB_PULSES_TO_PPB_range (p : Int) (h1 : -511 ≤ p) (h2 : p ≤ 512) :
    NB_PULSES_TO_PPB p * 2048 - p * 1953125 ≤ 1024 ∧
    p * 1953125 - NB_PULSES_TO_PPB p * 2048 ≤ 1024 := by
  rw [NB_PULSES_TO_PPB_eq p (by omega) (by omega)]
  split <;> omega

/-! ## Bit-level facts about the register macros -/

theorem testBit_MODIFY_REG (reg c s i : Nat) :
    (MODIFY_REG reg c s).testBit i =
      (decide (i < 32) && ((reg.testBit i && (decide (i < 32) ^^ c.testBit i)) || s.testBit i)) := by
  unfold MODIFY_REG
  have e1 : (4294967296 : Nat) = 2 ^ 32 := by norm_num
  have e2 : (0xFFFFFFFF : Nat) = 2 ^ 32 - 1 := by norm_num
  rw [e1, e2, Nat.testBit_mod_two_pow, Nat.testBit_or, Nat.testBit_and, Nat.testBit_xor,
    Nat.testBit_two_pow_sub_one]

theorem testBit_mod_u32 (x i : Nat) :
    (x % 4294967296).testBit i = (decide (i < 32) && x.testBit i) := by
  have e1 : (4294967296 : Nat) = 2 ^ 32 := by norm_num
  rw [e1, Nat.testBit_mod_two_pow]

theorem testBit_mod_u8 (x i : Nat) :
    (x % 256).testBit i = (decide (i < 8) && x.testBit i) := by
  have e1 : (256 : Nat) = 2 ^ 8 := by norm_num
  rw [e1, Nat.testBit_mod_two_pow]

theorem testBit_mask (lo hi i : Nat) (h : lo ≤ hi) :
    (2 ^ hi - 2 ^ lo).testBit i = decide (lo ≤ i ∧ i < hi) := by
  obtain ⟨k, rfl⟩ := Nat.exists_eq_add_of_le h
  have e : 2 ^ (lo + k) - 2 ^ lo = 2 ^ lo * (2 ^ k - 1) := by
    rw [Nat.mul_sub, pow_add, mul_one]
  rw [e, Nat.testBit_mul_pow_two, Nat.testBit_two_pow_sub_one]
  by_cases h1 : lo ≤ i <;> by_cases h2 : i < lo + k <;> simp [h1, h2] <;> omega

theorem testBit_of_lt (y n i : Nat) (hy : y < 2 ^ n) (hi : n ≤ i) : y.testBit i = false :=
  Nat.testBit_lt_two_pow (lt_of_lt_of_le hy (Nat.pow_le_pow_right (by norm_num) hi))

theorem tb_F00000 (i : Nat) : Nat.testBit 0xF00000 i = decide (20 ≤ i ∧ i < 24) :=
  testBit_mask 20 24 i (by norm_num)

theorem tb_0F0000 (i : Nat) : Nat.testBit 0x0F0000 i = decide (16 ≤ i ∧ i < 20) :=
  testBit_mask 16 20 i (by norm_num)

theorem tb_E000 (i : Nat) : Nat.testBit 0xE000 i = decide (13 ≤ i ∧ i < 16) :=
  testBit_mask 13 16 i (by norm_num)

theorem tb_1000 (i : Nat) : Nat.testBit 0x1000 i = decide (12 ≤ i ∧ i < 13) :=
  testBit_mask 12 13 i (by norm_num)

theorem tb_0F00 (i : Nat) : Nat.testBit 0x0F00 i = decide (8 ≤ i ∧ i < 12) :=
  testBit_mask 8 12 i (by norm_num)

theorem tb_30 (i : Nat) : Nat.testBit 0x30 i = decide (4 ≤ i ∧ i < 6) :=
  testBit_mask 4 6 i (by norm_num)

theorem tb_0F (i : Nat) : Nat.testBit 0x0F i = decide (0 ≤ i ∧ i < 4) :=
  testBit_mask 0 4 i (by norm_num)

theorem tb_F0 (i : Nat) : Nat.testBit 0xF0 i = decide (4 ≤ i ∧ i < 8) :=
  testBit_mask 4 8 i (by norm_num)

theorem tb_300000 (i : Nat) : Nat.testBit 0x300000 i = decide (20 ≤ i ∧ i < 22) :=
  testBit_mask 20 22 i (by norm_num)

theorem tb_7000 (i : Nat) : Nat.testBit 0x7000 i = decide (12 ≤ i ∧ i < 15) :=
  testBit_mask 12 15 i (by norm_num)

theorem tb_70 (i : Nat) : Nat.testBit 0x70 i = decide (4 ≤ i ∧ i < 7) :=
  testBit_mask 4 7 i (by norm_num)

theorem tb_FF (i : Nat) : Nat.testBit 0xFF i = decide (0 ≤ i ∧ i < 8) :=
  testBit_mask 0 8 i (by norm_num)

theorem tb_FFFF (i : Nat) : Nat.testBit 0xFFFF i = decide (0 ≤ i ∧ i < 16) :=
  testBit_mask 0 16 i (by norm_num)

theorem tb_8000 (i : Nat) : Nat.testBit 0x8000 i = decide (15 ≤ i ∧ i < 16) :=
  testBit_mask 15 16 i (by norm_num)

theorem tb_1FF (i : Nat) : Nat.testBit 0x1FF i = decide (0 ≤ i ∧ i < 9) :=
  testBit_mask 0 9 i (by norm_num)

theorem tb_40 (i : Nat) : Nat.testBit 0x40 i = decide (6 ≤ i ∧ i < 7) :=
  testBit_mask 6 7 i (by norm_num)

theorem tb_20 (i : Nat) : Nat.testBit 0x20 i = decide (5 ≤ i ∧ i < 6) :=
  testBit_mask 5 6 i (by norm_num)

theorem tb_7FFF (i : Nat) : Nat.testBit 0x7FFF i = decide (0 ≤ i ∧ i < 15) :=
  testBit_mask 0 15 i (by norm_num)

theorem tb_7F0000 (i : Nat) : Nat.testBit 0x7F0000 i = decide (16 ≤ i ∧ i < 23) :=
  testBit_mask 16 23 i (by norm_num)

theorem tb_DATE_SetYear (dr y i : Nat) :
    (DATE_SetYear dr y).testBit i =
      if i < 16 then dr.testBit i else if i < 24 then y.testBit (i - 16)
      else if i < 32 then dr.testBit i else false := by
  simp only [DATE_SetYear, testBit_MODIFY_REG, Nat.testBit_and, Nat.testBit_or,
    Nat.testBit_shiftLeft, tb_F00000, tb_0F0000, tb_F0, tb_0F]
  by_cases hi : i < 32
  · interval_cases i <;> simp
  · simp [hi, show ¬ i < 16 by omega, show ¬ i < 24 by omega]

theorem tb_DATE_SetMonth (dr m i : Nat) :
    (DATE_SetMonth dr m).testBit i =
      if i < 8 then dr.testBit i else if i < 13 then m.testBit (i - 8)
      else if i < 16 then (dr.testBit i || m.testBit (i - 8))
      else if i < 32 then dr.testBit i else false := by
  simp only [DATE_SetMonth, testBit_MODIFY_REG, Nat.testBit_and, Nat.testBit_or,
    Nat.testBit_shiftLeft, tb_1000, tb_0F00, tb_F0, tb_0F]
  by_cases hi : i < 32
  · interval_cases i <;> simp
  · simp [hi, show ¬ i < 8 by omega, show ¬ i < 13 by omega, show ¬ i < 16 by omega]

theorem tb_DATE_SetDay (dr d i : Nat) :
    (DATE_SetDay dr d).testBit i =
      if i < 6 then d.testBit i
      else if i < 8 then (dr.testBit i || d.testBit i)
      else if i < 32 then dr.testBit i else false := by
  simp only [DATE_SetDay, testBit_MODIFY_REG, Nat.testBit_and, Nat.testBit_or,
    Nat.testBit_shiftLeft, tb_30, tb_F0, tb_0F]
  by_cases hi : i < 32
  · interval_cases i <;> simp
  · simp [hi, show ¬ i < 6 by omega, show ¬ i < 8 by omega]

theorem tb_DATE_SetWeekDay (dr w i : Nat) :
    (DATE_SetWeekDay dr w).testBit i =
      if i < 13 then dr.testBit i else if i < 16 then w.testBit (i - 13)
      else if i < 32 then (dr.testBit i || w.testBit (i - 13)) else false := by
  simp only [DATE_SetWeekDay, testBit_MODIFY_REG, testBit_mod_u32, Nat.testBit_and,
    Nat.testBit_or, Nat.testBit_shiftLeft, tb_E000]
  by_cases hi : i < 32
  · interval_cases i <;> simp
  · simp [hi, show ¬ i < 13 by omega, show ¬ i < 16 by omega]

theorem tb_DATE_Get (dr i : Nat) :
    (DATE_Get dr).testBit i =
      if i < 8 then dr.testBit (i + 16) else if i < 13 then dr.testBit i
      else if i < 16 then false else if i < 22 then dr.testBit (i - 16)
      else if i < 24 then false else if i < 27 then dr.testBit (i - 11) else false := by
  simp only [DATE_Get, READ_BIT, Nat.testBit_and, Nat.testBit_or, Nat.testBit_shiftLeft,
    Nat.testBit_shiftRight, tb_F00000, tb_0F0000, tb_E000, tb_1000, tb_0F00, tb_30, tb_0F]
  by_cases hi : i < 32
  · interval_cases i <;> simp
  · simp [hi, show ¬ i < 8 by omega, show ¬ i < 13 by omega, show ¬ i < 16 by omega, show ¬ i < 22 by omega, show ¬ i < 24 by omega, show ¬ i < 27 by omega]
    omega

theorem tb_TIME_SetHour (tr h i : Nat) :
    (TIME_SetHour tr h).testBit i =
      if i < 16 then tr.testBit i else if i < 22 then h.testBit (i - 16)
      else if i < 24 then (tr.testBit i || h.testBit (i - 16))
      else if i < 32 then tr.testBit i else false := by
  simp only [TIME_SetHour, testBit_MODIFY_REG, Nat.testBit_and, Nat.testBit_or,
    Nat.testBit_shiftLeft, tb_300000, tb_0F0000, tb_F0, tb_0F]
  by_cases hi : i < 32
  · interval_cases i <;> simp
  · simp [hi, show ¬ i < 16 by omega, show ¬ i < 22 by omega, show ¬ i < 24 by omega]

theorem tb_TIME_SetMinute (tr m i : Nat) :
    (TIME_SetMinute tr m).testBit i =
      if i < 8 then tr.testBit i else if i < 15 then m.testBit (i - 8)
      else if i < 16 then (tr.testBit i || m.testBit (i - 8))
      else if i < 32 then tr.testBit i else false := by
  simp only [TIME_SetMinute, testBit_MODIFY_REG, Nat.testBit_and, Nat.testBit_or,
    Nat.testBit_shiftLeft, tb_7000, tb_0F00, tb_F0, tb_0F]
  by_cases hi : i < 32
  · interval_cases i <;> simp
  · simp [hi, show ¬ i < 8 by omega, show ¬ i < 15 by omega, show ¬ i < 16 by omega]

theorem tb_TIME_SetSecond (tr s i : Nat) :
    (TIME_SetSecond tr s).testBit i =
      if i < 7 then s.testBit i
      else if i < 8 then (tr.testBit i || s.testBit i)
      else if i < 32 then tr.testBit i else false := by
  simp only [TIME_SetSecond, testBit_MODIFY_REG, Nat.testBit_and, Nat.testBit_or,
    Nat.testBit_shiftLeft, tb_70, tb_F0, tb_0F]
  by_cases hi : i < 32
  · interval_cases i <;> simp
  · simp [hi, show ¬ i < 7 by omega, show ¬ i < 8 by omega]

theorem tb_TIME_Get (tr i : Nat) :
    (TIME_Get tr).testBit i =
      if i < 7 then tr.testBit i else if i < 8 then false
      else if i < 15 then tr.testBit i else if i < 16 then false
      else if i < 22 then tr.testBit i else false := by
  simp only [TIME_Get, READ_BIT, Nat.testBit_and, Nat.testBit_or, Nat.testBit_shiftLeft,
    Nat.testBit_shiftRight, tb_300000, tb_0F0000, tb_7000, tb_0F00, tb_70, tb_0F]
  by_cases hi : i < 32
  · interval_cases i <;> simp
  · simp [hi, show ¬ i < 7 by omega, show ¬ i < 8 by omega, show ¬ i < 15 by omega, show ¬ i < 16 by omega, show ¬ i < 22 by omega]
    omega

/-- Reading the date back after the four LL date setters: the year byte. -/
theorem get_year_after_set (dr y m d w : Nat) (hy : y < 256) (hw : w < 8) :
    __LL_RTC_GET_YEAR (DATE_Get (DATE_SetWeekDay (DATE_SetDay (DATE_SetMonth
      (DATE_SetYear dr y) m) d) w)) = y := by
  apply Nat.eq_of_testBit_eq
  intro i
  have hy1 : ∀ j, 8 ≤ j → y.testBit j = false := fun j hj => testBit_of_lt y 8 j hy hj
  have hw1 : ∀ j, 3 ≤ j → w.testBit j = false := fun j hj => testBit_of_lt w 3 j hw hj
  simp only [__LL_RTC_GET_YEAR, Nat.testBit_and, tb_FF, tb_DATE_Get, tb_DATE_SetWeekDay,
    tb_DATE_SetDay, tb_DATE_SetMonth, tb_DATE_SetYear]
  by_cases hi : i < 8
  · interval_cases i <;> simp [hw1]
  · simp [hi, hy1 i (by omega)]

/-- Reading the date back after the four LL date setters: the month byte. -/
theorem get_month_after_set (dr y m d w : Nat) (hm : m < 32) :
    __LL_RTC_GET_MONTH (DATE_Get (DATE_SetWeekDay (DATE_SetDay (DATE_SetMonth
      (DATE_SetYear dr y) m) d) w)) = m := by
  apply Nat.eq_of_testBit_eq
  intro i
  have hm1 : ∀ j, 5 ≤ j → m.testBit j = false := fun j hj => testBit_of_lt m 5 j hm hj
  simp only [__LL_RTC_GET_MONTH, Nat.testBit_and, Nat.testBit_shiftRight, tb_FF, tb_DATE_Get,
    tb_DATE_SetWeekDay, tb_DATE_SetDay, tb_DATE_SetMonth, tb_DATE_SetYear]
  by_cases hi : i < 8
  · interval_cases i <;> simp [hm1]
  · simp [hi, hm1 i (by omega)]

/-- Reading the date back after the four LL date setters: the day byte. -/
theorem get_day_after_set (dr y m d w : Nat) (hd : d < 64) :
    __LL_RTC_GET_DAY (DATE_Get (DATE_SetWeekDay (DATE_SetDay (DATE_SetMonth
      (DATE_SetYear dr y) m) d) w)) = d := by
  apply Nat.eq_of_testBit_eq
  intro i
  have hd1 : ∀ j, 6 ≤ j → d.testBit j = false := fun j hj => testBit_of_lt d 6 j hd hj
  simp only [__LL_RTC_GET_DAY, Nat.testBit_and, Nat.testBit_shiftRight, tb_FF, tb_DATE_Get,
    tb_DATE_SetWeekDay, tb_DATE_SetDay, tb_DATE_SetMonth, tb_DATE_SetYear]
  by_cases hi : i < 8
  · interval_cases i <;> simp [hd1]
  · simp [hi, hd1 i (by omega)]

/-- The weekday byte of the date read back is the code given to the weekday
setter, whatever the register held before. -/
theorem get_weekday_after_set (dr w : Nat) (hw : w < 8) :
    __LL_RTC_GET_WEEKDAY (DATE_Get (DATE_SetWeekDay dr w)) = w := by
  apply Nat.eq_of_testBit_eq
  intro i
  have hw1 : ∀ j, 3 ≤ j → w.testBit j = false := fun j hj => testBit_of_lt w 3 j hw hj
  simp only [__LL_RTC_GET_WEEKDAY, Nat.testBit_and, Nat.testBit_shiftRight, tb_FF, tb_DATE_Get,
    tb_DATE_SetWeekDay]
  by_cases hi : i < 8
  · interval_cases i <;> simp [hw1]
  · simp [hi, hw1 i (by omega)]

/-- The WDU field (bits 15:13) of the DR content the weekday setter leaves
is the code given to it. -/
theorem WDU_after_set (dr w : Nat) (hw : w < 8) :
    (DATE_SetWeekDay dr w >>> 13) &&& 7 = w := by
  apply Nat.eq_of_testBit_eq
  intro i
  have hw1 : ∀ j, 3 ≤ j → w.testBit j = false := fun j hj => testBit_of_lt w 3 j hw hj
  have h7 : ∀ j, Nat.testBit 7 j = decide (0 ≤ j ∧ j < 3) := fun j =>
    testBit_mask 0 3 j (by norm_num)
  simp only [Nat.testBit_and, Nat.testBit_shiftRight, tb_DATE_SetWeekDay, h7]
  by_cases hi : i < 3
  · interval_cases i <;> simp
  · simp [hi, hw1 i (by omega)]

/-- The weekday byte of any date word read from the hardware is at most 7. -/
theorem get_weekday_le (dr : Nat) : __LL_RTC_GET_WEEKDAY (DATE_Get dr) ≤ 7 := by
  have h : __LL_RTC_GET_WEEKDAY (DATE_Get dr) = __LL_RTC_GET_WEEKDAY (DATE_Get dr) % 2 ^ 3 := by
    apply Nat.eq_of_testBit_eq
    intro i
    simp only [__LL_RTC_GET_WEEKDAY, Nat.testBit_and, Nat.testBit_shiftRight, tb_FF, tb_DATE_Get,
      Nat.testBit_mod_two_pow]
    by_cases hi : i < 8
    · interval_cases i <;> simp
    · simp [hi]
  have := Nat.mod_lt (__LL_RTC_GET_WEEKDAY (DATE_Get dr)) (show 2 ^ 3 > 0 by norm_num)
  omega

/-- Reading the time back after the three LL time setters: the hour byte. -/
theorem get_hour_after_set (tr h m s : Nat) (hh : h < 64) :
    __LL_RTC_GET_HOUR (TIME_Get (TIME_SetSecond (TIME_SetMinute (TIME_SetHour tr h) m) s)) = h := by
  apply Nat.eq_of_testBit_eq
  intro i
  have hh1 : ∀ j, 6 ≤ j → h.testBit j = false := fun j hj => testBit_of_lt h 6 j hh hj
  simp only [__LL_RTC_GET_HOUR, Nat.testBit_and, Nat.testBit_shiftRight, tb_FF, tb_TIME_Get,
    tb_TIME_SetSecond, tb_TIME_SetMinute, tb_TIME_SetHour]
  by_cases hi : i < 8
  · interval_cases i <;> simp [hh1]
  · simp [hi, hh1 i (by omega)]

/-- Reading the time back after the three LL time setters: the minute byte. -/
theorem get_minute_after_set (tr h m s : Nat) (hm : m < 128) :
    __LL_RTC_GET_MINUTE (TIME_Get (TIME_SetSecond (TIME_SetMinute (TIME_SetHour tr h) m) s)) = m := by
  apply Nat.eq_of_testBit_eq
  intro i
  have hm1 : ∀ j, 7 ≤ j → m.testBit j = false := fun j hj => testBit_of_lt m 7 j hm hj
  simp only [__LL_RTC_GET_MINUTE, Nat.testBit_and, Nat.testBit_shiftRight, tb_FF, tb_TIME_Get,
    tb_TIME_SetSecond, tb_TIME_SetMinute, tb_TIME_SetHour]
  by_cases hi : i < 8
  · interval_cases i <;> simp [hm1]
  · simp [hi, hm1 i (by omega)]

/-- Reading the time back after the three LL time setters: the second byte. -/
theorem get_second_after_set (tr h m s : Nat) (hs : s < 128) :
    __LL_RTC_GET_SECOND (TIME_Get (TIME_SetSecond (TIME_SetMinute (TIME_SetHour tr h) m) s)) = s := by
  apply Nat.eq_of_testBit_eq
  intro i
  have hs1 : ∀ j, 7 ≤ j → s.testBit j = false := fun j hj => testBit_of_lt s 7 j hs hj
  simp only [__LL_RTC_GET_SECOND, Nat.testBit_and, tb_FF, tb_TIME_Get,
    tb_TIME_SetSecond, tb_TIME_SetMinute, tb_TIME_SetHour]
  by_cases hi : i < 8
  · interval_cases i <;> simp [hs1]
  · simp [hi, hs1 i (by omega)]

/-! ## The BCD codec on the calendar ranges -/

theorem bcd_roundtrip_lt_160 (x : Nat) (h : x < 160) : bcd2bin (bin2bcd x) = x := by
  interval_cases x <;> rfl

theorem bin2bcd_lt_256 (x : Nat) : bin2bcd x < 256 := by
  unfold bin2bcd; omega

theorem bin2bcd_le_12 (x : Nat) (h : x ≤ 12) : bin2bcd x < 32 := by
  interval_cases x <;> decide

theorem bin2bcd_le_31 (x : Nat) (h : x ≤ 31) : bin2bcd x < 64 := by
  interval_cases x <;> decide

theorem bin2bcd_le_59 (x : Nat) (h : x ≤ 59) : bin2bcd x < 128 := by
  interval_cases x <;> decide

/-! ## The bounded wait -/

/-- When the first poll already holds, the loop is left at once and the
result is the second evaluation of the expression. -/
theorem WAIT_FOR_of_first (expr : World → Bool × World) (delay : World → World)
    (timeout : Nat) (w : World) (h : (expr w).1 = true) :
    WAIT_FOR expr timeout delay w = expr (expr w).2 := by
  unfold WAIT_FOR
  rw [WAIT_FOR_loop]
  simp [h]

theorem advance_of_no_tick (env : Env) (hT : ∀ n c, env.tick n c = c) (w : World) :
    w.advance env = { w with steps := w.steps + 1 } := by
  simp [World.advance, hT]

/-- Entering initialization mode when the INITF flag reads as set. -/
theorem enter_initialization_mode_of_INITF (env : Env) (w : World)
    (h1 : env.INITF (w.steps + 1) = true) (h2 : env.INITF (w.steps + 2) = true) :
    rtc_stm32_enter_initialization_mode env w =
      (0, (LL_RTC_IsActiveFlag_INIT env (LL_RTC_IsActiveFlag_INIT env
        (LL_RTC_EnableInitMode env w)).2).2) := by
  unfold rtc_stm32_enter_initialization_mode
  have hs : (LL_RTC_EnableInitMode env w).steps = w.steps + 1 := by
    simp [LL_RTC_EnableInitMode, World.advance]
  have hp : (LL_RTC_IsActiveFlag_INIT env (LL_RTC_EnableInitMode env w)).1 = true := by
    simp [LL_RTC_IsActiveFlag_INIT, hs, h1]
  have hs2 : (LL_RTC_IsActiveFlag_INIT env (LL_RTC_EnableInitMode env w)).2.steps = w.steps + 2 := by
    simp [LL_RTC_IsActiveFlag_INIT, World.advance, hs]
  have hp2 : (LL_RTC_IsActiveFlag_INIT env
      (LL_RTC_IsActiveFlag_INIT env (LL_RTC_EnableInitMode env w)).2).1 = true := by
    simp only [LL_RTC_IsActiveFlag_INIT] at hs2 ⊢
    simp [hs2, h2]
  simp only [WAIT_FOR_of_first _ _ _ _ hp, hp2]
  simp

/-- A successful `rtc_stm32_set_time` on a quiet register file: the return
value, the lock and the calendar registers on return. -/
theorem set_time_on_quiet_hardware (env : Env) (hI : ∀ n, env.INITF n = true)
    (hT : ∀ n c, env.tick n c = c) (timeptr : rtc_time) (w : World)
    (hy : ¬ to_uint32 (to_int32 (timeptr.tm_year + TM_YEAR_REF)) < RTC_YEAR_REF)
    (hwd : timeptr.tm_wday ≠ -1) (hl : w.locked = false) :
    (rtc_stm32_set_time env timeptr w).1 = 0 ∧
    (rtc_stm32_set_time env timeptr w).2.locked = false ∧
    (rtc_stm32_set_time env timeptr w).2.regs.DR = set_time_DR timeptr w.regs.DR ∧
    (rtc_stm32_set_time env timeptr w).2.regs.TR = set_time_TR timeptr w.regs.TR ∧
    (rtc_stm32_set_time env timeptr w).2.regs.SSR = w.regs.SSR := by
  unfold rtc_stm32_set_time
  simp only [hy, hwd, if_false]
  have hk : k_mutex_lock w = (0, { w with locked := true, trace := w.trace ++ [Event.k_mutex_lock] }) := by
    simp [k_mutex_lock, hl]
  rw [hk]
  simp only [ne_eq, not_true_eq_false, if_false]
  rw [enter_initialization_mode_of_INITF env _ (hI _) (hI _)]
  simp only [ne_eq, not_true_eq_false, if_false]
  by_cases h0 : timeptr.tm_wday = 0 <;>
  simp [h0, set_time_DR, set_time_TR, set_time_weekday_code, k_mutex_unlock,
    LL_RTC_EnableWriteProtection, rtc_stm32_leave_initialization_mode, LL_RTC_DisableInitMode,
    LL_RTC_TIME_SetSecond, LL_RTC_TIME_SetMinute, LL_RTC_TIME_SetHour, LL_RTC_DATE_SetWeekDay,
    LL_RTC_DATE_SetDay, LL_RTC_DATE_SetMonth, LL_RTC_DATE_SetYear, write_DR, write_TR,
    LL_RTC_IsActiveFlag_INIT, LL_RTC_EnableInitMode, LL_RTC_DisableWriteProtection,
    advance_of_no_tick env hT]

/-- On a counter that does not tick, both loops of `rtc_stm32_get_time` end
after one pass and the snapshot is the content of the registers. -/
theorem get_time_on_quiet_hardware (env : Env) (hT : ∀ n c, env.tick n c = c)
    (cfg : rtc_stm32_config) (fuel : Nat) (timeptr : rtc_time) (w : World)
    (hl : w.locked = false) :
    ∃ w1, rtc_stm32_get_time (fuel + 1) env cfg timeptr w =
      some (0, get_time_fill cfg (DATE_Get w.regs.DR) (TIME_Get w.regs.TR)
        (READ_BIT w.regs.SSR 0xFFFF) timeptr, w1) ∧ w1.locked = false ∧ w1.regs = w.regs := by
  unfold rtc_stm32_get_time
  have hk : k_mutex_lock w = (0, { w with locked := true, trace := w.trace ++ [Event.k_mutex_lock] }) := by
    simp [k_mutex_lock, hl]
  rw [hk]
  simp only [ne_eq, not_true_eq_false, if_false]
  simp [get_time_read_date, get_time_read_time, LL_RTC_DATE_Get, LL_RTC_TIME_Get,
    LL_RTC_TIME_GetSubSecond, advance_of_no_tick env hT, k_mutex_unlock]

/-! ## Conversions of in-range calendar fields -/

theorem to_uint8_of_small (x : Int) (h0 : 0 ≤ x) (h1 : x ≤ 255) : to_uint8 x = x.toNat := by
  unfold to_uint8; omega

theorem set_time_year_arg (tm_year : Int) (h0 : 100 ≤ tm_year) (h1 : tm_year ≤ 2147481747) :
    to_uint32 ((to_uint32 (to_int32 (tm_year + TM_YEAR_REF)) : Int) - RTC_YEAR_REF)
      = (tm_year - 100).toNat := by
  unfold to_uint32 to_int32 TM_YEAR_REF RTC_YEAR_REF
  omega

/-- The translation back of the fields written by `rtc_stm32_set_time`, for
a structure within the ranges of the calendar. -/
theorem get_time_fill_of_set_time (cfg : rtc_stm32_config) (t out : rtc_time) (dr tr ss : Nat)
    (hwd : 0 ≤ t.tm_wday ∧ t.tm_wday ≤ 6)
    (hy : 2000 ≤ t.tm_year + 1900 ∧ t.tm_year + 1900 ≤ 2159)
    (hmon : 0 ≤ t.tm_mon ∧ t.tm_mon ≤ 11)
    (hmday : 1 ≤ t.tm_mday ∧ t.tm_mday ≤ 31)
    (hhour : 0 ≤ t.tm_hour ∧ t.tm_hour ≤ 23)
    (hmin : 0 ≤ t.tm_min ∧ t.tm_min ≤ 59)
    (hsec : 0 ≤ t.tm_sec ∧ t.tm_sec ≤ 59) :
    let t1 := get_time_fill cfg (DATE_Get (set_time_DR t dr)) (TIME_Get (set_time_TR t tr)) ss out
    t1.tm_year = t.tm_year ∧ t1.tm_mon = t.tm_mon ∧ t1.tm_mday = t.tm_mday ∧
    t1.tm_wday = t.tm_wday ∧ t1.tm_hour = t.tm_hour ∧ t1.tm_min = t.tm_min ∧
    t1.tm_sec = t.tm_sec := by
  intro t1
  have hcode : set_time_weekday_code t < 8 := by
    unfold set_time_weekday_code LL_RTC_WEEKDAY_SUNDAY to_uint32
    split <;> omega
  have eY : to_uint8 (to_uint32 ((to_uint32 (to_int32 (t.tm_year + TM_YEAR_REF)) : Int)
      - RTC_YEAR_REF)) = (t.tm_year - 100).toNat := by
    rw [set_time_year_arg _ (by omega) (by omega)]
    unfold to_uint8; omega
  have eM : to_uint8 (to_int32 (t.tm_mon + 1)) = (t.tm_mon + 1).toNat := by
    unfold to_uint8 to_int32; omega
  have eD : to_uint8 t.tm_mday = t.tm_mday.toNat := to_uint8_of_small _ (by omega) (by omega)
  have eH : to_uint8 t.tm_hour = t.tm_hour.toNat := to_uint8_of_small _ (by omega) (by omega)
  have eMi : to_uint8 t.tm_min = t.tm_min.toNat := to_uint8_of_small _ (by omega) (by omega)
  have eS : to_uint8 t.tm_sec = t.tm_sec.toNat := to_uint8_of_small _ (by omega) (by omega)
  have gY := get_year_after_set dr (bin2bcd (t.tm_year - 100).toNat)
    (bin2bcd (t.tm_mon + 1).toNat) (bin2bcd t.tm_mday.toNat) (set_time_weekday_code t)
    (bin2bcd_lt_256 _) hcode
  have gM := get_month_after_set dr (bin2bcd (t.tm_year - 100).toNat)
    (bin2bcd (t.tm_mon + 1).toNat) (bin2bcd t.tm_mday.toNat) (set_time_weekday_code t)
    (bin2bcd_le_12 _ (by omega))
  have gD := get_day_after_set dr (bin2bcd (t.tm_year - 100).toNat)
    (bin2bcd (t.tm_mon + 1).toNat) (bin2bcd t.tm_mday.toNat) (set_time_weekday_code t)
    (bin2bcd_le_31 _ (by omega))
  have gW := get_weekday_after_set (DATE_SetDay (DATE_SetMonth (DATE_SetYear dr
    (bin2bcd (t.tm_year - 100).toNat)) (bin2bcd (t.tm_mon + 1).toNat))
    (bin2bcd t.tm_mday.toNat)) (set_time_weekday_code t) hcode
  have gH := get_hour_after_set tr (bin2bcd t.tm_hour.toNat) (bin2bcd t.tm_min.toNat)
    (bin2bcd t.tm_sec.toNat) (bin2bcd_le_31 _ (by omega))
  have gMi := get_minute_after_set tr (bin2bcd t.tm_hour.toNat) (bin2bcd t.tm_min.toNat)
    (bin2bcd t.tm_sec.toNat) (bin2bcd_le_59 _ (by omega))
  have gS := get_second_after_set tr (bin2bcd t.tm_hour.toNat) (bin2bcd t.tm_min.toNat)
    (bin2bcd t.tm_sec.toNat) (bin2bcd_le_59 _ (by omega))
  have bY := bcd_roundtrip_lt_160 (t.tm_year - 100).toNat (by omega)
  have bM := bcd_roundtrip_lt_160 (t.tm_mon + 1).toNat (by omega)
  have bD := bcd_roundtrip_lt_160 t.tm_mday.toNat (by omega)
  have bH := bcd_roundtrip_lt_160 t.tm_hour.toNat (by omega)
  have bMi := bcd_roundtrip_lt_160 t.tm_min.toNat (by omega)
  have bS := bcd_roundtrip_lt_160 t.tm_sec.toNat (by omega)
  simp only [t1, get_time_fill, set_time_DR, set_time_TR, eY, eM, eD, eH, eMi, eS, gY, gM, gD, gW,
    gH, gMi, gS, bY, bM, bD, bH, bMi, bS]
  refine ⟨?_, ?_, ?_, ?_, ?_, ?_, ?_⟩
  · unfold to_int32 RTC_YEAR_REF TM_YEAR_REF; omega
  · unfold to_int32; omega
  · omega
  · unfold set_time_weekday_code LL_RTC_WEEKDAY_SUNDAY to_uint32 to_int32
    by_cases h0 : t.tm_wday = 0
    · simp [h0]
    · simp only [h0, if_false]
      split <;> omega
  · omega
  · omega
  · omega

/-- C3 (as amended): for every rtc_time t with tm_wday in 0..6, year in
2000..2159 and month, day of month, hour, minute and second in their
calendar ranges, on a register file whose INITF flag reads as set, whose
lock is free and whose counter does not tick, rtc_stm32_set_time(t) returns
0 and the rtc_stm32_get_time that follows returns 0 with tm_year, tm_mon,
tm_mday, tm_wday, tm_hour, tm_min and tm_sec equal to those of t. -/
theorem set_time_get_time_round_trip (env : Env) (cfg : rtc_stm32_config) (fuel : Nat)
    (t out : rtc_time) (w : World)
    (hI : ∀ n, env.INITF n = true) (hT : ∀ n c, env.tick n c = c)
    (hl : w.locked = false)
    (hwd : 0 ≤ t.tm_wday ∧ t.tm_wday ≤ 6)
    (hy : 2000 ≤ t.tm_year + 1900 ∧ t.tm_year + 1900 ≤ 2159)
    (hmon : 0 ≤ t.tm_mon ∧ t.tm_mon ≤ 11)
    (hmday : 1 ≤ t.tm_mday ∧ t.tm_mday ≤ 31)
    (hhour : 0 ≤ t.tm_hour ∧ t.tm_hour ≤ 23)
    (hmin : 0 ≤ t.tm_min ∧ t.tm_min ≤ 59)
    (hsec : 0 ≤ t.tm_sec ∧ t.tm_sec ≤ 59) :
    (rtc_stm32_set_time env t w).1 = 0 ∧
    ∃ t1 w1, rtc_stm32_get_time (fuel + 1) env cfg out (rtc_stm32_set_time env t w).2
        = some (0, t1, w1) ∧
      t1.tm_year = t.tm_year ∧ t1.tm_mon = t.tm_mon ∧ t1.tm_mday = t.tm_mday ∧
      t1.tm_wday = t.tm_wday ∧ t1.tm_hour = t.tm_hour ∧ t1.tm_min = t.tm_min ∧
      t1.tm_sec = t.tm_sec := by
  have hyv : ¬ to_uint32 (to_int32 (t.tm_year + TM_YEAR_REF)) < RTC_YEAR_REF := by
    unfold to_uint32 to_int32 TM_YEAR_REF RTC_YEAR_REF; omega
  have hwv : t.tm_wday ≠ -1 := by omega
  obtain ⟨h1, h2, h3, h4, _⟩ := set_time_on_quiet_hardware env hI hT t w hyv hwv hl
  obtain ⟨w1, hg, _, _⟩ := get_time_on_quiet_hardware env hT cfg fuel out
    (rtc_stm32_set_time env t w).2 h2
  refine ⟨h1, _, w1, hg, ?_⟩
  rw [h3, h4]
  exact get_time_fill_of_set_time cfg t out _ _ _ hwd hy hmon hmday hhour hmin hsec

/-- Witness of C3: Tuesday 31 December 2024, 23:59:58 on the idle register
file. -/
theorem set_time_get_time_round_trip_witness :
    (rtc_stm32_set_time quiet_env sample_time idle_world).1 = 0 ∧
    ∃ t1 w1, rtc_stm32_get_time (0 + 1) quiet_env rtc_config_LSE sample_time
        (rtc_stm32_set_time quiet_env sample_time idle_world).2 = some (0, t1, w1) ∧
      t1.tm_year = sample_time.tm_year ∧ t1.tm_mon = sample_time.tm_mon ∧
      t1.tm_mday = sample_time.tm_mday ∧ t1.tm_wday = sample_time.tm_wday ∧
      t1.tm_hour = sample_time.tm_hour ∧ t1.tm_min = sample_time.tm_min ∧
      t1.tm_sec = sample_time.tm_sec :=
  set_time_get_time_round_trip quiet_env rtc_config_LSE 0 sample_time sample_time idle_world
    (fun _ => rfl) (fun _ _ => rfl) rfl (by decide) (by decide) (by decide) (by decide)
    (by decide) (by decide) (by decide)

/-- C3 (as stated) fails for the year 2160: every field is within its
calendar range and the year is not before 2000, both calls return 0, and
the year read back is 2000 (tm_year 100) instead of 2160 (tm_year 260). -/
theorem set_time_get_time_year_2160 :
    (rtc_stm32_set_time quiet_env { sample_time with tm_year := 260 } idle_world).1 = 0 ∧
    (rtc_stm32_get_time 1 quiet_env rtc_config_LSE sample_time
      (rtc_stm32_set_time quiet_env { sample_time with tm_year := 260 } idle_world).2).map
        (fun r => (r.1, r.2.1.tm_year)) = some (0, 100) := by
  decide

/-! ## Calibration -/

/-- Within the supported range neither assertion fails, and the function
is the bounded wait followed by the write of CALR. -/
theorem set_calibration_in_range (env : Env) (calibration : Int) (w : World)
    (h1 : MIN_PPB ≤ calibration) (h2 : calibration ≤ MAX_PPB) :
    rtc_stm32_set_calibration env calibration w =
      if !(WAIT_FOR (recalp_is_clear env) 100000 (k_msleep env 1) w).1 then
        (some (- EIO), (WAIT_FOR (recalp_is_clear env) 100000 (k_msleep env 1) w).2)
      else
        (some 0, LL_RTC_EnableWriteProtection env
          (MODIFY_REG_CALR env (RTC_CALR_CALP ||| RTC_CALR_CALM)
            (calibration_calp (PPB_TO_NB_PULSES calibration) |||
              calibration_calm (PPB_TO_NB_PULSES calibration))
            (LL_RTC_DisableWriteProtection env
              (WAIT_FOR (recalp_is_clear env) 100000 (k_msleep env 1) w).2))) := by
  rw [MIN_PPB_eq] at h1
  rw [MAX_PPB_eq] at h2
  obtain ⟨r1, r2, _, _⟩ := PPB_TO_NB_PULSES_range calibration h1 h2
  have hm : to_int32 (-MAX_CALM) = -511 := by decide
  unfold rtc_stm32_set_calibration
  rw [MAX_PPB_eq, MIN_PPB_eq, hm]
  have hc : ¬ (calibration > 488281 ∨ calibration < -487328) := by omega
  have ha1 : ¬ ¬ PPB_TO_NB_PULSES calibration ≤ MAX_CALP := by
    unfold MAX_CALP; omega
  have ha2 : ¬ ¬ PPB_TO_NB_PULSES calibration ≥ -511 := by omega
  simp only [hc, ha1, ha2, if_false]
  rfl

/-- C1: rtc_stm32_set_calibration rejects exactly the out-of-range requests.
MAX_PPB is 488281 and MIN_PPB is -487328; the function returns -EINVAL if and
only if calibration > MAX_PPB or calibration < MIN_PPB, and then leaves the
whole state, CALR included, untouched; MAX_PPB + 1 and MIN_PPB - 1 are
rejected; every value of the range, MAX_PPB and MIN_PPB included, returns 0
when the RECALPF flag reads as clear. -/
theorem set_calibration_rejects_out_of_range (env : Env) (w : World) (calibration : Int) :
    MAX_PPB = 488281 ∧ MIN_PPB = -487328 ∧
    ((rtc_stm32_set_calibration env calibration w).1 = some (-EINVAL) ↔
      (calibration > MAX_PPB ∨ calibration < MIN_PPB)) ∧
    ((calibration > MAX_PPB ∨ calibration < MIN_PPB) →
      rtc_stm32_set_calibration env calibration w = (some (-EINVAL), w)) ∧
    (rtc_stm32_set_calibration env (MAX_PPB + 1) w).1 = some (-EINVAL) ∧
    (rtc_stm32_set_calibration env (MIN_PPB - 1) w).1 = some (-EINVAL) ∧
    (env.RECALPF w.steps = false → env.RECALPF (w.steps + 1) = false →
      (MIN_PPB ≤ calibration ∧ calibration ≤ MAX_PPB →
        (rtc_stm32_set_calibration env calibration w).1 = some 0) ∧
      (rtc_stm32_set_calibration env MAX_PPB w).1 = some 0 ∧
      (rtc_stm32_set_calibration env MIN_PPB w).1 = some 0) := by
  have hout : ∀ c : Int, (c > MAX_PPB ∨ c < MIN_PPB) →
      rtc_stm32_set_calibration env c w = (some (-EINVAL), w) := by
    intro c hc
    unfold rtc_stm32_set_calibration
    simp only [hc, if_true]
  have hin : ∀ c : Int, MIN_PPB ≤ c → c ≤ MAX_PPB →
      (rtc_stm32_set_calibration env c w).1 ≠ some (-EINVAL) := by
    intro c h1 h2
    rw [set_calibration_in_range env c w h1 h2]
    split <;> simp [EINVAL, EIO]
  have hclear : env.RECALPF w.steps = false → env.RECALPF (w.steps + 1) = false →
      ∀ c : Int, MIN_PPB ≤ c → c ≤ MAX_PPB →
        (rtc_stm32_set_calibration env c w).1 = some 0 := by
    intro f1 f2 c h1 h2
    rw [set_calibration_in_range env c w h1 h2]
    have hp : (recalp_is_clear env w).1 = true := by
      simp [recalp_is_clear, LL_RTC_IsActiveFlag_RECALP, f1]
    have hp2 : (recalp_is_clear env (recalp_is_clear env w).2).1 = true := by
      simp [recalp_is_clear, LL_RTC_IsActiveFlag_RECALP, World.advance, f2]
    rw [WAIT_FOR_of_first _ _ _ _ hp]
    simp [hp2]
  refine ⟨MAX_PPB_eq, MIN_PPB_eq, ⟨?_, fun h => by rw [hout _ h]⟩, hout _, ?_, ?_, ?_⟩
  · intro h
    by_contra hc
    exact hin calibration (by omega) (by omega) h
  · rw [hout _ (by left; omega)]
  · rw [hout _ (by right; omega)]
  · intro f1 f2
    refine ⟨fun h => hclear f1 f2 _ h.1 h.2, hclear f1 f2 _ ?_ ?_, hclear f1 f2 _ ?_ ?_⟩
    · rw [MAX_PPB_eq, MIN_PPB_eq]; omega
    · exact le_refl _
    · exact le_refl _
    · rw [MAX_PPB_eq, MIN_PPB_eq]; omega

/-- Witness of C1 on the idle register file with the RECALPF flag clear. -/
theorem set_calibration_rejects_out_of_range_witness :
    (rtc_stm32_set_calibration quiet_env 488282 idle_world).1 = some (-EINVAL) ∧
    (rtc_stm32_set_calibration quiet_env 100000 idle_world).1 = some 0 ∧
    (rtc_stm32_set_calibration quiet_env MAX_PPB idle_world).1 = some 0 ∧
    (rtc_stm32_set_calibration quiet_env MIN_PPB idle_world).1 = some 0 :=
  ⟨(set_calibration_rejects_out_of_range quiet_env idle_world 488282).2.2.1.mpr
      (Or.inl (by decide)),
    ((set_calibration_rejects_out_of_range quiet_env idle_world 100000).2.2.2.2.2.2
      rfl rfl).1 ⟨by decide, by decide⟩,
    ((set_calibration_rejects_out_of_range quiet_env idle_world 100000).2.2.2.2.2.2
      rfl rfl).2.1,
    ((set_calibration_rejects_out_of_range quiet_env idle_world 100000).2.2.2.2.2.2
      rfl rfl).2.2⟩

/-- Reading the CALM field back from a CALR written with a CALP value and a
CALM value that fit their fields. -/
theorem CALR_read_CALM (c a m : Nat) (ha : a = 0 ∨ a = 0x8000) (hm : m < 512) :
    READ_BIT ((MODIFY_REG c (RTC_CALR_CALP ||| RTC_CALR_CALM) (a ||| m)) % 4294967296)
      RTC_CALR_CALM = m := by
  apply Nat.eq_of_testBit_eq
  intro i
  have hm1 : ∀ j, 9 ≤ j → m.testBit j = false := fun j hj => testBit_of_lt m 9 j hm hj
  simp only [READ_BIT, RTC_CALR_CALP, RTC_CALR_CALM, Nat.testBit_and, Nat.testBit_or,
    testBit_mod_u32, testBit_MODIFY_REG, tb_8000, tb_1FF]
  by_cases hi : i < 9
  · rcases ha with rfl | rfl <;> interval_cases i <;> simp [tb_8000]
  · simp [hi, hm1 i (by omega)]

/-- Reading the CALP bit back from a CALR written with a CALP value and a
CALM value that fit their fields. -/
theorem CALR_read_CALP (c a m : Nat) (ha : a = 0 ∨ a = 0x8000) (hm : m < 512) :
    READ_BIT ((MODIFY_REG c (RTC_CALR_CALP ||| RTC_CALR_CALM) (a ||| m)) % 4294967296)
      RTC_CALR_CALP = a := by
  apply Nat.eq_of_testBit_eq
  intro i
  have hm1 : ∀ j, 9 ≤ j → m.testBit j = false := fun j hj => testBit_of_lt m 9 j hm hj
  simp only [READ_BIT, RTC_CALR_CALP, RTC_CALR_CALM, Nat.testBit_and, Nat.testBit_or,
    testBit_mod_u32, testBit_MODIFY_REG, tb_8000, tb_1FF]
  by_cases hi : i = 15
  · subst hi
    rcases ha with rfl | rfl <;> simp [tb_8000, hm1]
  · have h0 : a.testBit i = false := by
      rcases ha with rfl | rfl
      · simp
      · rw [tb_8000]; simp; omega
    simp [h0]
    omega

/-- The value read by `rtc_stm32_get_calibration` from a CALR holding the
encoding of a pulse count. -/
theorem get_calibration_of_encoded (env : Env) (w : World) (c : Nat) (p : Int)
    (h1 : -511 ≤ p) (h2 : p ≤ 512)
    (hc : (w.advance env).regs.CALR = MODIFY_REG c (RTC_CALR_CALP ||| RTC_CALR_CALM)
      (calibration_calp p ||| calibration_calm p)) :
    (rtc_stm32_get_calibration env w).2.1 = NB_PULSES_TO_PPB p := by
  have ha : calibration_calp p = 0 ∨ calibration_calp p = 0x8000 := by
    unfold calibration_calp LL_RTC_CALIB_INSERTPULSE_SET LL_RTC_CALIB_INSERTPULSE_NONE
      RTC_CALR_CALP
    split <;> simp
  have hm : calibration_calm p < 512 := by
    unfold calibration_calm to_uint32 to_int32 MAX_CALP
    split <;> omega
  unfold rtc_stm32_get_calibration sys_read32_CALR
  simp only [hc, CALR_read_CALM c _ _ ha hm, CALR_read_CALP c _ _ ha hm]
  congr 1
  by_cases hp : p > 0
  · have e1 : calibration_calp p = 0x8000 := by
      simp [calibration_calp, hp, LL_RTC_CALIB_INSERTPULSE_SET, RTC_CALR_CALP]
    have e2 : (calibration_calm p : Int) = 512 - p := by
      simp only [calibration_calm, hp, if_true]
      unfold to_uint32 to_int32 MAX_CALP; omega
    simp only [e1, e2]
    unfold to_int32 MAX_CALP
    simp
    omega
  · have e1 : calibration_calp p = 0 := by
      simp [calibration_calp, hp, LL_RTC_CALIB_INSERTPULSE_NONE]
    have e2 : (calibration_calm p : Int) = -p := by
      simp only [calibration_calm, hp, if_false]
      unfold to_uint32 to_int32; omega
    simp only [e1, e2]
    unfold to_int32
    simp
    omega

/-- C4: for every ppb in [MIN_PPB, MAX_PPB] = [-487328, 488281],
NB_PULSES_TO_PPB(PPB_TO_NB_PULSES(ppb)) differs from ppb by less than one
pulse-equivalent, 2048 * |result - ppb| < 1953125; no intermediate of either
conversion leaves the int32 range; and it is the value
rtc_stm32_get_calibration reads back after a rtc_stm32_set_calibration(ppb)
that returned 0. -/
theorem calibration_round_trip (ppb : Int) (h1 : MIN_PPB ≤ ppb) (h2 : ppb ≤ MAX_PPB) :
    2048 * |NB_PULSES_TO_PPB (PPB_TO_NB_PULSES ppb) - ppb| < 1953125 ∧
    (in_int32 (ppb * 2048) ∧ in_int32 (ppb * 2048 + 976562) ∧ in_int32 (ppb * 2048 - 976562) ∧
      in_int32 (PPB_TO_NB_PULSES ppb * 1953125) ∧
      in_int32 (PPB_TO_NB_PULSES ppb * 1953125 + 1024) ∧
      in_int32 (PPB_TO_NB_PULSES ppb * 1953125 - 1024)) ∧
    ∀ (env : Env) (w : World), (rtc_stm32_set_calibration env ppb w).1 = some 0 →
      (rtc_stm32_get_calibration env (rtc_stm32_set_calibration env ppb w).2).2.1
        = NB_PULSES_TO_PPB (PPB_TO_NB_PULSES ppb) := by
  have h1a := h1
  have h2a := h2
  rw [MIN_PPB_eq] at h1a
  rw [MAX_PPB_eq] at h2a
  obtain ⟨r1, r2, r3, r4⟩ := PPB_TO_NB_PULSES_range ppb h1a h2a
  obtain ⟨q1, q2⟩ := NB_PULSES_TO_PPB_range (PPB_TO_NB_PULSES ppb) r1 r2
  refine ⟨?_, ?_, ?_⟩
  · rcases abs_cases (NB_PULSES_TO_PPB (PPB_TO_NB_PULSES ppb) - ppb) with ⟨h, _⟩ | ⟨h, _⟩ <;>
      rw [h] <;> omega
  · unfold in_int32 INT32_MIN INT32_MAX
    omega
  · intro env w h0
    rw [set_calibration_in_range env ppb w h1 h2] at h0 ⊢
    split at h0
    · simp [ EIO] at h0
    · rename_i hb
      simp only [hb, if_false]
      apply get_calibration_of_encoded env _ ((LL_RTC_DisableWriteProtection env
        (WAIT_FOR (recalp_is_clear env) 100000 (k_msleep env 1) w).2).advance env).regs.CALR
        _ r1 r2
      simp [LL_RTC_EnableWriteProtection, MODIFY_REG_CALR, World.advance]

/-- Witness of C4: a calibration of 100000 ppb. -/
theorem calibration_round_trip_witness :
    2048 * |NB_PULSES_TO_PPB (PPB_TO_NB_PULSES 100000) - 100000| < 1953125 :=
  (calibration_round_trip 100000 (by decide) (by decide)).1

/-- C5: for every integer x in 0..99, bcd2bin(bin2bcd(x)) == x, with
bin2bcd(x) = ((x / 10) << 4) | (x % 10) as a uint8_t and
bcd2bin(b) = 10 * (b >> 4) + (b & 0x0F). -/
theorem bcd_codec_round_trip (x : Nat) (h : x ≤ 99) :
    bcd2bin (bin2bcd x) = x ∧
    bin2bcd x = (((x / 10) <<< 4) ||| (x % 10)) ∧
    bcd2bin (bin2bcd x) = 10 * (bin2bcd x >>> 4) + (bin2bcd x &&& 0x0F) := by
  interval_cases x <;> decide

/-- Witness of C5: the codec on 59. -/
theorem bcd_codec_round_trip_witness : bcd2bin (bin2bcd 59) = 59 :=
  (bcd_codec_round_trip 59 (by decide)).1

/-! ## The consistency loops of `rtc_stm32_get_time` -/


theorem trace_LL_RTC_TIME_Get (env : Env) (w : World) :
    (LL_RTC_TIME_Get env w).2.trace = w.trace ++ [Event.read Reg.TR (LL_RTC_TIME_Get env w).1] := by
  simp [LL_RTC_TIME_Get, World.advance]

theorem trace_LL_RTC_TIME_GetSubSecond (env : Env) (w : World) :
    (LL_RTC_TIME_GetSubSecond env w).2.trace =
      w.trace ++ [Event.read Reg.SSR (LL_RTC_TIME_GetSubSecond env w).1] := by
  simp [LL_RTC_TIME_GetSubSecond, World.advance]

theorem trace_LL_RTC_DATE_Get (env : Env) (w : World) :
    (LL_RTC_DATE_Get env w).2.trace = w.trace ++ [Event.read Reg.DR (LL_RTC_DATE_Get env w).1] := by
  simp [LL_RTC_DATE_Get, World.advance]

/-- What the inner loop leaves in the trace when it ends: passes that read
no date, then the time read, the subsecond read and the agreeing time
read of the snapshot it returns. -/
theorem get_time_read_time_trace (env : Env) (fuel : Nat) :
    ∀ (w w1 : World) (t ss : Nat), get_time_read_time env fuel w = some (t, ss, w1) →
      ∃ mid, w1.trace = w.trace ++ mid ++
          [Event.read Reg.TR t, Event.read Reg.SSR ss, Event.read Reg.TR t] ∧
        ∀ e ∈ mid, isDateRead e = false := by
  induction fuel with
  | zero => intro w w1 t ss h; simp [get_time_read_time] at h
  | succ n ih =>
    intro w w1 t ss h
    rw [get_time_read_time] at h
    split at h
    · obtain ⟨mid, hm, hd⟩ := ih _ _ _ _ h
      refine ⟨[Event.read Reg.TR (LL_RTC_TIME_Get env w).1,
        Event.read Reg.SSR (LL_RTC_TIME_GetSubSecond env (LL_RTC_TIME_Get env w).2).1,
        Event.read Reg.TR (LL_RTC_TIME_Get env
          (LL_RTC_TIME_GetSubSecond env (LL_RTC_TIME_Get env w).2).2).1] ++ mid, ?_, ?_⟩
      · rw [hm, trace_LL_RTC_TIME_Get, trace_LL_RTC_TIME_GetSubSecond, trace_LL_RTC_TIME_Get]
        simp
      · intro e he
        simp only [List.mem_append, List.mem_cons, List.mem_singleton, List.not_mem_nil,
          or_false] at he
        rcases he with (rfl | rfl | rfl) | he
        · rfl
        · rfl
        · rfl
        · exact hd e he
    · rename_i heq
      simp only [ne_eq, not_not] at heq
      simp only [Option.some.injEq, Prod.mk.injEq] at h
      obtain ⟨rfl, rfl, rfl⟩ := h
      refine ⟨[], ?_, by simp⟩
      rw [trace_LL_RTC_TIME_Get, trace_LL_RTC_TIME_GetSubSecond, trace_LL_RTC_TIME_Get, ← heq]
      simp

/-- What the outer loop leaves in the trace when it ends. -/
theorem get_time_read_date_trace (env : Env) (fuel : Nat) :
    ∀ (w w1 : World) (d t ss : Nat), get_time_read_date env fuel w = some (d, t, ss, w1) →
      ∃ pre mid, w1.trace = w.trace ++ pre ++ [Event.read Reg.DR d] ++ mid ++
          [Event.read Reg.TR t, Event.read Reg.SSR ss, Event.read Reg.TR t,
           Event.read Reg.DR d] ∧
        ∀ e ∈ mid, isDateRead e = false := by
  induction fuel with
  | zero => intro w w1 d t ss h; simp [get_time_read_date] at h
  | succ n ih =>
    intro w w1 d t ss h
    rw [get_time_read_date] at h
    simp only at h
    split at h
    · simp at h
    · rename_i t0 ss0 w0 hin
      obtain ⟨mid, hm, hd⟩ := get_time_read_time_trace env _ _ _ _ _ hin
      split at h
      · obtain ⟨pre, mid2, hm2, hd2⟩ := ih _ _ _ _ _ h
        refine ⟨[Event.read Reg.DR (LL_RTC_DATE_Get env w).1] ++ mid ++
          [Event.read Reg.TR t0, Event.read Reg.SSR ss0, Event.read Reg.TR t0,
           Event.read Reg.DR (LL_RTC_DATE_Get env w0).1] ++ pre, mid2, ?_, hd2⟩
        rw [hm2, trace_LL_RTC_DATE_Get, hm, trace_LL_RTC_DATE_Get]
        simp
      · rename_i heq
        simp only [ne_eq, not_not] at heq
        simp only [Option.some.injEq, Prod.mk.injEq] at h
        obtain ⟨rfl, rfl, rfl, rfl⟩ := h
        refine ⟨[], mid, ?_, hd⟩
        rw [trace_LL_RTC_DATE_Get, hm, trace_LL_RTC_DATE_Get, ← heq]
        simp

/-- C6: whenever the nested retry loop of rtc_stm32_get_time ends, the date
word decoded is the value of the last date read before the final inner loop
and of the final confirming date read, and the time word decoded is the
value of the time reads right before and right after the subsecond read it
uses. In particular, when the date register shows d1 at the first date read
and a different d2 from the confirming read on, get_time retries and returns
the fields of d2. -/
theorem get_time_snapshot_is_torn_free (fuel : Nat) (env : Env) (cfg : rtc_stm32_config)
    (timeptr : rtc_time) (w : World) (hl : w.locked = false) :
    (∀ ret t1 w1, rtc_stm32_get_time fuel env cfg timeptr w = some (ret, t1, w1) →
      ∃ date time ss pre mid,
        w1.trace = w.trace ++ [Event.k_mutex_lock] ++ pre ++ [Event.read Reg.DR date] ++ mid ++
          [Event.read Reg.TR time, Event.read Reg.SSR ss, Event.read Reg.TR time,
           Event.read Reg.DR date, Event.k_mutex_unlock] ∧
        (∀ e ∈ mid, isDateRead e = false) ∧
        ret = 0 ∧ t1 = get_time_fill cfg date time ss timeptr) ∧
    (∀ d1 d2 t ss, d1 ≠ d2 →
      (∀ c, DATE_Get (env.tick w.steps c).2.1 = d1) →
      (∀ n c, w.steps < n → DATE_Get (env.tick n c).2.1 = d2) →
      (∀ n c, TIME_Get (env.tick n c).1 = t) →
      (∀ n c, READ_BIT (env.tick n c).2.2 0xFFFF = ss) →
      ∃ w1, rtc_stm32_get_time (fuel + 2) env cfg timeptr w =
        some (0, get_time_fill cfg d2 t ss timeptr, w1)) := by
  have hk : k_mutex_lock w = (0, { w with locked := true, trace := w.trace ++ [Event.k_mutex_lock] }) := by
    simp [k_mutex_lock, hl]
  constructor
  · intro ret t1 w1 h
    unfold rtc_stm32_get_time at h
    rw [hk] at h
    simp only [ne_eq, not_true_eq_false, if_false] at h
    split at h
    · simp at h
    · rename_i d t ss w0 hin
      obtain ⟨pre, mid, hm, hd⟩ := get_time_read_date_trace env _ _ _ _ _ _ hin
      simp only [Option.some.injEq, Prod.mk.injEq] at h
      obtain ⟨rfl, rfl, rfl⟩ := h
      refine ⟨d, t, ss, pre, mid, ?_, hd, rfl, rfl⟩
      simp [k_mutex_unlock, hm]
  · intro d1 d2 t ss hne h1 h2 h3 h4
    unfold rtc_stm32_get_time
    rw [hk]
    simp only [ne_eq, not_true_eq_false, if_false]
    have h2a : ∀ c, DATE_Get (env.tick (w.steps + 1 + 1 + 1 + 1) c).2.1 = d2 :=
      fun c => h2 _ c (by omega)
    have h2b : ∀ c, DATE_Get (env.tick (w.steps + 1 + 1 + 1 + 1 + 1) c).2.1 = d2 :=
      fun c => h2 _ c (by omega)
    have h2c : ∀ c, DATE_Get (env.tick (w.steps + 1 + 1 + 1 + 1 + 1 + 1 + 1 + 1 + 1) c).2.1 = d2 :=
      fun c => h2 _ c (by omega)
    simp [get_time_read_date, get_time_read_time, LL_RTC_DATE_Get, LL_RTC_TIME_Get,
      LL_RTC_TIME_GetSubSecond, World.advance, k_mutex_unlock, h1, h2a, h2b, h2c, h3, h4, hne]

/-- Witness of C6: the date changes between the first date read and its
confirming read; the date returned is the second one, Sunday 2 January. -/
theorem get_time_snapshot_is_torn_free_witness :
    ∃ w1, rtc_stm32_get_time (0 + 2) date_change_env rtc_config_LSE sample_time idle_world =
      some (0, get_time_fill rtc_config_LSE 0x07020100 0 0 sample_time, w1) :=
  (get_time_snapshot_is_torn_free 0 date_change_env rtc_config_LSE sample_time idle_world rfl).2
    0x06010100 0x07020100 0 0 (by decide)
    (fun _ => by simp only [date_change_env, idle_world, if_true]; decide)
    (fun n _ hn => by
      have h0 : n ≠ 0 := by
        intro h; rw [h] at hn; exact absurd hn (by decide)
      simp only [date_change_env, h0, if_false]
      decide)
    (fun _ _ => by simp only [date_change_env]; decide)
    (fun _ _ => by simp only [date_change_env]; decide)

/-! ## Frame of the bounded wait -/

theorem WaitFrame.refl (w : World) : WaitFrame w w :=
  ⟨rfl, rfl, rfl, rfl, rfl, rfl, [], by simp, by simp⟩

theorem WaitFrame.trans {a b c : World} (h1 : WaitFrame a b) (h2 : WaitFrame b c) :
    WaitFrame a c := by
  obtain ⟨a1, a2, a3, a4, a5, a6, l1, a7, a8⟩ := h1
  obtain ⟨b1, b2, b3, b4, b5, b6, l2, b7, b8⟩ := h2
  refine ⟨b1.trans a1, b2.trans a2, b3.trans a3, b4.trans a4, b5.trans a5, b6.trans a6,
    l1 ++ l2, ?_, ?_⟩
  · rw [b7, a7, List.append_assoc]
  · intro e he
    rcases List.mem_append.mp he with h | h
    · exact a8 e h
    · exact b8 e h

theorem WaitFrame_IsActiveFlag_INIT (env : Env) (w : World) :
    WaitFrame w (LL_RTC_IsActiveFlag_INIT env w).2 :=
  ⟨rfl, rfl, rfl, rfl, rfl, rfl, [Event.IsActiveFlag_INIT (env.INITF w.steps)], rfl, by
    simp [Event.isWaitEvent]⟩

theorem WaitFrame_recalp_is_clear (env : Env) (w : World) :
    WaitFrame w (recalp_is_clear env w).2 :=
  ⟨rfl, rfl, rfl, rfl, rfl, rfl, [Event.IsActiveFlag_RECALP (env.RECALPF w.steps)], rfl, by
    simp [Event.isWaitEvent]⟩

theorem WaitFrame_k_msleep (env : Env) (ms : Nat) (w : World) :
    WaitFrame w (k_msleep env ms w) :=
  ⟨rfl, rfl, rfl, rfl, rfl, rfl, [Event.k_msleep ms], rfl, by simp [Event.isWaitEvent]⟩

theorem WaitFrame_WAIT_FOR_loop (expr : World → Bool × World) (delay : World → World)
    (he : ∀ w, WaitFrame w (expr w).2) (hd : ∀ w, WaitFrame w (delay w))
    (timeout start fuel : Nat) :
    ∀ w, WaitFrame w (WAIT_FOR_loop expr delay timeout start fuel w) := by
  induction fuel with
  | zero => intro w; exact WaitFrame.refl w
  | succ n ih =>
    intro w
    rw [WAIT_FOR_loop]
    split
    · exact ((he w).trans (hd _)).trans (ih _)
    · exact he w

theorem WaitFrame_WAIT_FOR (expr : World → Bool × World) (delay : World → World)
    (he : ∀ w, WaitFrame w (expr w).2) (hd : ∀ w, WaitFrame w (delay w))
    (timeout : Nat) (w : World) :
    WaitFrame w (WAIT_FOR expr timeout delay w).2 :=
  (WaitFrame_WAIT_FOR_loop expr delay he hd timeout w.now (timeout + 1) w).trans (he _)

/-- The loop of the bounded wait on a flag that never shows: it ends by the
elapsed time, one second after the start, not by the bound on the passes. -/
theorem WAIT_FOR_loop_INITF_never (env : Env) (hI : ∀ n, env.INITF n = false) (start : Nat)
    (fuel : Nat) :
    ∀ (k : Nat) (w : World), w.now = start + 1000 * k → k ≤ 1000 → 1001 ≤ fuel + k →
      (WAIT_FOR_loop (LL_RTC_IsActiveFlag_INIT env) (k_msleep env 1) RTC_TIMEOUT start fuel w).now
        = start + RTC_TIMEOUT := by
  induction fuel with
  | zero => intro k w _ h1 h2; omega
  | succ n ih =>
    intro k w h0 h1 h2
    rw [WAIT_FOR_loop]
    have hp : (LL_RTC_IsActiveFlag_INIT env w).1 = false := by
      simp [LL_RTC_IsActiveFlag_INIT, hI]
    have hn : (LL_RTC_IsActiveFlag_INIT env w).2.now = w.now := by
      simp [LL_RTC_IsActiveFlag_INIT, World.advance]
    by_cases hk : k < 1000
    · have hc : (!(LL_RTC_IsActiveFlag_INIT env w).1 &&
          decide (RTC_TIMEOUT > (LL_RTC_IsActiveFlag_INIT env w).2.now - start)) = true := by
        rw [hp, hn, h0]; simp [RTC_TIMEOUT]; omega
      rw [if_pos hc]
      apply ih (k + 1)
      · simp [k_msleep, World.advance, hn, h0]; ring
      · omega
      · omega
    · have hc : ¬ ((!(LL_RTC_IsActiveFlag_INIT env w).1 &&
          decide (RTC_TIMEOUT > (LL_RTC_IsActiveFlag_INIT env w).2.now - start)) = true) := by
        rw [hp, hn, h0]; simp [RTC_TIMEOUT]; omega
      rw [if_neg hc, hn, h0]
      simp [RTC_TIMEOUT]; omega

/-- Entering initialization mode on a hardware whose INITF flag never
shows: the timeout error after one second, nothing but polls and sleeps in
between. -/
theorem enter_initialization_mode_INITF_never (env : Env) (hI : ∀ n, env.INITF n = false)
    (w : World) :
    (rtc_stm32_enter_initialization_mode env w).1 = - EIO ∧
    (rtc_stm32_enter_initialization_mode env w).2.now = w.now + RTC_TIMEOUT := by
  unfold rtc_stm32_enter_initialization_mode
  have hp : ∀ w0, (LL_RTC_IsActiveFlag_INIT env w0).1 = false := by
    intro w0; simp [LL_RTC_IsActiveFlag_INIT, hI]
  have hn : ∀ w0, (LL_RTC_IsActiveFlag_INIT env w0).2.now = w0.now := by
    intro w0; simp [LL_RTC_IsActiveFlag_INIT, World.advance]
  have h0 : (LL_RTC_EnableInitMode env w).now = w.now := by
    simp [LL_RTC_EnableInitMode, World.advance]
  simp only [WAIT_FOR, hp, Bool.not_false, if_true, hn, true_and]
  rw [WAIT_FOR_loop_INITF_never env hI _ _ 0 _ (by simp) (by omega) (by simp [RTC_TIMEOUT]), h0]

/-- Entering initialization mode, whatever the hardware does: the request,
then polls and sleeps; the lock and the write protection stay as they are. -/
theorem enter_initialization_mode_frame (env : Env) (w : World) :
    WaitFrame (LL_RTC_EnableInitMode env w) (rtc_stm32_enter_initialization_mode env w).2 := by
  have h := WaitFrame_WAIT_FOR (LL_RTC_IsActiveFlag_INIT env) (k_msleep env 1)
    (WaitFrame_IsActiveFlag_INIT env) (WaitFrame_k_msleep env 1) RTC_TIMEOUT
    (LL_RTC_EnableInitMode env w)
  unfold rtc_stm32_enter_initialization_mode
  dsimp only
  split <;> exact h

/-! ## The paths of `rtc_stm32_set_time` -/

theorem isCalendarWrite_of_isWaitEvent (e : Event) (h : e.isWaitEvent = true) :
    e.isCalendarWrite = false := by
  cases e <;> simp [Event.isWaitEvent] at h <;> rfl

/-- The trace when `rtc_stm32_enter_initialization_mode` returns inside
`rtc_stm32_set_time`: the lock, the write protection, the request, then
polls and sleeps. -/
theorem set_time_entry_trace (env : Env) (w : World) (hl : w.locked = false) :
    ∃ l, (rtc_stm32_enter_initialization_mode env (set_time_entry env w)).2.trace =
        w.trace ++ ([Event.k_mutex_lock, Event.DisableWriteProtection, Event.EnableInitMode] ++ l) ∧
      ∀ e ∈ l, e.isWaitEvent = true := by
  obtain ⟨_, _, _, _, _, _, l, h1, h2⟩ := enter_initialization_mode_frame env (set_time_entry env w)
  refine ⟨l, ?_, h2⟩
  rw [h1]
  simp [set_time_entry, k_mutex_lock, hl, LL_RTC_DisableWriteProtection, LL_RTC_EnableInitMode,
    World.advance]

/-- The path of `rtc_stm32_set_time` on which entering initialization mode
fails: the error is returned after the unlock alone. -/
theorem set_time_of_enter_failed (env : Env) (timeptr : rtc_time) (w : World)
    (hy : ¬ to_uint32 (to_int32 (timeptr.tm_year + TM_YEAR_REF)) < RTC_YEAR_REF)
    (hwd : timeptr.tm_wday ≠ -1) (hl : w.locked = false)
    (he : (rtc_stm32_enter_initialization_mode env (set_time_entry env w)).1 ≠ 0) :
    rtc_stm32_set_time env timeptr w =
      ((rtc_stm32_enter_initialization_mode env (set_time_entry env w)).1,
       k_mutex_unlock (rtc_stm32_enter_initialization_mode env (set_time_entry env w)).2) := by
  unfold rtc_stm32_set_time
  simp only [hy, hwd, if_false]
  have hk : (k_mutex_lock w).1 = 0 := by simp [k_mutex_lock, hl]
  simp only [hk, ne_eq, not_true_eq_false, if_false]
  have he2 : (rtc_stm32_enter_initialization_mode env
      (LL_RTC_DisableWriteProtection env (k_mutex_lock w).2)).1 ≠ 0 := he
  simp only [ne_eq, he2, not_false_eq_true, if_true]
  rfl

/-- The path of `rtc_stm32_set_time` on which initialization mode was
entered: four writes of DR and three of TR, then the mode is left, the write
protection enabled and the lock released. -/
theorem set_time_of_enter_ok (env : Env) (timeptr : rtc_time) (w : World)
    (hy : ¬ to_uint32 (to_int32 (timeptr.tm_year + TM_YEAR_REF)) < RTC_YEAR_REF)
    (hwd : timeptr.tm_wday ≠ -1) (hl : w.locked = false)
    (he : (rtc_stm32_enter_initialization_mode env (set_time_entry env w)).1 = 0) :
    (rtc_stm32_set_time env timeptr w).1 = 0 ∧
    (rtc_stm32_set_time env timeptr w).2.locked = false ∧
    (rtc_stm32_set_time env timeptr w).2.regs.write_protected = true ∧
    (rtc_stm32_set_time env timeptr w).2.regs.INIT = false ∧
    ∃ y m d wd h mi s, (rtc_stm32_set_time env timeptr w).2.trace =
      (rtc_stm32_enter_initialization_mode env (set_time_entry env w)).2.trace ++
        [Event.write Reg.DR y, Event.write Reg.DR m, Event.write Reg.DR d, Event.write Reg.DR wd,
         Event.write Reg.TR h, Event.write Reg.TR mi, Event.write Reg.TR s,
         Event.DisableInitMode, Event.EnableWriteProtection, Event.k_mutex_unlock] := by
  unfold rtc_stm32_set_time
  simp only [hy, hwd, if_false]
  have hk : (k_mutex_lock w).1 = 0 := by simp [k_mutex_lock, hl]
  simp only [hk, ne_eq, not_true_eq_false, if_false]
  have he2 : (rtc_stm32_enter_initialization_mode env
      (LL_RTC_DisableWriteProtection env (k_mutex_lock w).2)).1 = 0 := he
  simp only [he2, not_true_eq_false, if_false]
  have hs : set_time_entry env w = LL_RTC_DisableWriteProtection env (k_mutex_lock w).2 := rfl
  rw [hs]
  generalize (rtc_stm32_enter_initialization_mode env
      (LL_RTC_DisableWriteProtection env (k_mutex_lock w).2)).2 = wi
  by_cases h0 : timeptr.tm_wday = 0 <;>
  simp [h0, k_mutex_unlock, LL_RTC_EnableWriteProtection, rtc_stm32_leave_initialization_mode,
    LL_RTC_DisableInitMode, LL_RTC_TIME_SetSecond, LL_RTC_TIME_SetMinute, LL_RTC_TIME_SetHour,
    LL_RTC_DATE_SetWeekDay, LL_RTC_DATE_SetDay, LL_RTC_DATE_SetMonth, LL_RTC_DATE_SetYear,
    write_DR, write_TR, World.advance]

/-- On the path of `rtc_stm32_set_time` on which initialization mode was
entered, the last write of DR is the weekday setter applied to the weekday
code. -/
theorem set_time_weekday_write (env : Env) (timeptr : rtc_time) (w : World)
    (hy : ¬ to_uint32 (to_int32 (timeptr.tm_year + TM_YEAR_REF)) < RTC_YEAR_REF)
    (hwd : timeptr.tm_wday ≠ -1) (hl : w.locked = false)
    (he : (rtc_stm32_enter_initialization_mode env (set_time_entry env w)).1 = 0) :
    ∃ pre dr h mi s, (rtc_stm32_set_time env timeptr w).2.trace =
      pre ++ [Event.write Reg.DR (DATE_SetWeekDay dr (set_time_weekday_code timeptr)),
         Event.write Reg.TR h, Event.write Reg.TR mi, Event.write Reg.TR s,
         Event.DisableInitMode, Event.EnableWriteProtection, Event.k_mutex_unlock] := by
  unfold rtc_stm32_set_time
  simp only [hy, hwd, if_false]
  have hk : (k_mutex_lock w).1 = 0 := by simp [k_mutex_lock, hl]
  simp only [hk, ne_eq, not_true_eq_false, if_false]
  have he2 : (rtc_stm32_enter_initialization_mode env
      (LL_RTC_DisableWriteProtection env (k_mutex_lock w).2)).1 = 0 := he
  simp only [he2, not_true_eq_false, if_false]
  generalize (rtc_stm32_enter_initialization_mode env
      (LL_RTC_DisableWriteProtection env (k_mutex_lock w).2)).2 = wi
  generalize hw4 : (LL_RTC_DATE_SetDay env (bin2bcd (to_uint8 timeptr.tm_mday))
    (LL_RTC_DATE_SetMonth env (bin2bcd (to_uint8 (to_int32 (timeptr.tm_mon + 1))))
      (LL_RTC_DATE_SetYear env (bin2bcd (to_uint8 (to_uint32
        ((to_uint32 (to_int32 (timeptr.tm_year + TM_YEAR_REF)) : Int) - RTC_YEAR_REF)))) wi))) = w4
  refine ⟨w4.trace, ((w4.advance env).regs.DR), ?_⟩
  by_cases h0 : timeptr.tm_wday = 0 <;>
  simp [h0, set_time_weekday_code, k_mutex_unlock, LL_RTC_EnableWriteProtection,
    rtc_stm32_leave_initialization_mode,
    LL_RTC_DisableInitMode, LL_RTC_TIME_SetSecond, LL_RTC_TIME_SetMinute, LL_RTC_TIME_SetHour,
    LL_RTC_DATE_SetWeekDay, write_DR, write_TR, World.advance]

/-! ## Validation, contention and timeout of `rtc_stm32_set_time` -/

/-- The validation of `rtc_stm32_set_time` rejects, without touching
anything, the years 1900..1999 and the unspecified weekday. -/
theorem set_time_rejects (env : Env) (timeptr : rtc_time) (w : World)
    (h : (0 ≤ timeptr.tm_year + 1900 ∧ timeptr.tm_year + 1900 < 2000) ∨ timeptr.tm_wday = -1) :
    rtc_stm32_set_time env timeptr w = (-EINVAL, w) := by
  unfold rtc_stm32_set_time
  rcases h with h | h
  · have hy : to_uint32 (to_int32 (timeptr.tm_year + TM_YEAR_REF)) < RTC_YEAR_REF := by
      unfold to_uint32 to_int32 TM_YEAR_REF RTC_YEAR_REF; omega
    simp only [hy, if_true]
  · simp only [h, if_true]
    split <;> rfl

/-- The year check of `rtc_stm32_set_time` passes for every year from 2000
on that a C int holds. -/
theorem set_time_year_accepted (tm_year : Int) (h0 : 100 ≤ tm_year) (h1 : tm_year ≤ INT32_MAX) :
    ¬ to_uint32 (to_int32 (tm_year + TM_YEAR_REF)) < RTC_YEAR_REF := by
  unfold to_uint32 to_int32 TM_YEAR_REF RTC_YEAR_REF
  unfold INT32_MAX at h1
  omega

/-- C2, the code at the failing input: the year -1 (tm_year = -1901) is
earlier than 2000, yet rtc_stm32_set_time takes the lock, writes the
calendar registers and returns 0; the year read back is 2047. -/
theorem set_time_accepts_year_before_1900 :
    ({ sample_time with tm_year := -1901 } : rtc_time).tm_year + 1900 < 2000 ∧
    (rtc_stm32_set_time quiet_env { sample_time with tm_year := -1901 } idle_world).1 = 0 ∧
    (rtc_stm32_set_time quiet_env { sample_time with tm_year := -1901 } idle_world).2.trace =
      [Event.k_mutex_lock, Event.DisableWriteProtection, Event.EnableInitMode,
       Event.IsActiveFlag_INIT true, Event.IsActiveFlag_INIT true,
       Event.write Reg.DR 0x472101, Event.write Reg.DR 0x473201, Event.write Reg.DR 0x473231,
       Event.write Reg.DR 0x475231, Event.write Reg.TR 0x230000, Event.write Reg.TR 0x235900,
       Event.write Reg.TR 0x235958, Event.DisableInitMode, Event.EnableWriteProtection,
       Event.k_mutex_unlock] ∧
    (rtc_stm32_get_time 1 quiet_env rtc_config_LSE sample_time
      (rtc_stm32_set_time quiet_env { sample_time with tm_year := -1901 } idle_world).2).map
        (fun r => r.2.1.tm_year + 1900) = some 2047 := by
  decide

set_option maxRecDepth 100000 in
/-- C7, the code at the failing input: on a hardware whose INITF flag never
shows, rtc_stm32_set_time starts from an enabled write protection, disables
it, returns -EIO and leaves it disabled (and the init mode requested), where
rtc_stm32_configure on the same hardware returns -EIO with the write
protection enabled again. -/
theorem set_time_timeout_leaves_write_protection_disabled :
    idle_world.regs.write_protected = true ∧
    (rtc_stm32_set_time stuck_env sample_time idle_world).1 = - EIO ∧
    (rtc_stm32_set_time stuck_env sample_time idle_world).2.regs.write_protected = false ∧
    (rtc_stm32_set_time stuck_env sample_time idle_world).2.regs.INIT = true ∧
    (rtc_stm32_configure stuck_env true rtc_config_LSI idle_world).1 = - EIO ∧
    (rtc_stm32_configure stuck_env true rtc_config_LSI idle_world).2.regs.write_protected = true := by
  decide

/-- C8: if the INITF flag is never observed set, entering initialization
mode returns -EIO (non-zero) once RTC_TIMEOUT has elapsed, and
rtc_stm32_set_time returns that same error without any write of DR or TR.
Conversely, in every call, either rtc_stm32_set_time writes neither DR nor
TR, or rtc_stm32_enter_initialization_mode returned 0 and the seven writes
of DR and TR come right after its return and right before the init mode is
left. -/
theorem init_mode_timeout (env : Env) (timeptr : rtc_time) (w : World) :
    ((∀ n, env.INITF n = false) →
      (∀ w0, (rtc_stm32_enter_initialization_mode env w0).1 = - EIO ∧
        (rtc_stm32_enter_initialization_mode env w0).2.now = w0.now + RTC_TIMEOUT) ∧
      - EIO ≠ (0 : Int) ∧
      (∃ l, (rtc_stm32_set_time env timeptr w).2.trace = w.trace ++ l ∧
        ∀ e ∈ l, e.isCalendarWrite = false) ∧
      (¬ to_uint32 (to_int32 (timeptr.tm_year + TM_YEAR_REF)) < RTC_YEAR_REF →
        timeptr.tm_wday ≠ -1 → w.locked = false →
        (rtc_stm32_set_time env timeptr w).1 =
          (rtc_stm32_enter_initialization_mode env (set_time_entry env w)).1 ∧
        (rtc_stm32_set_time env timeptr w).1 = - EIO ∧
        (rtc_stm32_set_time env timeptr w).2.now = w.now + RTC_TIMEOUT)) ∧
    ((∃ l, (rtc_stm32_set_time env timeptr w).2.trace = w.trace ++ l ∧
        ∀ e ∈ l, e.isCalendarWrite = false) ∨
     ((rtc_stm32_enter_initialization_mode env (set_time_entry env w)).1 = 0 ∧
      ∃ pre y m d wd h mi s,
        (rtc_stm32_enter_initialization_mode env (set_time_entry env w)).2.trace
          = w.trace ++ pre ∧
        (∀ e ∈ pre, e.isCalendarWrite = false) ∧
        (rtc_stm32_set_time env timeptr w).2.trace = w.trace ++ pre ++
          [Event.write Reg.DR y, Event.write Reg.DR m, Event.write Reg.DR d,
           Event.write Reg.DR wd, Event.write Reg.TR h, Event.write Reg.TR mi,
           Event.write Reg.TR s, Event.DisableInitMode, Event.EnableWriteProtection,
           Event.k_mutex_unlock])) := by
  have conv : (∃ l, (rtc_stm32_set_time env timeptr w).2.trace = w.trace ++ l ∧
        ∀ e ∈ l, e.isCalendarWrite = false) ∨
     ((rtc_stm32_enter_initialization_mode env (set_time_entry env w)).1 = 0 ∧
      ∃ pre y m d wd h mi s,
        (rtc_stm32_enter_initialization_mode env (set_time_entry env w)).2.trace
          = w.trace ++ pre ∧
        (∀ e ∈ pre, e.isCalendarWrite = false) ∧
        (rtc_stm32_set_time env timeptr w).2.trace = w.trace ++ pre ++
          [Event.write Reg.DR y, Event.write Reg.DR m, Event.write Reg.DR d,
           Event.write Reg.DR wd, Event.write Reg.TR h, Event.write Reg.TR mi,
           Event.write Reg.TR s, Event.DisableInitMode, Event.EnableWriteProtection,
           Event.k_mutex_unlock]) := by
    by_cases hv : to_uint32 (to_int32 (timeptr.tm_year + TM_YEAR_REF)) < RTC_YEAR_REF ∨
        timeptr.tm_wday = -1
    · left
      refine ⟨[], ?_, by simp⟩
      have : rtc_stm32_set_time env timeptr w = (-EINVAL, w) := by
        unfold rtc_stm32_set_time
        rcases hv with h | h
        · simp only [h, if_true]
        · simp only [h, if_true]; split <;> rfl
      rw [this]; simp
    · have hy : ¬ to_uint32 (to_int32 (timeptr.tm_year + TM_YEAR_REF)) < RTC_YEAR_REF :=
        fun h => hv (Or.inl h)
      have hwd : timeptr.tm_wday ≠ -1 := fun h => hv (Or.inr h)
      by_cases hl : w.locked = true
      · left
        refine ⟨[], ?_, by simp⟩
        have : rtc_stm32_set_time env timeptr w = (-EBUSY, w) := by
          unfold rtc_stm32_set_time
          simp only [hy, hwd, if_false]
          simp [k_mutex_lock, hl, EBUSY]
        rw [this]; simp
      · have hl : w.locked = false := by simpa using hl
        obtain ⟨l, ht, hlw⟩ := set_time_entry_trace env w hl
        have hpre : ∀ e ∈ [Event.k_mutex_lock, Event.DisableWriteProtection,
            Event.EnableInitMode] ++ l, e.isCalendarWrite = false := by
          intro e he
          rcases List.mem_append.mp he with h | h
          · simp only [List.mem_cons, List.mem_singleton, List.not_mem_nil, or_false] at h
            rcases h with rfl | rfl | rfl <;> rfl
          · exact isCalendarWrite_of_isWaitEvent e (hlw e h)
        by_cases he : (rtc_stm32_enter_initialization_mode env (set_time_entry env w)).1 = 0
        · right
          obtain ⟨_, _, _, _, y, m, d, wd, h, mi, s, htr⟩ :=
            set_time_of_enter_ok env timeptr w hy hwd hl he
          refine ⟨he, _, y, m, d, wd, h, mi, s, ht, hpre, ?_⟩
          rw [htr, ht]
        · left
          rw [set_time_of_enter_failed env timeptr w hy hwd hl he]
          refine ⟨[Event.k_mutex_lock, Event.DisableWriteProtection, Event.EnableInitMode] ++ l
            ++ [Event.k_mutex_unlock], ?_, ?_⟩
          · simp [k_mutex_unlock, ht]
          · intro e hmem
            rcases List.mem_append.mp hmem with h | h
            · exact hpre e h
            · simp only [List.mem_singleton] at h
              rw [h]; rfl
  refine ⟨?_, conv⟩
  intro hI
  have he := enter_initialization_mode_INITF_never env hI (set_time_entry env w)
  have hne : (rtc_stm32_enter_initialization_mode env (set_time_entry env w)).1 ≠ 0 := by
    rw [he.1]; decide
  refine ⟨fun w0 => enter_initialization_mode_INITF_never env hI w0, by decide, ?_, ?_⟩
  · rcases conv with h | ⟨h0, _⟩
    · exact h
    · exact absurd h0 hne
  · intro hy hwd hl
    rw [set_time_of_enter_failed env timeptr w hy hwd hl hne]
    refine ⟨rfl, he.1, ?_⟩
    simp only [k_mutex_unlock]
    rw [he.2]
    simp [set_time_entry, k_mutex_lock, hl, LL_RTC_DisableWriteProtection, World.advance]

/-- Witness of C8: the hardware whose INITF flag never shows. -/
theorem init_mode_timeout_witness :
    (rtc_stm32_enter_initialization_mode stuck_env idle_world).1 = - EIO ∧
    (rtc_stm32_set_time stuck_env sample_time idle_world).1 = - EIO ∧
    (rtc_stm32_set_time stuck_env sample_time idle_world).2.now = idle_world.now + RTC_TIMEOUT :=
  ⟨(((init_mode_timeout stuck_env sample_time idle_world).1 (fun _ => rfl)).1 idle_world).1,
   (((init_mode_timeout stuck_env sample_time idle_world).1 (fun _ => rfl)).2.2.2
     (by decide) (by decide) rfl).2⟩

/-- C9: when the instance lock is already held, rtc_stm32_set_time (given a
time that passes its validation) and rtc_stm32_get_time return -EBUSY, a
non-zero error, at once: the state, with its registers, its lock and its
trace, is the one before the call, and the rtc_time given to get_time is
unmodified. -/
theorem busy_when_lock_is_held (env : Env) (cfg : rtc_stm32_config) (fuel : Nat)
    (timeptr out : rtc_time) (w : World) (hl : w.locked = true)
    (hy : 100 ≤ timeptr.tm_year ∧ timeptr.tm_year ≤ INT32_MAX) (hwd : timeptr.tm_wday ≠ -1) :
    rtc_stm32_set_time env timeptr w = (-EBUSY, w) ∧
    rtc_stm32_get_time fuel env cfg out w = some (-EBUSY, out, w) ∧
    -EBUSY ≠ (0 : Int) := by
  have hyv := set_time_year_accepted timeptr.tm_year hy.1 hy.2
  refine ⟨?_, ?_, by decide⟩
  · unfold rtc_stm32_set_time
    simp only [hyv, hwd, if_false]
    simp [k_mutex_lock, hl, EBUSY]
  · unfold rtc_stm32_get_time
    simp [k_mutex_lock, hl, EBUSY]

/-- Witness of C9: the idle register file with the lock held. -/
theorem busy_when_lock_is_held_witness :
    rtc_stm32_set_time quiet_env sample_time { idle_world with locked := true }
      = (-EBUSY, { idle_world with locked := true }) ∧
    rtc_stm32_get_time 1 quiet_env rtc_config_LSE sample_time { idle_world with locked := true }
      = some (-EBUSY, sample_time, { idle_world with locked := true }) :=
  ⟨(busy_when_lock_is_held quiet_env rtc_config_LSE 1 sample_time sample_time
      { idle_world with locked := true } rfl (by decide) (by decide)).1,
   (busy_when_lock_is_held quiet_env rtc_config_LSE 1 sample_time sample_time
      { idle_world with locked := true } rfl (by decide) (by decide)).2.1⟩

/-- What a return value of 0 of `rtc_stm32_set_time` says about the call:
the validation passed, the lock was free and initialization mode was
entered. -/
theorem set_time_of_returns_zero (env : Env) (timeptr : rtc_time) (w : World)
    (h : (rtc_stm32_set_time env timeptr w).1 = 0) :
    ¬ to_uint32 (to_int32 (timeptr.tm_year + TM_YEAR_REF)) < RTC_YEAR_REF ∧
    timeptr.tm_wday ≠ -1 ∧ w.locked = false ∧
    (rtc_stm32_enter_initialization_mode env (set_time_entry env w)).1 = 0 := by
  have hy : ¬ to_uint32 (to_int32 (timeptr.tm_year + TM_YEAR_REF)) < RTC_YEAR_REF := by
    intro hc
    unfold rtc_stm32_set_time at h
    simp only [hc, if_true] at h
    exact absurd h (by decide)
  have hwd : timeptr.tm_wday ≠ -1 := by
    intro hc
    unfold rtc_stm32_set_time at h
    simp only [hy, hc, if_true, if_false] at h
    exact absurd h (by decide)
  have hl : w.locked = false := by
    by_contra hc
    have hc : w.locked = true := by simpa using hc
    unfold rtc_stm32_set_time at h
    simp only [hy, hwd, if_false] at h
    simp [k_mutex_lock, hc, EBUSY] at h
  refine ⟨hy, hwd, hl, ?_⟩
  by_contra he
  rw [set_time_of_enter_failed env timeptr w hy hwd hl he] at h
  exact he h

/-- C10: for every tm_wday w in 0..6, a rtc_stm32_set_time that returns 0
writes, as its last write of DR, the hardware weekday code (the WDU field,
which is also the weekday byte read back) 7 when w = 0 and w otherwise; for every content of the date register rtc_stm32_get_time
returns tm_wday = 0 when the hardware weekday code is 7 and the code itself
otherwise, a value in 0..6 and never 7; and set_time with weekday 0
followed by get_time returns weekday 0. -/
theorem weekday_translation (env : Env) (cfg : rtc_stm32_config) (fuel : Nat)
    (t out : rtc_time) (w : World) :
    (0 ≤ t.tm_wday ∧ t.tm_wday ≤ 6 → (rtc_stm32_set_time env t w).1 = 0 →
      ∃ pre v h mi s, (rtc_stm32_set_time env t w).2.trace =
          pre ++ [Event.write Reg.DR v, Event.write Reg.TR h, Event.write Reg.TR mi,
            Event.write Reg.TR s, Event.DisableInitMode, Event.EnableWriteProtection,
            Event.k_mutex_unlock] ∧
        (v >>> 13) &&& 7 = (if t.tm_wday = 0 then 7 else t.tm_wday.toNat) ∧
        __LL_RTC_GET_WEEKDAY (DATE_Get v) = (if t.tm_wday = 0 then 7 else t.tm_wday.toNat)) ∧
    (∀ dr time ss,
      (get_time_fill cfg (DATE_Get dr) time ss out).tm_wday =
        (if __LL_RTC_GET_WEEKDAY (DATE_Get dr) = 7 then 0
         else (__LL_RTC_GET_WEEKDAY (DATE_Get dr) : Int)) ∧
      0 ≤ (get_time_fill cfg (DATE_Get dr) time ss out).tm_wday ∧
      (get_time_fill cfg (DATE_Get dr) time ss out).tm_wday ≤ 6) ∧
    (t.tm_wday = 0 → 100 ≤ t.tm_year ∧ t.tm_year ≤ INT32_MAX →
      (∀ n, env.INITF n = true) → (∀ n c, env.tick n c = c) → w.locked = false →
      (rtc_stm32_set_time env t w).1 = 0 ∧
      ∃ t1 w1, rtc_stm32_get_time (fuel + 1) env cfg out (rtc_stm32_set_time env t w).2
        = some (0, t1, w1) ∧ t1.tm_wday = 0) := by
  refine ⟨?_, ?_, ?_⟩
  · intro hr h0
    obtain ⟨hy, hwd, hl, he⟩ := set_time_of_returns_zero env t w h0
    obtain ⟨pre, dr, h, mi, s, htr⟩ := set_time_weekday_write env t w hy hwd hl he
    refine ⟨pre, _, h, mi, s, htr, ?_⟩
    have hcode : set_time_weekday_code t = (if t.tm_wday = 0 then 7 else t.tm_wday.toNat) := by
      unfold set_time_weekday_code LL_RTC_WEEKDAY_SUNDAY to_uint32
      split
      · rfl
      · omega
    have hlt : set_time_weekday_code t < 8 := by
      rw [hcode]; split <;> omega
    rw [WDU_after_set dr _ hlt, get_weekday_after_set dr _ hlt, hcode]
    exact ⟨rfl, rfl⟩
  · intro dr time ss
    have hle := get_weekday_le dr
    simp only [get_time_fill, LL_RTC_WEEKDAY_SUNDAY]
    have e : to_int32 (__LL_RTC_GET_WEEKDAY (DATE_Get dr) : Int)
        = (__LL_RTC_GET_WEEKDAY (DATE_Get dr) : Int) := by
      unfold to_int32; omega
    simp only [e]
    by_cases h7 : __LL_RTC_GET_WEEKDAY (DATE_Get dr) = 7
    · simp [h7]
    · have h7i : ¬ ((__LL_RTC_GET_WEEKDAY (DATE_Get dr) : Int) = ((7 : Nat) : Int)) := by omega
      simp only [h7, h7i, if_false]
      clear e h7i
      refine ⟨trivial, ?_, ?_⟩ <;> omega
  · intro h0 hy hI hT hl
    have hyv := set_time_year_accepted t.tm_year hy.1 hy.2
    have hwv : t.tm_wday ≠ -1 := by omega
    obtain ⟨h1, h2, h3, _, _⟩ := set_time_on_quiet_hardware env hI hT t w hyv hwv hl
    obtain ⟨w1, hg, _, _⟩ := get_time_on_quiet_hardware env hT cfg fuel out
      (rtc_stm32_set_time env t w).2 h2
    refine ⟨h1, _, w1, hg, ?_⟩
    rw [h3]
    have hcode : set_time_weekday_code t = 7 := by
      simp [set_time_weekday_code, h0, LL_RTC_WEEKDAY_SUNDAY]
    simp only [get_time_fill, set_time_DR, hcode, LL_RTC_WEEKDAY_SUNDAY]
    rw [get_weekday_after_set _ 7 (by decide)]
    decide

/-- Witness of C10: a Sunday written to the idle register file and read
back. -/
theorem weekday_translation_witness :
    (rtc_stm32_set_time quiet_env { sample_time with tm_wday := 0 } idle_world).1 = 0 ∧
    ∃ t1 w1, rtc_stm32_get_time (0 + 1) quiet_env rtc_config_LSE sample_time
        (rtc_stm32_set_time quiet_env { sample_time with tm_wday := 0 } idle_world).2
        = some (0, t1, w1) ∧ t1.tm_wday = 0 :=
  (weekday_translation quiet_env rtc_config_LSE 0 { sample_time with tm_wday := 0 } sample_time
    idle_world).2.2 rfl (by decide) (fun _ => rfl) (fun _ _ => rfl) rfl

/-! ## Encoding and decoding of the calibration fields -/

theorem get_calibration_eq (env : Env) (w : World) :
    rtc_stm32_get_calibration env w =
      (0, NB_PULSES_TO_PPB (get_calibration_nb_pulses (sys_read32_CALR env w).1),
        (sys_read32_CALR env w).2) := rfl

theorem READ_BIT_CALM_lt (calr : Nat) : READ_BIT calr RTC_CALR_CALM < 512 := by
  have h : READ_BIT calr RTC_CALR_CALM ≤ 0x1FF := Nat.and_le_right
  omega

theorem READ_BIT_CALP_cases (calr : Nat) :
    READ_BIT calr RTC_CALR_CALP = 0 ∨ READ_BIT calr RTC_CALR_CALP = 0x8000 := by
  have h := Nat.and_two_pow calr 15
  have e : READ_BIT calr RTC_CALR_CALP = calr &&& 2 ^ 15 := rfl
  rw [e, h]
  cases calr.testBit 15 <;> simp

/-- The decoding of `rtc_stm32_get_calibration` is the effective pulse
count `(flag ? 512 : 0) - CALM`. -/
theorem get_calibration_nb_pulses_eq (calr : Nat) :
    get_calibration_nb_pulses calr =
      (if READ_BIT calr RTC_CALR_CALP ≠ 0 then 512 else 0) - (READ_BIT calr RTC_CALR_CALM : Int) := by
  have hm := READ_BIT_CALM_lt calr
  unfold get_calibration_nb_pulses
  simp only [MAX_CALP]
  by_cases hp : READ_BIT calr RTC_CALR_CALP ≠ 0
  · simp only [hp, decide_True, if_true, ne_eq, not_false_eq_true]
    unfold to_int32; omega
  · simp only [hp, decide_False, if_false, Bool.false_eq_true]
    unfold to_int32; omega

theorem calibration_calp_cases (p : Int) :
    calibration_calp p = 0 ∨ calibration_calp p = 0x8000 := by
  unfold calibration_calp LL_RTC_CALIB_INSERTPULSE_SET LL_RTC_CALIB_INSERTPULSE_NONE
    RTC_CALR_CALP
  split <;> simp

theorem calibration_calm_lt (p : Int) (h1 : -511 ≤ p) (h2 : p ≤ 512) :
    calibration_calm p < 512 := by
  unfold calibration_calm to_uint32 to_int32 MAX_CALP
  split <;> omega

theorem calibration_fields_of_pos (p : Int) (hp : p > 0) (h2 : p ≤ 512) :
    calibration_calp p = 0x8000 ∧ (calibration_calm p : Int) = 512 - p := by
  constructor
  · simp [calibration_calp, hp, LL_RTC_CALIB_INSERTPULSE_SET, RTC_CALR_CALP]
  · simp only [calibration_calm, hp, if_true]
    unfold to_uint32 to_int32 MAX_CALP; omega

theorem calibration_fields_of_nonpos (p : Int) (hp : p ≤ 0) (h1 : -511 ≤ p) :
    calibration_calp p = 0 ∧ (calibration_calm p : Int) = -p := by
  have hp2 : ¬ p > 0 := by omega
  constructor
  · simp [calibration_calp, hp2, LL_RTC_CALIB_INSERTPULSE_NONE]
  · simp only [calibration_calm, hp2, if_false]
    unfold to_uint32 to_int32; omega

/-- A `rtc_stm32_set_calibration` that returns 0 was given a value of the
supported range and leaves the state of the CALR write followed by the
enabling of the write protection. -/
theorem set_calibration_of_returns_zero (env : Env) (calibration : Int) (w : World)
    (h0 : (rtc_stm32_set_calibration env calibration w).1 = some 0) :
    (MIN_PPB ≤ calibration ∧ calibration ≤ MAX_PPB) ∧
    (rtc_stm32_set_calibration env calibration w).2 =
      LL_RTC_EnableWriteProtection env
        (MODIFY_REG_CALR env (RTC_CALR_CALP ||| RTC_CALR_CALM)
          (calibration_calp (PPB_TO_NB_PULSES calibration) |||
            calibration_calm (PPB_TO_NB_PULSES calibration))
          (LL_RTC_DisableWriteProtection env
            (WAIT_FOR (recalp_is_clear env) 100000 (k_msleep env 1) w).2)) := by
  have hin : MIN_PPB ≤ calibration ∧ calibration ≤ MAX_PPB := by
    by_contra hc
    have hout : calibration > MAX_PPB ∨ calibration < MIN_PPB := by omega
    unfold rtc_stm32_set_calibration at h0
    simp only [hout, if_true] at h0
    simp [EINVAL] at h0
  refine ⟨hin, ?_⟩
  rw [set_calibration_in_range env calibration w hin.1 hin.2] at h0 ⊢
  split at h0
  · simp [ EIO] at h0
  · rename_i hb
    rw [if_neg hb]

/-- The bounded wait of `rtc_stm32_set_calibration` leaves everything but
the trace and the running calendar as it is. -/
theorem set_calibration_wait_frame (env : Env) (w : World) :
    WaitFrame w (WAIT_FOR (recalp_is_clear env) 100000 (k_msleep env 1) w).2 :=
  WaitFrame_WAIT_FOR (recalp_is_clear env) (k_msleep env 1) (WaitFrame_recalp_is_clear env)
    (WaitFrame_k_msleep env 1) 100000 w

/-- The CALR content after a `rtc_stm32_set_calibration` that returns 0. -/
theorem set_calibration_CALR (env : Env) (calibration : Int) (w : World)
    (h0 : (rtc_stm32_set_calibration env calibration w).1 = some 0) :
    (rtc_stm32_set_calibration env calibration w).2.regs.CALR =
      MODIFY_REG w.regs.CALR (RTC_CALR_CALP ||| RTC_CALR_CALM)
        (calibration_calp (PPB_TO_NB_PULSES calibration) |||
          calibration_calm (PPB_TO_NB_PULSES calibration)) := by
  rw [(set_calibration_of_returns_zero env calibration w h0).2]
  obtain ⟨_, _, _, hc, _⟩ := set_calibration_wait_frame env w
  simp [LL_RTC_EnableWriteProtection, MODIFY_REG_CALR, LL_RTC_DisableWriteProtection,
    World.advance, hc]

/-- C11: for every pulse count p in [-511, 512], rtc_stm32_set_calibration
encodes p > 0 as the insert-pulse flag set with CALM = 512 - p and p <= 0 as
the flag clear with CALM = -p, CALM being in 0..511;
rtc_stm32_get_calibration decodes every CALR content to
(flag ? 512 : 0) - CALM; decoding the encoding of p yields p, and encoding
the decoding of any CALR content yields its flag and its CALM again. -/
theorem calibration_encoding_inverse (p : Int) (h1 : -511 ≤ p) (h2 : p ≤ 512) :
    (p > 0 → calibration_calp p = RTC_CALR_CALP ∧ (calibration_calm p : Int) = 512 - p) ∧
    (p ≤ 0 → calibration_calp p = 0 ∧ (calibration_calm p : Int) = -p) ∧
    calibration_calm p ≤ 511 ∧
    (∀ calr : Nat, get_calibration_nb_pulses calr =
      (if READ_BIT calr RTC_CALR_CALP ≠ 0 then 512 else 0) - (READ_BIT calr RTC_CALR_CALM : Int)) ∧
    (∀ c : Nat, get_calibration_nb_pulses ((MODIFY_REG c (RTC_CALR_CALP ||| RTC_CALR_CALM)
      (calibration_calp p ||| calibration_calm p)) % 4294967296) = p) ∧
    (∀ calr : Nat,
      calibration_calp (get_calibration_nb_pulses calr) = READ_BIT calr RTC_CALR_CALP ∧
      calibration_calm (get_calibration_nb_pulses calr) = READ_BIT calr RTC_CALR_CALM) ∧
    (∀ (env : Env) (w : World) (calibration : Int),
      PPB_TO_NB_PULSES calibration = p →
      (rtc_stm32_set_calibration env calibration w).1 = some 0 →
      READ_BIT ((rtc_stm32_set_calibration env calibration w).2.regs.CALR % 4294967296)
        RTC_CALR_CALP = calibration_calp p ∧
      READ_BIT ((rtc_stm32_set_calibration env calibration w).2.regs.CALR % 4294967296)
        RTC_CALR_CALM = calibration_calm p) ∧
    (∀ (env : Env) (w : World), (rtc_stm32_get_calibration env w).2.1 =
      NB_PULSES_TO_PPB (get_calibration_nb_pulses (sys_read32_CALR env w).1)) := by
  have hm := calibration_calm_lt p h1 h2
  have ha := calibration_calp_cases p
  refine ⟨?_, ?_, by omega, get_calibration_nb_pulses_eq, ?_, ?_, ?_, fun _ _ => rfl⟩
  · intro hp
    exact calibration_fields_of_pos p hp h2
  · intro hp
    exact calibration_fields_of_nonpos p hp h1
  · intro c
    rw [get_calibration_nb_pulses_eq, CALR_read_CALM c _ _ ha hm, CALR_read_CALP c _ _ ha hm]
    by_cases hp : p > 0
    · obtain ⟨e1, e2⟩ := calibration_fields_of_pos p hp h2
      rw [e1, e2]; simp
    · obtain ⟨e1, e2⟩ := calibration_fields_of_nonpos p (by omega) h1
      rw [e1, e2]; simp
  · intro calr
    have hcm := READ_BIT_CALM_lt calr
    rw [get_calibration_nb_pulses_eq]
    rcases READ_BIT_CALP_cases calr with hz | hs
    · simp only [hz, ne_eq, not_true_eq_false, if_false]
      obtain ⟨e1, e2⟩ := calibration_fields_of_nonpos
        (0 - (READ_BIT calr RTC_CALR_CALM : Int)) (by omega) (by omega)
      exact ⟨e1, by omega⟩
    · have hne : READ_BIT calr RTC_CALR_CALP ≠ 0 := by rw [hs]; decide
      simp only [hne, ne_eq, not_false_eq_true, if_true]
      obtain ⟨e1, e2⟩ := calibration_fields_of_pos
        (512 - (READ_BIT calr RTC_CALR_CALM : Int)) (by omega) (by omega)
      exact ⟨by rw [e1, hs], by omega⟩
  · intro env w calibration hpp h0
    rw [set_calibration_CALR env calibration w h0, hpp]
    exact ⟨CALR_read_CALP _ _ _ ha hm, CALR_read_CALM _ _ _ ha hm⟩

/-- Witness of C11: the largest pulse count, 512. -/
theorem calibration_encoding_inverse_witness :
    calibration_calp 512 = RTC_CALR_CALP ∧ (calibration_calm 512 : Int) = 512 - 512 :=
  (calibration_encoding_inverse 512 (by decide) (by decide)).1 (by decide)

/-! ## Rounding of the calibration conversions -/

/-- C12: for every ppb in [MIN_PPB, MAX_PPB], PPB_TO_NB_PULSES(ppb) is
DIV_ROUND_CLOSEST(ppb * 2048, 1953125) computed without int32 overflow; it
is the one integer n with 2 * |n * 1953125 - ppb * 2048| <= 1953125 and
equals rounding halves away from zero, for negative as for positive ppb;
likewise NB_PULSES_TO_PPB(p) is the nearest integer to p * 1953125 / 2048
for every p in [-511, 512]. -/
theorem conversions_round_to_nearest (ppb : Int) (h1 : MIN_PPB ≤ ppb) (h2 : ppb ≤ MAX_PPB) :
    (in_int32 (ppb * 2048) ∧ in_int32 (ppb * 2048 + 976562) ∧ in_int32 (ppb * 2048 - 976562)) ∧
    PPB_TO_NB_PULSES ppb =
      (if ppb * 2048 < 0 then Int.tdiv (ppb * 2048 - Int.tdiv 1953125 2) 1953125
       else Int.tdiv (ppb * 2048 + Int.tdiv 1953125 2) 1953125) ∧
    2 * |PPB_TO_NB_PULSES ppb * 1953125 - ppb * 2048| ≤ 1953125 ∧
    (∀ n : Int, 2 * |n * 1953125 - ppb * 2048| ≤ 1953125 → n = PPB_TO_NB_PULSES ppb) ∧
    PPB_TO_NB_PULSES ppb = round_half_away_from_zero (ppb * 2048) 1953125 ∧
    (∀ p : Int, -511 ≤ p → p ≤ 512 →
      (in_int32 (p * 1953125) ∧ in_int32 (p * 1953125 + 1024) ∧ in_int32 (p * 1953125 - 1024)) ∧
      2 * |NB_PULSES_TO_PPB p * 2048 - p * 1953125| ≤ 2048 ∧
      (∀ n : Int, 2 * |n * 2048 - p * 1953125| ≤ 2048 → n = NB_PULSES_TO_PPB p) ∧
      NB_PULSES_TO_PPB p = round_half_away_from_zero (p * 1953125) 2048) := by
  rw [MIN_PPB_eq] at h1
  rw [MAX_PPB_eq] at h2
  obtain ⟨r1, r2, r3, r4⟩ := PPB_TO_NB_PULSES_range ppb h1 h2
  have hd : Int.tdiv 1953125 2 = 976562 := by decide
  refine ⟨?_, ?_, ?_, ?_, ?_, ?_⟩
  · unfold in_int32 INT32_MIN INT32_MAX; omega
  · rw [PPB_TO_NB_PULSES_eq ppb (by omega) (by omega), hd]
    by_cases hneg : ppb < 0
    · have hn : ppb * 2048 < 0 := by omega
      rw [if_pos hneg, if_pos hn, tdiv_of_nonpos _ _ (by omega) (by omega)]
      have e : -(ppb * 2048 - 976562) = 976562 - ppb * 2048 := by ring
      rw [e]
    · have hn : ¬ ppb * 2048 < 0 := by omega
      rw [if_neg hneg, if_neg hn, tdiv_of_nonneg _ _ (by omega) (by omega)]
  · rcases abs_cases (PPB_TO_NB_PULSES ppb * 1953125 - ppb * 2048) with ⟨h, _⟩ | ⟨h, _⟩ <;>
      rw [h] <;> omega
  · intro n hn
    rcases abs_cases (n * 1953125 - ppb * 2048) with ⟨h, _⟩ | ⟨h, _⟩ <;> rw [h] at hn <;> omega
  · rw [PPB_TO_NB_PULSES_eq ppb (by omega) (by omega)]
    unfold round_half_away_from_zero
    by_cases hneg : ppb < 0
    · have hn : ppb * 2048 < 0 := by omega
      rw [if_pos hneg, if_pos hn]
      omega
    · have hn : ¬ ppb * 2048 < 0 := by omega
      rw [if_neg hneg, if_neg hn]
      omega
  · intro p p1 p2
    obtain ⟨q1, q2⟩ := NB_PULSES_TO_PPB_range p p1 p2
    refine ⟨?_, ?_, ?_, ?_⟩
    · unfold in_int32 INT32_MIN INT32_MAX; omega
    · rcases abs_cases (NB_PULSES_TO_PPB p * 2048 - p * 1953125) with ⟨h, _⟩ | ⟨h, _⟩ <;>
        rw [h] <;> omega
    · intro n hn
      rw [NB_PULSES_TO_PPB_eq p (by omega) (by omega)]
      rcases abs_cases (n * 2048 - p * 1953125) with ⟨h, _⟩ | ⟨h, _⟩ <;> rw [h] at hn <;>
        split <;> omega
    · rw [NB_PULSES_TO_PPB_eq p (by omega) (by omega)]
      unfold round_half_away_from_zero
      by_cases hneg : p < 0
      · have hn : p * 1953125 < 0 := by omega
        rw [if_pos hneg, if_pos hn]
        omega
      · have hn : ¬ p * 1953125 < 0 := by omega
        rw [if_neg hneg, if_neg hn]
        omega

/-- Witness of C12: a negative calibration, -100000 ppb, gives -105 pulses. -/
theorem conversions_round_to_nearest_witness :
    PPB_TO_NB_PULSES (-100000) = round_half_away_from_zero (-100000 * 2048) 1953125 :=
  (conversions_round_to_nearest (-100000) (by decide) (by decide)).2.2.2.2.1

/-! ## Assertions and re-application of the calibration -/

/-- No call of `rtc_stm32_set_calibration` ends in a failed assertion. -/
theorem set_calibration_assertions_hold (env : Env) (calibration : Int) (w : World) :
    (rtc_stm32_set_calibration env calibration w).1 ≠ none := by
  by_cases hout : calibration > MAX_PPB ∨ calibration < MIN_PPB
  · unfold rtc_stm32_set_calibration
    simp only [hout, if_true]
    simp
  · rw [set_calibration_in_range env calibration w (by omega) (by omega)]
    split <;> simp

/-- With the RECALPF flag clear at the two polls, every value of the range
is applied and 0 returned. -/
theorem set_calibration_of_RECALPF_clear (env : Env) (calibration : Int) (w : World)
    (h1 : MIN_PPB ≤ calibration) (h2 : calibration ≤ MAX_PPB)
    (f1 : env.RECALPF w.steps = false) (f2 : env.RECALPF (w.steps + 1) = false) :
    (rtc_stm32_set_calibration env calibration w).1 = some 0 := by
  rw [set_calibration_in_range env calibration w h1 h2]
  have hp : (recalp_is_clear env w).1 = true := by
    simp [recalp_is_clear, LL_RTC_IsActiveFlag_RECALP, f1]
  have hp2 : (recalp_is_clear env (recalp_is_clear env w).2).1 = true := by
    simp [recalp_is_clear, LL_RTC_IsActiveFlag_RECALP, World.advance, f2]
  rw [WAIT_FOR_of_first _ _ _ _ hp]
  simp [hp2]

/-- C17: for every int32 calibration with MIN_PPB <= calibration <= MAX_PPB
(-487328..488281), nb_pulses = PPB_TO_NB_PULSES(calibration) satisfies
-511 <= nb_pulses <= 512, so neither assertion of rtc_stm32_set_calibration
fails, and the CALM value computed, 512 - nb_pulses or -nb_pulses, fits the
9-bit field 0..511. -/
theorem range_check_makes_assertions_valid (calibration : Int)
    (h1 : MIN_PPB ≤ calibration) (h2 : calibration ≤ MAX_PPB) :
    (-487328 ≤ calibration ∧ calibration ≤ 488281) ∧
    (-511 ≤ PPB_TO_NB_PULSES calibration ∧ PPB_TO_NB_PULSES calibration ≤ 512) ∧
    (PPB_TO_NB_PULSES calibration ≤ MAX_CALP ∧
      PPB_TO_NB_PULSES calibration ≥ to_int32 (-MAX_CALM)) ∧
    (∀ (env : Env) (w : World), (rtc_stm32_set_calibration env calibration w).1 ≠ none) ∧
    calibration_calm (PPB_TO_NB_PULSES calibration) ≤ 511 ∧
    (calibration_calm (PPB_TO_NB_PULSES calibration) : Int) =
      (if PPB_TO_NB_PULSES calibration > 0 then 512 - PPB_TO_NB_PULSES calibration
       else -PPB_TO_NB_PULSES calibration) := by
  have h1a := h1
  have h2a := h2
  rw [MIN_PPB_eq] at h1a
  rw [MAX_PPB_eq] at h2a
  obtain ⟨r1, r2, _, _⟩ := PPB_TO_NB_PULSES_range calibration h1a h2a
  have hm : to_int32 (-MAX_CALM) = -511 := by decide
  have hc := calibration_calm_lt (PPB_TO_NB_PULSES calibration) r1 r2
  refine ⟨⟨h1a, h2a⟩, ⟨r1, r2⟩, ⟨by unfold MAX_CALP; omega, by rw [hm]; omega⟩,
    fun env w => set_calibration_assertions_hold env calibration w, by omega, ?_⟩
  by_cases hp : PPB_TO_NB_PULSES calibration > 0
  · rw [if_pos hp]
    exact (calibration_fields_of_pos _ hp r2).2
  · rw [if_neg hp]
    exact (calibration_fields_of_nonpos _ (by omega) r1).2

/-- Witness of C17: the two ends of the range give 512 and -511 pulses. -/
theorem range_check_makes_assertions_valid_witness :
    (-511 ≤ PPB_TO_NB_PULSES MAX_PPB ∧ PPB_TO_NB_PULSES MAX_PPB ≤ 512) ∧
    (-511 ≤ PPB_TO_NB_PULSES MIN_PPB ∧ PPB_TO_NB_PULSES MIN_PPB ≤ 512) :=
  ⟨(range_check_makes_assertions_valid MAX_PPB (by decide) (by decide)).2.1,
   (range_check_makes_assertions_valid MIN_PPB (by decide) (by decide)).2.1⟩

/-- The ppb value of a pulse count the hardware can hold is within the
supported range and converts back to the same pulse count. -/
theorem PPB_TO_NB_PULSES_of_NB_PULSES_TO_PPB (p : Int) (h1 : -511 ≤ p) (h2 : p ≤ 512) :
    -487328 ≤ NB_PULSES_TO_PPB p ∧ NB_PULSES_TO_PPB p ≤ 488281 ∧
    PPB_TO_NB_PULSES (NB_PULSES_TO_PPB p) = p := by
  obtain ⟨q1, q2⟩ := NB_PULSES_TO_PPB_range p h1 h2
  have a1 : -487328 ≤ NB_PULSES_TO_PPB p := by omega
  have a2 : NB_PULSES_TO_PPB p ≤ 488281 := by omega
  refine ⟨a1, a2, ?_⟩
  rw [PPB_TO_NB_PULSES_eq _ (by omega) (by omega)]
  split <;> omega

theorem get_calibration_nb_pulses_range (calr : Nat) :
    -511 ≤ get_calibration_nb_pulses calr ∧ get_calibration_nb_pulses calr ≤ 512 := by
  have hm := READ_BIT_CALM_lt calr
  rw [get_calibration_nb_pulses_eq]
  split <;> omega

/-- Encoding the pulse count decoded from a CALR content gives the flag and
the CALM of that content. -/
theorem calibration_fields_of_decoded (calr : Nat) :
    calibration_calp (get_calibration_nb_pulses calr) = READ_BIT calr RTC_CALR_CALP ∧
    calibration_calm (get_calibration_nb_pulses calr) = READ_BIT calr RTC_CALR_CALM := by
  have hcm := READ_BIT_CALM_lt calr
  rw [get_calibration_nb_pulses_eq]
  rcases READ_BIT_CALP_cases calr with hz | hs
  · simp only [hz, ne_eq, not_true_eq_false, if_false]
    obtain ⟨e1, e2⟩ := calibration_fields_of_nonpos
      (0 - (READ_BIT calr RTC_CALR_CALM : Int)) (by omega) (by omega)
    exact ⟨e1, by omega⟩
  · have hne : READ_BIT calr RTC_CALR_CALP ≠ 0 := by rw [hs]; decide
    simp only [hne, ne_eq, not_false_eq_true, if_true]
    obtain ⟨e1, e2⟩ := calibration_fields_of_pos
      (512 - (READ_BIT calr RTC_CALR_CALM : Int)) (by omega) (by omega)
    exact ⟨by rw [e1, hs], by omega⟩

/-- C18: for every CALR content, the value c returned by
rtc_stm32_get_calibration lies in [MIN_PPB, MAX_PPB] and PPB_TO_NB_PULSES(c)
is the effective pulse count (flag ? 512 : 0) - CALM; hence
PPB_TO_NB_PULSES(NB_PULSES_TO_PPB(p)) = p for every p in [-511, 512]; and
rtc_stm32_set_calibration(c) with the RECALPF flag clear returns 0 and
writes back the same flag and the same CALM. -/
theorem calibration_read_back_is_lossless (env : Env) (w : World) :
    (MIN_PPB ≤ (rtc_stm32_get_calibration env w).2.1 ∧
      (rtc_stm32_get_calibration env w).2.1 ≤ MAX_PPB) ∧
    PPB_TO_NB_PULSES (rtc_stm32_get_calibration env w).2.1 =
      (if READ_BIT (sys_read32_CALR env w).1 RTC_CALR_CALP ≠ 0 then 512 else 0) -
        (READ_BIT (sys_read32_CALR env w).1 RTC_CALR_CALM : Int) ∧
    (∀ p : Int, -511 ≤ p → p ≤ 512 → PPB_TO_NB_PULSES (NB_PULSES_TO_PPB p) = p) ∧
    ((∀ n, env.RECALPF n = false) →
      (rtc_stm32_set_calibration env (rtc_stm32_get_calibration env w).2.1
        (rtc_stm32_get_calibration env w).2.2).1 = some 0 ∧
      READ_BIT ((rtc_stm32_set_calibration env (rtc_stm32_get_calibration env w).2.1
        (rtc_stm32_get_calibration env w).2.2).2.regs.CALR % 4294967296) RTC_CALR_CALP =
          READ_BIT (sys_read32_CALR env w).1 RTC_CALR_CALP ∧
      READ_BIT ((rtc_stm32_set_calibration env (rtc_stm32_get_calibration env w).2.1
        (rtc_stm32_get_calibration env w).2.2).2.regs.CALR % 4294967296) RTC_CALR_CALM =
          READ_BIT (sys_read32_CALR env w).1 RTC_CALR_CALM) := by
  rw [get_calibration_eq]
  simp only
  obtain ⟨g1, g2⟩ := get_calibration_nb_pulses_range (sys_read32_CALR env w).1
  obtain ⟨c1, c2, c3⟩ := PPB_TO_NB_PULSES_of_NB_PULSES_TO_PPB _ g1 g2
  have hmin : MIN_PPB ≤ NB_PULSES_TO_PPB (get_calibration_nb_pulses (sys_read32_CALR env w).1) := by
    rw [MIN_PPB_eq]; exact c1
  have hmax : NB_PULSES_TO_PPB (get_calibration_nb_pulses (sys_read32_CALR env w).1) ≤ MAX_PPB := by
    rw [MAX_PPB_eq]; exact c2
  refine ⟨⟨hmin, hmax⟩, ?_, fun p p1 p2 => (PPB_TO_NB_PULSES_of_NB_PULSES_TO_PPB p p1 p2).2.2, ?_⟩
  · rw [c3, get_calibration_nb_pulses_eq]
  · intro hR
    have h0 := set_calibration_of_RECALPF_clear env _ (sys_read32_CALR env w).2 hmin hmax
      (hR _) (hR _)
    refine ⟨h0, ?_⟩
    rw [set_calibration_CALR env _ _ h0, c3]
    have hcm := calibration_calm_lt _ g1 g2
    have hcp := calibration_calp_cases (get_calibration_nb_pulses (sys_read32_CALR env w).1)
    rw [CALR_read_CALP _ _ _ hcp hcm, CALR_read_CALM _ _ _ hcp hcm]
    exact calibration_fields_of_decoded (sys_read32_CALR env w).1

/-- Witness of C18: the idle register file, whose CALR is 0. -/
theorem calibration_read_back_is_lossless_witness :
    (rtc_stm32_set_calibration quiet_env (rtc_stm32_get_calibration quiet_env idle_world).2.1
      (rtc_stm32_get_calibration quiet_env idle_world).2.2).1 = some 0 :=
  ((calibration_read_back_is_lossless quiet_env idle_world).2.2.2 (fun _ => rfl)).1

/-! ## Fractional seconds -/

/-- The subsecond value the inner loop returns is a value of the 16-bit SS
field. -/
theorem get_time_read_time_subsecond (env : Env) (fuel : Nat) :
    ∀ (w w1 : World) (t ss : Nat), get_time_read_time env fuel w = some (t, ss, w1) →
      ss ≤ 0xFFFF := by
  induction fuel with
  | zero => intro w w1 t ss h; simp [get_time_read_time] at h
  | succ n ih =>
    intro w w1 t ss h
    rw [get_time_read_time] at h
    split at h
    · exact ih _ _ _ _ h
    · simp only [Option.some.injEq, Prod.mk.injEq] at h
      obtain ⟨_, rfl, _⟩ := h
      exact Nat.and_le_right

/-- The subsecond value the outer loop returns is a value of the 16-bit SS
field. -/
theorem get_time_read_date_subsecond (env : Env) (fuel : Nat) :
    ∀ (w w1 : World) (d t ss : Nat), get_time_read_date env fuel w = some (d, t, ss, w1) →
      ss ≤ 0xFFFF := by
  induction fuel with
  | zero => intro w w1 d t ss h; simp [get_time_read_date] at h
  | succ n ih =>
    intro w w1 d t ss h
    rw [get_time_read_date] at h
    simp only at h
    split at h
    · simp at h
    · rename_i t0 ss0 w0 hin
      have hs := get_time_read_time_subsecond env _ _ _ _ _ hin
      split at h
      · exact ih _ _ _ _ _ h
      · simp only [Option.some.injEq, Prod.mk.injEq] at h
        obtain ⟨_, _, rfl, _⟩ := h
        exact hs

/-- What `rtc_stm32_get_time` returns when it takes the lock: 0 and the
translation of a snapshot whose subsecond value fits the SS field. -/
theorem get_time_result (fuel : Nat) (env : Env) (cfg : rtc_stm32_config)
    (timeptr : rtc_time) (w : World) (hl : w.locked = false)
    (ret : Int) (t1 : rtc_time) (w1 : World)
    (h : rtc_stm32_get_time fuel env cfg timeptr w = some (ret, t1, w1)) :
    ret = 0 ∧ ∃ d t ss, ss ≤ 0xFFFF ∧ t1 = get_time_fill cfg d t ss timeptr := by
  unfold rtc_stm32_get_time at h
  have hk : k_mutex_lock w = (0, { w with locked := true, trace := w.trace ++ [Event.k_mutex_lock] }) := by
    simp [k_mutex_lock, hl]
  rw [hk] at h
  simp only [ne_eq, not_true_eq_false, if_false] at h
  split at h
  · simp at h
  · rename_i d t ss w0 hin
    simp only [Option.some.injEq, Prod.mk.injEq] at h
    obtain ⟨rfl, rfl, _⟩ := h
    exact ⟨rfl, d, t, ss, get_time_read_date_subsecond env _ _ _ _ _ _ hin, rfl⟩

/-- The nanoseconds of the LSI profile for a subsecond value within the
prescaler. -/
theorem tm_nsec_LSI (rtc_date rtc_time_ ss : Nat) (out : rtc_time) (hss : ss ≤ 249) :
    (get_time_fill rtc_config_LSI rtc_date rtc_time_ ss out).tm_nsec
      = (((249 - ss) * 1000000000 + 125) / 250 : Nat) := by
  have hP : rtc_config_LSI.sync_prescaler = 249 := rfl
  have a1 : to_uint32 (((249 : Nat) : Int) - ss) = 249 - ss := by
    unfold to_uint32; omega
  have a2 : (249 + 1) % 4294967296 = 250 := by norm_num
  have a3 : (249 - ss) * 1000000000 % 18446744073709551616 = (249 - ss) * 1000000000 :=
    Nat.mod_eq_of_lt (by omega)
  have a4 : ((249 - ss) * 1000000000 + 250 / 2) % 18446744073709551616
      = (249 - ss) * 1000000000 + 125 := by
    rw [Nat.mod_eq_of_lt (by omega)]
  simp only [get_time_fill, DIV_ROUND_CLOSEST_u64, hP, a1, a2, a3, a4]
  apply to_int32_of_in_range <;> omega

/-- The nanoseconds of the LSE profile for a subsecond value within the
prescaler. -/
theorem tm_nsec_LSE (rtc_date rtc_time_ ss : Nat) (out : rtc_time) (hss : ss ≤ 255) :
    (get_time_fill rtc_config_LSE rtc_date rtc_time_ ss out).tm_nsec
      = (((255 - ss) * 1000000000 + 128) / 256 : Nat) := by
  have hP : rtc_config_LSE.sync_prescaler = 255 := rfl
  have a1 : to_uint32 (((255 : Nat) : Int) - ss) = 255 - ss := by
    unfold to_uint32; omega
  have a2 : (255 + 1) % 4294967296 = 256 := by norm_num
  have a3 : (255 - ss) * 1000000000 % 18446744073709551616 = (255 - ss) * 1000000000 :=
    Nat.mod_eq_of_lt (by omega)
  have a4 : ((255 - ss) * 1000000000 + 256 / 2) % 18446744073709551616
      = (255 - ss) * 1000000000 + 128 := by
    rw [Nat.mod_eq_of_lt (by omega)]
  simp only [get_time_fill, DIV_ROUND_CLOSEST_u64, hP, a1, a2, a3, a4]
  apply to_int32_of_in_range <;> omega

/-- C13: for the synchronous prescaler P of either profile (0x00F9 for LSI,
0x00FF for LSE) and every subsecond value ss with 0 <= ss <= P,
rtc_stm32_get_time sets tm_nsec to
((P - ss) * 10^9 + (P + 1) / 2) / (P + 1), computed in 64-bit unsigned
arithmetic without overflow; it is the integer nearest to
(P - ss) * 10^9 / (P + 1) and satisfies 0 <= tm_nsec < 10^9. -/
theorem fractional_seconds (cfg : rtc_stm32_config) (rtc_date rtc_time_ ss : Nat)
    (out : rtc_time) (hcfg : cfg = rtc_config_LSI ∨ cfg = rtc_config_LSE)
    (hss : ss ≤ cfg.sync_prescaler) :
    (cfg.sync_prescaler = 0x00F9 ∨ cfg.sync_prescaler = 0x00FF) ∧
    (cfg.sync_prescaler - ss) * 1000000000 + (cfg.sync_prescaler + 1) / 2
      < 18446744073709551616 ∧
    (get_time_fill cfg rtc_date rtc_time_ ss out).tm_nsec =
      (((cfg.sync_prescaler - ss) * 1000000000 + (cfg.sync_prescaler + 1) / 2)
        / (cfg.sync_prescaler + 1) : Nat) ∧
    2 * |(get_time_fill cfg rtc_date rtc_time_ ss out).tm_nsec * (cfg.sync_prescaler + 1)
        - ((cfg.sync_prescaler : Int) - ss) * 1000000000| ≤ cfg.sync_prescaler + 1 ∧
    0 ≤ (get_time_fill cfg rtc_date rtc_time_ ss out).tm_nsec ∧
    (get_time_fill cfg rtc_date rtc_time_ ss out).tm_nsec < 1000000000 := by
  rcases hcfg with rfl | rfl
  · have hP : rtc_config_LSI.sync_prescaler = 249 := rfl
    rw [hP] at hss ⊢
    rw [tm_nsec_LSI rtc_date rtc_time_ ss out hss]
    refine ⟨Or.inl rfl, by omega, by norm_num, ?_, by omega, by omega⟩
    rcases abs_cases ((((249 - ss) * 1000000000 + 125) / 250 : Nat) * (((249 : Nat) : Int) + 1)
      - (((249 : Nat) : Int) - ss) * 1000000000) with ⟨h, _⟩ | ⟨h, _⟩ <;> rw [h] <;> omega
  · have hP : rtc_config_LSE.sync_prescaler = 255 := rfl
    rw [hP] at hss ⊢
    rw [tm_nsec_LSE rtc_date rtc_time_ ss out hss]
    refine ⟨Or.inr rfl, by omega, by norm_num, ?_, by omega, by omega⟩
    rcases abs_cases ((((255 - ss) * 1000000000 + 128) / 256 : Nat) * (((255 : Nat) : Int) + 1)
      - (((255 : Nat) : Int) - ss) * 1000000000) with ⟨h, _⟩ | ⟨h, _⟩ <;> rw [h] <;> omega

/-- Witness of C13: the LSE profile with the subsecond counter at 128. -/
theorem fractional_seconds_witness :
    (get_time_fill rtc_config_LSE 0 0 128 sample_time).tm_nsec =
      (((rtc_config_LSE.sync_prescaler - 128) * 1000000000
        + (rtc_config_LSE.sync_prescaler + 1) / 2) / (rtc_config_LSE.sync_prescaler + 1) : Nat) :=
  (fractional_seconds rtc_config_LSE 0 0 128 sample_time (Or.inr rfl) (by decide)).2.2.1

/-- C20 (as amended): for either profile and every subsecond value not
larger than the synchronous prescaler, the tm_nsec rtc_stm32_get_time
returns satisfies 0 <= tm_nsec <= 999999999. For every value of the 16-bit
SS field the code computes (uint32_t)(sync_prescaler - rtc_subsecond)
widened to 64 bits, times 10^9, rounded-divided by sync_prescaler + 1
without 64-bit overflow, and stores it into a C int; above the prescaler
the 32-bit difference wraps. -/
theorem tm_nsec_is_valid_within_prescaler (cfg : rtc_stm32_config)
    (hcfg : cfg = rtc_config_LSI ∨ cfg = rtc_config_LSE) :
    (∀ (rtc_date rtc_time_ ss : Nat) (out : rtc_time), ss ≤ cfg.sync_prescaler →
      0 ≤ (get_time_fill cfg rtc_date rtc_time_ ss out).tm_nsec ∧
      (get_time_fill cfg rtc_date rtc_time_ ss out).tm_nsec ≤ 999999999) ∧
    (∀ (rtc_date rtc_time_ ss : Nat) (out : rtc_time), ss ≤ 0xFFFF →
      to_uint32 ((cfg.sync_prescaler : Int) - ss) * 1000000000 + (cfg.sync_prescaler + 1) / 2
        < 18446744073709551616 ∧
      (get_time_fill cfg rtc_date rtc_time_ ss out).tm_nsec =
        to_int32 (((to_uint32 ((cfg.sync_prescaler : Int) - ss) * 1000000000
          + (cfg.sync_prescaler + 1) / 2) / (cfg.sync_prescaler + 1) : Nat))) ∧
    (∀ (fuel : Nat) (env : Env) (timeptr : rtc_time) (w : World) (ret : Int) (t1 : rtc_time)
      (w1 : World), w.locked = false →
      rtc_stm32_get_time fuel env cfg timeptr w = some (ret, t1, w1) →
      ∃ d t ss, ss ≤ 0xFFFF ∧ t1 = get_time_fill cfg d t ss timeptr ∧
        (ss ≤ cfg.sync_prescaler → 0 ≤ t1.tm_nsec ∧ t1.tm_nsec ≤ 999999999)) := by
  have hin : ∀ (rtc_date rtc_time_ ss : Nat) (out : rtc_time), ss ≤ cfg.sync_prescaler →
      0 ≤ (get_time_fill cfg rtc_date rtc_time_ ss out).tm_nsec ∧
      (get_time_fill cfg rtc_date rtc_time_ ss out).tm_nsec ≤ 999999999 := by
    intro d t ss out hss
    rcases hcfg with rfl | rfl
    · have hP : rtc_config_LSI.sync_prescaler = 249 := rfl
      rw [hP] at hss
      rw [tm_nsec_LSI d t ss out hss]
      omega
    · have hP : rtc_config_LSE.sync_prescaler = 255 := rfl
      rw [hP] at hss
      rw [tm_nsec_LSE d t ss out hss]
      omega
  refine ⟨hin, ?_, ?_⟩
  · intro d t ss out hss
    have hu : to_uint32 ((cfg.sync_prescaler : Int) - ss) < 4294967296 := by
      unfold to_uint32; omega
    have hp : cfg.sync_prescaler = 249 ∨ cfg.sync_prescaler = 255 := by
      rcases hcfg with rfl | rfl
      · exact Or.inl rfl
      · exact Or.inr rfl
    have hlt : to_uint32 ((cfg.sync_prescaler : Int) - ss) * 1000000000
        + (cfg.sync_prescaler + 1) / 2 < 18446744073709551616 := by
      rcases hp with h | h <;> rw [h] at hu ⊢ <;> omega
    refine ⟨hlt, ?_⟩
    have hs : (cfg.sync_prescaler + 1) % 4294967296 = cfg.sync_prescaler + 1 := by
      rcases hp with h | h <;> rw [h]
    have hm : to_uint32 ((cfg.sync_prescaler : Int) - ss) * 1000000000 % 18446744073709551616
        = to_uint32 ((cfg.sync_prescaler : Int) - ss) * 1000000000 :=
      Nat.mod_eq_of_lt (by omega)
    simp only [get_time_fill, DIV_ROUND_CLOSEST_u64, hs, hm]
    rw [Nat.mod_eq_of_lt hlt]
  · intro fuel env timeptr w ret t1 w1 hl h
    obtain ⟨_, d, t, ss, hss, ht⟩ := get_time_result fuel env cfg timeptr w hl ret t1 w1 h
    refine ⟨d, t, ss, hss, ht, ?_⟩
    intro hle
    rw [ht]
    exact hin d t ss timeptr hle

/-- Witness of C20: the LSI profile read on the idle register file. -/
theorem tm_nsec_is_valid_within_prescaler_witness :
    0 ≤ (get_time_fill rtc_config_LSI 0 0 249 sample_time).tm_nsec ∧
    (get_time_fill rtc_config_LSI 0 0 249 sample_time).tm_nsec ≤ 999999999 :=
  (tm_nsec_is_valid_within_prescaler rtc_config_LSI (Or.inl rfl)).1 0 0 249 sample_time
    (by decide)

/-- C20 (as stated) fails for a subsecond value above the prescaler: with
the LSE profile (prescaler 255) and the SS field at 256, both calls of the
16-bit range, rtc_stm32_get_time returns 0 and tm_nsec = -3906250. -/
theorem tm_nsec_negative_above_prescaler :
    (256 : Nat) ≤ 0xFFFF ∧
    (rtc_stm32_get_time 1 quiet_env rtc_config_LSE sample_time
      { idle_world with regs := { idle_world.regs with SSR := 256 } }).map
        (fun r => (r.1, r.2.1.tm_nsec)) = some (0, -3906250) := by
  decide

/-! ## The lock around the transactions -/

theorem lock_guarded_true_append (l rest : List Event)
    (h : ∀ e ∈ l, e.isMutexEvent = false) :
    lock_guarded true (l ++ rest) = lock_guarded true rest := by
  induction l with
  | nil => rfl
  | cons e es ih =>
    have he := h e (List.mem_cons_self e es)
    have ih2 := ih (fun x hx => h x (List.mem_cons_of_mem e hx))
    cases e <;> simp [Event.isMutexEvent] at he <;> simp [lock_guarded, ih2]

/-- A transaction: the lock, events that are not on the mutex, the unlock. -/
theorem lock_guarded_transaction (l : List Event) (h : ∀ e ∈ l, e.isMutexEvent = false) :
    lock_guarded false ([Event.k_mutex_lock] ++ l ++ [Event.k_mutex_unlock]) = true := by
  have e : [Event.k_mutex_lock] ++ l ++ [Event.k_mutex_unlock]
      = Event.k_mutex_lock :: (l ++ [Event.k_mutex_unlock]) := by simp
  rw [e]
  simp only [lock_guarded]
  rw [lock_guarded_true_append l _ h]
  rfl

theorem isMutexEvent_of_isWaitEvent (e : Event) (h : e.isWaitEvent = true) :
    e.isMutexEvent = false := by
  cases e <;> simp [Event.isWaitEvent] at h <;> rfl

/-- The inner loop of `rtc_stm32_get_time` only reads registers and leaves
the lock as it is. -/
theorem get_time_read_time_frame (env : Env) (fuel : Nat) :
    ∀ (w w1 : World) (t ss : Nat), get_time_read_time env fuel w = some (t, ss, w1) →
      w1.locked = w.locked ∧
      ∃ l, w1.trace = w.trace ++ l ∧ ∀ e ∈ l, e.isMutexEvent = false := by
  induction fuel with
  | zero => intro w w1 t ss h; simp [get_time_read_time] at h
  | succ n ih =>
    intro w w1 t ss h
    rw [get_time_read_time] at h
    have hstep : (LL_RTC_TIME_Get env (LL_RTC_TIME_GetSubSecond env
        (LL_RTC_TIME_Get env w).2).2).2.locked = w.locked := by
      simp [LL_RTC_TIME_Get, LL_RTC_TIME_GetSubSecond, World.advance]
    have htr : (LL_RTC_TIME_Get env (LL_RTC_TIME_GetSubSecond env
        (LL_RTC_TIME_Get env w).2).2).2.trace = w.trace ++
          [Event.read Reg.TR (LL_RTC_TIME_Get env w).1,
           Event.read Reg.SSR (LL_RTC_TIME_GetSubSecond env (LL_RTC_TIME_Get env w).2).1,
           Event.read Reg.TR (LL_RTC_TIME_Get env
             (LL_RTC_TIME_GetSubSecond env (LL_RTC_TIME_Get env w).2).2).1] := by
      rw [trace_LL_RTC_TIME_Get, trace_LL_RTC_TIME_GetSubSecond, trace_LL_RTC_TIME_Get]
      simp
    have hev : ∀ e ∈ [Event.read Reg.TR (LL_RTC_TIME_Get env w).1,
           Event.read Reg.SSR (LL_RTC_TIME_GetSubSecond env (LL_RTC_TIME_Get env w).2).1,
           Event.read Reg.TR (LL_RTC_TIME_Get env
             (LL_RTC_TIME_GetSubSecond env (LL_RTC_TIME_Get env w).2).2).1],
        e.isMutexEvent = false := by
      intro e he
      simp only [List.mem_cons, List.mem_singleton, List.not_mem_nil, or_false] at he
      rcases he with rfl | rfl | rfl <;> rfl
    obtain ⟨l3, htr, hev⟩ : ∃ l3, (LL_RTC_TIME_Get env (LL_RTC_TIME_GetSubSecond env
        (LL_RTC_TIME_Get env w).2).2).2.trace = w.trace ++ l3 ∧
        ∀ e ∈ l3, e.isMutexEvent = false := ⟨_, htr, hev⟩
    split at h
    · obtain ⟨hl, l, hm, hd⟩ := ih _ _ _ _ h
      refine ⟨hl.trans hstep, l3 ++ l, ?_, ?_⟩
      · rw [hm, htr, List.append_assoc]
      · intro e he
        rcases List.mem_append.mp he with h1 | h1
        · exact hev e h1
        · exact hd e h1
    · simp only [Option.some.injEq, Prod.mk.injEq] at h
      obtain ⟨_, _, rfl⟩ := h
      exact ⟨hstep, _, htr, hev⟩

/-- The outer loop of `rtc_stm32_get_time` only reads registers and leaves
the lock as it is. -/
theorem get_time_read_date_frame (env : Env) (fuel : Nat) :
    ∀ (w w1 : World) (d t ss : Nat), get_time_read_date env fuel w = some (d, t, ss, w1) →
      w1.locked = w.locked ∧
      ∃ l, w1.trace = w.trace ++ l ∧ ∀ e ∈ l, e.isMutexEvent = false := by
  induction fuel with
  | zero => intro w w1 d t ss h; simp [get_time_read_date] at h
  | succ n ih =>
    intro w w1 d t ss h
    rw [get_time_read_date] at h
    simp only at h
    split at h
    · simp at h
    · rename_i t0 ss0 w0 hin
      obtain ⟨hl0, l0, hm0, hd0⟩ := get_time_read_time_frame env _ _ _ _ _ hin
      have hstep : (LL_RTC_DATE_Get env w0).2.locked = w.locked := by
        have : (LL_RTC_DATE_Get env w0).2.locked = w0.locked := by
          simp [LL_RTC_DATE_Get, World.advance]
        rw [this, hl0]
        simp [LL_RTC_DATE_Get, World.advance]
      have htr : (LL_RTC_DATE_Get env w0).2.trace = w.trace ++
          ([Event.read Reg.DR (LL_RTC_DATE_Get env w).1] ++ l0 ++
            [Event.read Reg.DR (LL_RTC_DATE_Get env w0).1]) := by
        rw [trace_LL_RTC_DATE_Get, hm0, trace_LL_RTC_DATE_Get]
        simp
      have hev : ∀ e ∈ [Event.read Reg.DR (LL_RTC_DATE_Get env w).1] ++ l0 ++
            [Event.read Reg.DR (LL_RTC_DATE_Get env w0).1], e.isMutexEvent = false := by
        intro e he
        simp only [List.mem_append, List.mem_singleton] at he
        rcases he with (rfl | he) | rfl
        · rfl
        · exact hd0 e he
        · rfl
      obtain ⟨l3, htr, hev⟩ : ∃ l3, (LL_RTC_DATE_Get env w0).2.trace = w.trace ++ l3 ∧
          ∀ e ∈ l3, e.isMutexEvent = false := ⟨_, htr, hev⟩
      split at h
      · obtain ⟨hl, l, hm, hd⟩ := ih _ _ _ _ _ h
        refine ⟨hl.trans hstep, l3 ++ l, ?_, ?_⟩
        · rw [hm, htr, List.append_assoc]
        · intro e he
          rcases List.mem_append.mp he with h1 | h1
          · exact hev e h1
          · exact hd e h1
      · simp only [Option.some.injEq, Prod.mk.injEq] at h
        obtain ⟨_, _, _, rfl⟩ := h
        exact ⟨hstep, _, htr, hev⟩

/-- The trace `rtc_stm32_get_time` adds when it returns: nothing when the
lock is busy, else one transaction. -/
theorem get_time_trace (fuel : Nat) (env : Env) (cfg : rtc_stm32_config)
    (timeptr : rtc_time) (w : World) (ret : Int) (t1 : rtc_time) (w1 : World)
    (h : rtc_stm32_get_time fuel env cfg timeptr w = some (ret, t1, w1)) :
    w1.locked = w.locked ∧
    (w1.trace = w.trace ∨
      ∃ l, w1.trace = w.trace ++ ([Event.k_mutex_lock] ++ l ++ [Event.k_mutex_unlock]) ∧
        ∀ e ∈ l, e.isMutexEvent = false) := by
  unfold rtc_stm32_get_time at h
  by_cases hl : w.locked = true
  · simp [k_mutex_lock, hl, EBUSY] at h
    obtain ⟨_, _, rfl⟩ := h
    exact ⟨rfl, Or.inl rfl⟩
  · have hl : w.locked = false := by simpa using hl
    have hk : k_mutex_lock w
        = (0, { w with locked := true, trace := w.trace ++ [Event.k_mutex_lock] }) := by
      simp [k_mutex_lock, hl]
    rw [hk] at h
    simp only [ne_eq, not_true_eq_false, if_false] at h
    split at h
    · simp at h
    · rename_i d t ss w0 hin
      obtain ⟨_, l, hm, hd⟩ := get_time_read_date_frame env _ _ _ _ _ _ hin
      simp only [Option.some.injEq, Prod.mk.injEq] at h
      obtain ⟨_, _, rfl⟩ := h
      refine ⟨by simp [k_mutex_unlock, hl], Or.inr ⟨l, ?_, hd⟩⟩
      simp [k_mutex_unlock, hm]

/-- The trace `rtc_stm32_set_time` adds: nothing when the validation fails
or the lock is busy, else one transaction; the lock is left as it was. -/
theorem set_time_trace (env : Env) (timeptr : rtc_time) (w : World) :
    (rtc_stm32_set_time env timeptr w).2.locked = w.locked ∧
    ((rtc_stm32_set_time env timeptr w).2.trace = w.trace ∨
      ∃ l, (rtc_stm32_set_time env timeptr w).2.trace =
          w.trace ++ ([Event.k_mutex_lock] ++ l ++ [Event.k_mutex_unlock]) ∧
        ∀ e ∈ l, e.isMutexEvent = false) := by
  by_cases hv : to_uint32 (to_int32 (timeptr.tm_year + TM_YEAR_REF)) < RTC_YEAR_REF ∨
      timeptr.tm_wday = -1
  · have : rtc_stm32_set_time env timeptr w = (-EINVAL, w) := by
      unfold rtc_stm32_set_time
      rcases hv with h | h
      · simp only [h, if_true]
      · simp only [h, if_true]; split <;> rfl
    rw [this]
    exact ⟨rfl, Or.inl rfl⟩
  · have hy : ¬ to_uint32 (to_int32 (timeptr.tm_year + TM_YEAR_REF)) < RTC_YEAR_REF :=
      fun h => hv (Or.inl h)
    have hwd : timeptr.tm_wday ≠ -1 := fun h => hv (Or.inr h)
    by_cases hl : w.locked = true
    · have : rtc_stm32_set_time env timeptr w = (-EBUSY, w) := by
        unfold rtc_stm32_set_time
        simp only [hy, hwd, if_false]
        simp [k_mutex_lock, hl, EBUSY]
      rw [this]
      exact ⟨rfl, Or.inl rfl⟩
    · have hl : w.locked = false := by simpa using hl
      obtain ⟨l, ht, hlw⟩ := set_time_entry_trace env w hl
      have hpre : ∀ e ∈ [Event.DisableWriteProtection, Event.EnableInitMode] ++ l,
          e.isMutexEvent = false := by
        intro e he
        rcases List.mem_append.mp he with h | h
        · simp only [List.mem_cons, List.mem_singleton, List.not_mem_nil, or_false] at h
          rcases h with rfl | rfl <;> rfl
        · exact isMutexEvent_of_isWaitEvent e (hlw e h)
      by_cases he : (rtc_stm32_enter_initialization_mode env (set_time_entry env w)).1 = 0
      · obtain ⟨_, h2, _, _, y, m, d, wd, h, mi, s, htr⟩ :=
          set_time_of_enter_ok env timeptr w hy hwd hl he
        refine ⟨by rw [h2, hl], Or.inr ⟨[Event.DisableWriteProtection, Event.EnableInitMode]
          ++ l ++ [Event.write Reg.DR y, Event.write Reg.DR m, Event.write Reg.DR d,
            Event.write Reg.DR wd, Event.write Reg.TR h, Event.write Reg.TR mi,
            Event.write Reg.TR s, Event.DisableInitMode, Event.EnableWriteProtection], ?_, ?_⟩⟩
        · rw [htr, ht]; simp
        · intro e hmem
          rcases List.mem_append.mp hmem with h1 | h1
          · exact hpre e h1
          · simp only [List.mem_cons, List.mem_singleton, List.not_mem_nil, or_false] at h1
            rcases h1 with rfl | rfl | rfl | rfl | rfl | rfl | rfl | rfl | rfl <;> rfl
      · rw [set_time_of_enter_failed env timeptr w hy hwd hl he]
        refine ⟨by simp [k_mutex_unlock, hl], Or.inr
          ⟨[Event.DisableWriteProtection, Event.EnableInitMode] ++ l, ?_, hpre⟩⟩
        simp [k_mutex_unlock, ht]

/-- C16: for every input and every behaviour of the hardware, when
rtc_stm32_set_time or rtc_stm32_get_time returns, the lock is in the state
it had before the call: the caller does not hold it. -/
theorem lock_is_released_on_every_path (env : Env) (cfg : rtc_stm32_config) (fuel : Nat)
    (timeptr out : rtc_time) (w : World) :
    (rtc_stm32_set_time env timeptr w).2.locked = w.locked ∧
    (∀ ret t1 w1, rtc_stm32_get_time fuel env cfg out w = some (ret, t1, w1) →
      w1.locked = w.locked) ∧
    (w.locked = false →
      (rtc_stm32_set_time env timeptr w).2.locked = false ∧
      ∀ ret t1 w1, rtc_stm32_get_time fuel env cfg out w = some (ret, t1, w1) →
        w1.locked = false) := by
  have h1 := (set_time_trace env timeptr w).1
  have h2 : ∀ ret t1 w1, rtc_stm32_get_time fuel env cfg out w = some (ret, t1, w1) →
      w1.locked = w.locked :=
    fun ret t1 w1 h => (get_time_trace fuel env cfg out w ret t1 w1 h).1
  refine ⟨h1, h2, fun hl => ⟨by rw [h1, hl], fun ret t1 w1 h => ?_⟩⟩
  rw [h2 ret t1 w1 h, hl]

/-- Witness of C16: the timeout path of rtc_stm32_set_time on the hardware
whose INITF flag never shows. -/
theorem lock_is_released_on_every_path_witness :
    (rtc_stm32_set_time stuck_env sample_time idle_world).2.locked = false :=
  ((lock_is_released_on_every_path stuck_env rtc_config_LSE 1 sample_time sample_time
    idle_world).2.2 rfl).1

/-! ## The paths of `rtc_stm32_set_calibration` -/

/-- The three ways `rtc_stm32_set_calibration` returns: the rejection, the
timeout of the wait for RECALPF, and the write of CALR. -/
theorem set_calibration_paths (env : Env) (calibration : Int) (w : World) :
    ((calibration > MAX_PPB ∨ calibration < MIN_PPB) ∧
      rtc_stm32_set_calibration env calibration w = (some (-EINVAL), w)) ∨
    (∃ W, WaitFrame w W ∧ rtc_stm32_set_calibration env calibration w = (some (- EIO), W)) ∨
    (∃ W, WaitFrame w W ∧
      (-511 ≤ PPB_TO_NB_PULSES calibration ∧ PPB_TO_NB_PULSES calibration ≤ 512) ∧
      rtc_stm32_set_calibration env calibration w =
        (some 0, LL_RTC_EnableWriteProtection env
          (MODIFY_REG_CALR env (RTC_CALR_CALP ||| RTC_CALR_CALM)
            (calibration_calp (PPB_TO_NB_PULSES calibration) |||
              calibration_calm (PPB_TO_NB_PULSES calibration))
            (LL_RTC_DisableWriteProtection env W)))) := by
  by_cases hout : calibration > MAX_PPB ∨ calibration < MIN_PPB
  · left
    refine ⟨hout, ?_⟩
    unfold rtc_stm32_set_calibration
    simp only [hout, if_true]
  · right
    have h1 : MIN_PPB ≤ calibration := by omega
    have h2 : calibration ≤ MAX_PPB := by omega
    rw [set_calibration_in_range env calibration w h1 h2]
    have hf := set_calibration_wait_frame env w
    rw [MIN_PPB_eq] at h1
    rw [MAX_PPB_eq] at h2
    obtain ⟨r1, r2, _, _⟩ := PPB_TO_NB_PULSES_range calibration h1 h2
    split
    · left; exact ⟨_, hf, rfl⟩
    · right; exact ⟨_, hf, ⟨r1, r2⟩, rfl⟩

/-- The bits of a register outside the CALP and CALM fields are kept by the
write of `rtc_stm32_set_calibration`. -/
theorem MODIFY_REG_CALR_other_bits (c a m : Nat) (ha : a = 0 ∨ a = 0x8000) (hm : m < 512) :
    MODIFY_REG c (RTC_CALR_CALP ||| RTC_CALR_CALM) (a ||| m)
        &&& (0xFFFFFFFF ^^^ (RTC_CALR_CALP ||| RTC_CALR_CALM))
      = c &&& (0xFFFFFFFF ^^^ (RTC_CALR_CALP ||| RTC_CALR_CALM)) := by
  apply Nat.eq_of_testBit_eq
  intro i
  have hm1 : ∀ j, 9 ≤ j → m.testBit j = false := fun j hj => testBit_of_lt m 9 j hm hj
  have e2 : (0xFFFFFFFF : Nat) = 2 ^ 32 - 1 := by norm_num
  simp only [RTC_CALR_CALP, RTC_CALR_CALM, Nat.testBit_and, Nat.testBit_or, Nat.testBit_xor,
    testBit_MODIFY_REG, tb_8000, tb_1FF, e2, Nat.testBit_two_pow_sub_one]
  by_cases h9 : i < 9
  · have h32 : i < 32 := by omega
    simp [h9, h32]
  · by_cases h15 : i = 15
    · simp [h15]
    · have h0 : a.testBit i = false := by
        rcases ha with rfl | rfl
        · simp
        · rw [tb_8000]; simp; omega
      have hx : ¬ (15 ≤ i ∧ i < 16) := by omega
      by_cases h32 : i < 32 <;> simp [h0, hm1 i (by omega), h9, hx, h32]

theorem isCalibrationEvent_of_isWaitEvent (e : Event) (h : e.isWaitEvent = true) :
    e.isCalibrationEvent = true := by
  cases e <;> simp [Event.isWaitEvent] at h <;> rfl

theorem isMutexEvent_of_isCalibrationEvent (e : Event) (h : e.isCalibrationEvent = true) :
    e.isMutexEvent = false := by
  cases e <;> simp [Event.isCalibrationEvent] at h <;> rfl

/-- The write of `rtc_stm32_set_calibration` after its wait: what it leaves
in the registers, the lock and the trace. -/
theorem set_calibration_write_frame (env : Env) (clearmask setmask : Nat) (W : World) :
    (LL_RTC_EnableWriteProtection env (MODIFY_REG_CALR env clearmask setmask
      (LL_RTC_DisableWriteProtection env W))).regs.CALR
        = MODIFY_REG W.regs.CALR clearmask setmask ∧
    (LL_RTC_EnableWriteProtection env (MODIFY_REG_CALR env clearmask setmask
      (LL_RTC_DisableWriteProtection env W))).regs.CR = W.regs.CR ∧
    (LL_RTC_EnableWriteProtection env (MODIFY_REG_CALR env clearmask setmask
      (LL_RTC_DisableWriteProtection env W))).regs.PRER = W.regs.PRER ∧
    (LL_RTC_EnableWriteProtection env (MODIFY_REG_CALR env clearmask setmask
      (LL_RTC_DisableWriteProtection env W))).regs.INIT = W.regs.INIT ∧
    (LL_RTC_EnableWriteProtection env (MODIFY_REG_CALR env clearmask setmask
      (LL_RTC_DisableWriteProtection env W))).regs.write_protected = true ∧
    (LL_RTC_EnableWriteProtection env (MODIFY_REG_CALR env clearmask setmask
      (LL_RTC_DisableWriteProtection env W))).locked = W.locked ∧
    (LL_RTC_EnableWriteProtection env (MODIFY_REG_CALR env clearmask setmask
      (LL_RTC_DisableWriteProtection env W))).trace = W.trace ++
        [Event.DisableWriteProtection,
         Event.write Reg.CALR (MODIFY_REG W.regs.CALR clearmask setmask),
         Event.EnableWriteProtection] := by
  simp [LL_RTC_EnableWriteProtection, MODIFY_REG_CALR, LL_RTC_DisableWriteProtection,
    World.advance]

/-- C19: for every call of rtc_stm32_set_calibration, the events it adds
are polls, sleeps, the disabling and enabling of the write protection and a
write of CALR (no write of a date, time, prescaler or control register);
CR, PRER, the init request and the lock are as before, and so are the bits
of CALR outside CALP and CALM; when it returns -EINVAL or the error of the
RECALPF wait, CALR and the write protection are unchanged and the write
protection was never disabled; when it returns 0, or was entered with the
write protection enabled, the write protection is enabled on return. -/
theorem set_calibration_frame (env : Env) (calibration : Int) (w : World) :
    ((rtc_stm32_set_calibration env calibration w).1 = some (-EINVAL) ∨
      (rtc_stm32_set_calibration env calibration w).1 = some (- EIO) ∨
      (rtc_stm32_set_calibration env calibration w).1 = some 0) ∧
    (∃ l, (rtc_stm32_set_calibration env calibration w).2.trace = w.trace ++ l ∧
      (∀ e ∈ l, e.isCalibrationEvent = true) ∧
      (((rtc_stm32_set_calibration env calibration w).1 = some (-EINVAL) ∨
        (rtc_stm32_set_calibration env calibration w).1 = some (- EIO)) →
        ∀ e ∈ l, e.isWaitEvent = true)) ∧
    ((rtc_stm32_set_calibration env calibration w).2.regs.CR = w.regs.CR ∧
      (rtc_stm32_set_calibration env calibration w).2.regs.PRER = w.regs.PRER ∧
      (rtc_stm32_set_calibration env calibration w).2.regs.INIT = w.regs.INIT ∧
      (rtc_stm32_set_calibration env calibration w).2.locked = w.locked) ∧
    (rtc_stm32_set_calibration env calibration w).2.regs.CALR
        &&& (0xFFFFFFFF ^^^ (RTC_CALR_CALP ||| RTC_CALR_CALM))
      = w.regs.CALR &&& (0xFFFFFFFF ^^^ (RTC_CALR_CALP ||| RTC_CALR_CALM)) ∧
    (((rtc_stm32_set_calibration env calibration w).1 = some (-EINVAL) ∨
      (rtc_stm32_set_calibration env calibration w).1 = some (- EIO)) →
      (rtc_stm32_set_calibration env calibration w).2.regs.CALR = w.regs.CALR ∧
      (rtc_stm32_set_calibration env calibration w).2.regs.write_protected
        = w.regs.write_protected) ∧
    ((rtc_stm32_set_calibration env calibration w).1 = some 0 →
      (rtc_stm32_set_calibration env calibration w).2.regs.write_protected = true) ∧
    (w.regs.write_protected = true →
      (rtc_stm32_set_calibration env calibration w).2.regs.write_protected = true) := by
  rcases set_calibration_paths env calibration w with ⟨_, h⟩ | ⟨W, hf, h⟩ | ⟨W, hf, hr, h⟩
  · rw [h]
    refine ⟨Or.inl rfl, ⟨[], by simp, by simp, by simp⟩, ⟨rfl, rfl, rfl, rfl⟩, rfl,
      fun _ => ⟨rfl, rfl⟩, fun h0 => ?_, fun hw => hw⟩
    simp [EINVAL] at h0
  · rw [h]
    obtain ⟨f1, f2, f3, f4, f5, f6, l, f7, f8⟩ := hf
    refine ⟨Or.inr (Or.inl rfl), ⟨l, f7, fun e he => isCalibrationEvent_of_isWaitEvent e (f8 e he),
      fun _ => f8⟩, ⟨f5, f6, f3, f1⟩, by simp only [f4], fun _ => ⟨f4, f2⟩, fun h0 => ?_,
      fun hw => by simp only [f2, hw]⟩
    simp [ EIO] at h0
  · rw [h]
    obtain ⟨f1, f2, f3, f4, f5, f6, l, f7, f8⟩ := hf
    obtain ⟨g1, g2, g3, g4, g5, g6, g7⟩ := set_calibration_write_frame env
      (RTC_CALR_CALP ||| RTC_CALR_CALM)
      (calibration_calp (PPB_TO_NB_PULSES calibration) |||
        calibration_calm (PPB_TO_NB_PULSES calibration)) W
    have hcm := calibration_calm_lt _ hr.1 hr.2
    have hcp := calibration_calp_cases (PPB_TO_NB_PULSES calibration)
    refine ⟨Or.inr (Or.inr rfl), ⟨l ++ [Event.DisableWriteProtection,
      Event.write Reg.CALR (MODIFY_REG W.regs.CALR (RTC_CALR_CALP ||| RTC_CALR_CALM)
        (calibration_calp (PPB_TO_NB_PULSES calibration) |||
          calibration_calm (PPB_TO_NB_PULSES calibration))),
      Event.EnableWriteProtection], ?_, ?_, ?_⟩, ⟨g2.trans f5, g3.trans f6, g4.trans f3,
      g6.trans f1⟩, ?_, ?_, fun _ => g5, fun _ => g5⟩
    · simp only [g7, f7, List.append_assoc]
    · intro e he
      rcases List.mem_append.mp he with h1 | h1
      · exact isCalibrationEvent_of_isWaitEvent e (f8 e h1)
      · simp only [List.mem_cons, List.mem_singleton, List.not_mem_nil, or_false] at h1
        rcases h1 with rfl | rfl | rfl <;> rfl
    · intro hc
      rcases hc with hc | hc
      · simp [EINVAL] at hc
      · simp [ EIO] at hc
    · simp only [g1, f4]
      exact MODIFY_REG_CALR_other_bits _ _ _ hcp hcm
    · intro hc
      rcases hc with hc | hc
      · simp [EINVAL] at hc
      · simp [ EIO] at hc

/-- Witness of C19: a write protected register file keeps its write
protection through a calibration of 100000 ppb. -/
theorem set_calibration_frame_witness :
    (rtc_stm32_set_calibration quiet_env 100000 idle_world).2.regs.write_protected = true :=
  (set_calibration_frame quiet_env 100000 idle_world).2.2.2.2.2.2 rfl

/-- C14 (as amended): rtc_stm32_set_time and rtc_stm32_get_time take the
instance lock before their first access to the RTC and hold it until after
the last one; rtc_stm32_set_calibration and rtc_stm32_get_calibration never
operate on the lock: they access the RTC without it and leave its state as
it is. -/
theorem time_transactions_are_lock_guarded (env : Env) (cfg : rtc_stm32_config) (fuel : Nat)
    (timeptr out : rtc_time) (calibration : Int) (w : World) :
    (∃ l, (rtc_stm32_set_time env timeptr w).2.trace = w.trace ++ l ∧
      lock_guarded false l = true) ∧
    (∀ ret t1 w1, rtc_stm32_get_time fuel env cfg out w = some (ret, t1, w1) →
      ∃ l, w1.trace = w.trace ++ l ∧ lock_guarded false l = true) ∧
    (∃ l, (rtc_stm32_set_calibration env calibration w).2.trace = w.trace ++ l ∧
      (∀ e ∈ l, e.isMutexEvent = false) ∧
      (rtc_stm32_set_calibration env calibration w).2.locked = w.locked) ∧
    (∃ v, (rtc_stm32_get_calibration env w).2.2.trace = w.trace ++ [Event.read Reg.CALR v] ∧
      lock_guarded false [Event.read Reg.CALR v] = false ∧
      (rtc_stm32_get_calibration env w).2.2.locked = w.locked) := by
  refine ⟨?_, ?_, ?_, ?_⟩
  · rcases (set_time_trace env timeptr w).2 with h | ⟨l, h, hl⟩
    · exact ⟨[], by simp [h], rfl⟩
    · exact ⟨_, h, lock_guarded_transaction l hl⟩
  · intro ret t1 w1 hg
    rcases (get_time_trace fuel env cfg out w ret t1 w1 hg).2 with h | ⟨l, h, hl⟩
    · exact ⟨[], by simp [h], rfl⟩
    · exact ⟨_, h, lock_guarded_transaction l hl⟩
  · rcases set_calibration_paths env calibration w with ⟨_, h⟩ | ⟨W, hf, h⟩ | ⟨W, hf, hr, h⟩
    · rw [h]; exact ⟨[], by simp, by simp, rfl⟩
    · rw [h]
      obtain ⟨f1, _, _, _, _, _, l, f7, f8⟩ := hf
      exact ⟨l, f7, fun e he => isMutexEvent_of_isWaitEvent e (f8 e he), f1⟩
    · rw [h]
      obtain ⟨f1, _, _, _, _, _, l, f7, f8⟩ := hf
      obtain ⟨_, _, _, _, _, g6, g7⟩ := set_calibration_write_frame env
        (RTC_CALR_CALP ||| RTC_CALR_CALM)
        (calibration_calp (PPB_TO_NB_PULSES calibration) |||
          calibration_calm (PPB_TO_NB_PULSES calibration)) W
      refine ⟨l ++ [Event.DisableWriteProtection,
        Event.write Reg.CALR (MODIFY_REG W.regs.CALR (RTC_CALR_CALP ||| RTC_CALR_CALM)
          (calibration_calp (PPB_TO_NB_PULSES calibration) |||
            calibration_calm (PPB_TO_NB_PULSES calibration))),
        Event.EnableWriteProtection], ?_, ?_, g6.trans f1⟩
      · simp only [g7, f7, List.append_assoc]
      · intro e he
        rcases List.mem_append.mp he with h1 | h1
        · exact isMutexEvent_of_isWaitEvent e (f8 e h1)
        · simp only [List.mem_cons, List.mem_singleton, List.not_mem_nil, or_false] at h1
          rcases h1 with rfl | rfl | rfl <;> rfl
  · exact ⟨_, rfl, rfl, rfl⟩

/-- Witness of C14: a get_time on the idle register file is one guarded
transaction. -/
theorem time_transactions_are_lock_guarded_witness :
    ∀ ret t1 w1, rtc_stm32_get_time 1 quiet_env rtc_config_LSE sample_time idle_world
        = some (ret, t1, w1) →
      ∃ l, w1.trace = idle_world.trace ++ l ∧ lock_guarded false l = true :=
  (time_transactions_are_lock_guarded quiet_env rtc_config_LSE 1 sample_time sample_time 0
    idle_world).2.1

/-- C14 (as stated) fails for the calibration operations: on the idle
register file rtc_stm32_get_calibration reads CALR, and
rtc_stm32_set_calibration polls RECALPF and writes CALR, with no lock taken
before and none released after. -/
theorem calibration_accesses_without_lock :
    (rtc_stm32_get_calibration quiet_env idle_world).2.2.trace = [Event.read Reg.CALR 0] ∧
    lock_guarded false (rtc_stm32_get_calibration quiet_env idle_world).2.2.trace = false ∧
    (rtc_stm32_set_calibration quiet_env 0 idle_world).2.trace =
      [Event.IsActiveFlag_RECALP false, Event.IsActiveFlag_RECALP false,
       Event.DisableWriteProtection, Event.write Reg.CALR 0, Event.EnableWriteProtection] ∧
    lock_guarded false (rtc_stm32_set_calibration quiet_env 0 idle_world).2.trace = false := by
  decide

/-! ## The configuration sequence -/

theorem configure_reads (env : Env) (w : World) :
    (LL_RTC_GetHourFormat env w).1 = READ_BIT w.regs.CR 0x40 ∧
    (LL_RTC_GetSynchPrescaler env (LL_RTC_GetHourFormat env w).2).1
      = READ_BIT w.regs.PRER 0x7FFF ∧
    (LL_RTC_GetAsynchPrescaler env
      (LL_RTC_GetSynchPrescaler env (LL_RTC_GetHourFormat env w).2).2).1
      = (READ_BIT w.regs.PRER 0x7F0000) >>> 16 := by
  simp [LL_RTC_GetHourFormat, LL_RTC_GetSynchPrescaler, LL_RTC_GetAsynchPrescaler, World.advance]

theorem configure_entry_frame (env : Env) (w : World) :
    (configure_entry env w).regs.CR = w.regs.CR ∧
    (configure_entry env w).regs.PRER = w.regs.PRER ∧
    (configure_entry env w).trace = w.trace ++
      [Event.read Reg.CR (READ_BIT w.regs.CR 0x40),
       Event.read Reg.PRER (READ_BIT w.regs.PRER 0x7FFF),
       Event.read Reg.PRER ((READ_BIT w.regs.PRER 0x7F0000) >>> 16),
       Event.DisableWriteProtection] := by
  simp [configure_entry, LL_RTC_DisableWriteProtection, LL_RTC_GetHourFormat,
    LL_RTC_GetSynchPrescaler, LL_RTC_GetAsynchPrescaler, World.advance]

theorem configure_exit_frame (env : Env) (has_BYPSHAD : Bool) (w : World) :
    (configure_exit env has_BYPSHAD w).regs.PRER = w.regs.PRER ∧
    (configure_exit env has_BYPSHAD w).regs.CR =
      (if has_BYPSHAD then (w.regs.CR ||| 0x20) % 4294967296 else w.regs.CR) ∧
    (configure_exit env has_BYPSHAD w).regs.write_protected = true ∧
    (configure_exit env has_BYPSHAD w).trace = w.trace ++
      ((if has_BYPSHAD then [Event.write Reg.CR ((w.regs.CR ||| 0x20) % 4294967296)] else [])
        ++ [Event.EnableWriteProtection]) := by
  cases has_BYPSHAD <;>
  simp [configure_exit, LL_RTC_EnableWriteProtection, LL_RTC_EnableShadowRegBypass,
    World.advance]

/-- When the hardware already matches, `rtc_stm32_configure` skips the
initialization mode. -/
theorem configure_of_match (env : Env) (has_BYPSHAD : Bool) (cfg : rtc_stm32_config)
    (w : World) (h : ¬ configure_needs_init cfg w.regs) :
    rtc_stm32_configure env has_BYPSHAD cfg w =
      (0, configure_exit env has_BYPSHAD (configure_entry env w)) := by
  obtain ⟨r1, r2, r3⟩ := configure_reads env w
  unfold configure_needs_init at h
  unfold rtc_stm32_configure
  simp only [r1, r2, r3, h, if_false]
  rfl

/-- When the hardware differs, `rtc_stm32_configure` enters initialization
mode, writes the three fields if that succeeded, and leaves it. -/
theorem configure_of_mismatch (env : Env) (has_BYPSHAD : Bool) (cfg : rtc_stm32_config)
    (w : World) (h : configure_needs_init cfg w.regs) :
    rtc_stm32_configure env has_BYPSHAD cfg w =
      ((rtc_stm32_enter_initialization_mode env (configure_entry env w)).1,
       configure_exit env has_BYPSHAD (rtc_stm32_leave_initialization_mode env
        (if (rtc_stm32_enter_initialization_mode env (configure_entry env w)).1 = 0 then
          LL_RTC_SetAsynchPrescaler env (cfg.async_prescaler % 4294967296)
            (LL_RTC_SetSynchPrescaler env (cfg.sync_prescaler % 4294967296)
              (LL_RTC_SetHourFormat env LL_RTC_HOURFORMAT_24HOUR
                (rtc_stm32_enter_initialization_mode env (configure_entry env w)).2))
         else (rtc_stm32_enter_initialization_mode env (configure_entry env w)).2))) := by
  obtain ⟨r1, r2, r3⟩ := configure_reads env w
  unfold configure_needs_init at h
  unfold rtc_stm32_configure
  simp only [r1, r2, r3, h, if_true]
  rfl

/-- The hour format bit reads 24-hour after `LL_RTC_SetHourFormat` wrote it. -/
theorem FMT_after_set (c : Nat) :
    READ_BIT (MODIFY_REG c 0x40 LL_RTC_HOURFORMAT_24HOUR) 0x40 = LL_RTC_HOURFORMAT_24HOUR := by
  apply Nat.eq_of_testBit_eq
  intro i
  simp only [READ_BIT, LL_RTC_HOURFORMAT_24HOUR, Nat.testBit_and, testBit_MODIFY_REG, tb_40]
  by_cases hi : i = 6
  · subst hi; simp
  · have : ¬ (6 ≤ i ∧ i < 7) := by omega
    simp [this]

/-- Setting the BYPSHAD bit of CR leaves the hour format bit alone. -/
theorem FMT_after_bypass (c : Nat) :
    READ_BIT ((c ||| 0x20) % 4294967296) 0x40 = READ_BIT c 0x40 := by
  apply Nat.eq_of_testBit_eq
  intro i
  simp only [READ_BIT, Nat.testBit_and, Nat.testBit_or, testBit_mod_u32, tb_40, tb_20]
  by_cases hi : i = 6
  · subst hi; simp
  · have : ¬ (6 ≤ i ∧ i < 7) := by omega
    simp [this]

/-- The synchronous prescaler reads back after the two prescaler writes. -/
theorem PREDIV_S_after_set (p s a : Nat) (hs : s ≤ 0x7FFF) :
    READ_BIT (MODIFY_REG (MODIFY_REG p 0x7FFF s) 0x7F0000 ((a <<< 16) % 4294967296)) 0x7FFF
      = s := by
  apply Nat.eq_of_testBit_eq
  intro i
  have hs1 : ∀ j, 15 ≤ j → s.testBit j = false :=
    fun j hj => testBit_of_lt s 15 j (by norm_num; omega) hj
  simp only [READ_BIT, Nat.testBit_and, testBit_MODIFY_REG, testBit_mod_u32,
    Nat.testBit_shiftLeft, tb_7FFF, tb_7F0000]
  by_cases hi : i < 15
  · interval_cases i <;> simp
  · simp [hi, hs1 i (by omega)]

/-- The asynchronous prescaler reads back after the two prescaler writes. -/
theorem PREDIV_A_after_set (p s a : Nat) (hs : s ≤ 0x7FFF) (ha : a ≤ 0x7F) :
    (READ_BIT (MODIFY_REG (MODIFY_REG p 0x7FFF s) 0x7F0000 ((a <<< 16) % 4294967296))
      0x7F0000) >>> 16 = a := by
  apply Nat.eq_of_testBit_eq
  intro i
  have hs1 : ∀ j, 15 ≤ j → s.testBit j = false :=
    fun j hj => testBit_of_lt s 15 j (by norm_num; omega) hj
  have ha1 : ∀ j, 7 ≤ j → a.testBit j = false :=
    fun j hj => testBit_of_lt a 7 j (by norm_num; omega) hj
  simp only [READ_BIT, Nat.testBit_and, Nat.testBit_shiftRight, testBit_MODIFY_REG,
    testBit_mod_u32, Nat.testBit_shiftLeft, tb_7FFF, tb_7F0000]
  by_cases hi : i < 7
  · interval_cases i <;> simp
  · simp [hi, ha1 i (by omega)]
    intro h1 h2
    omega

theorem enter_initialization_mode_result (env : Env) (w : World) :
    (rtc_stm32_enter_initialization_mode env w).1 = 0 ∨
    (rtc_stm32_enter_initialization_mode env w).1 = - EIO := by
  unfold rtc_stm32_enter_initialization_mode
  dsimp only
  split
  · right; rfl
  · left; rfl

theorem configure_writes_frame (env : Env) (cfg : rtc_stm32_config) (w : World) :
    (LL_RTC_SetAsynchPrescaler env (cfg.async_prescaler % 4294967296)
      (LL_RTC_SetSynchPrescaler env (cfg.sync_prescaler % 4294967296)
        (LL_RTC_SetHourFormat env LL_RTC_HOURFORMAT_24HOUR w))).regs.CR
      = MODIFY_REG w.regs.CR 0x40 LL_RTC_HOURFORMAT_24HOUR ∧
    (LL_RTC_SetAsynchPrescaler env (cfg.async_prescaler % 4294967296)
      (LL_RTC_SetSynchPrescaler env (cfg.sync_prescaler % 4294967296)
        (LL_RTC_SetHourFormat env LL_RTC_HOURFORMAT_24HOUR w))).regs.PRER
      = configure_PRER cfg w.regs.PRER ∧
    (LL_RTC_SetAsynchPrescaler env (cfg.async_prescaler % 4294967296)
      (LL_RTC_SetSynchPrescaler env (cfg.sync_prescaler % 4294967296)
        (LL_RTC_SetHourFormat env LL_RTC_HOURFORMAT_24HOUR w))).trace
      = w.trace ++
        [Event.write Reg.CR (MODIFY_REG w.regs.CR 0x40 LL_RTC_HOURFORMAT_24HOUR),
         Event.write Reg.PRER (MODIFY_REG w.regs.PRER 0x7FFF (cfg.sync_prescaler % 4294967296)),
         Event.write Reg.PRER (configure_PRER cfg w.regs.PRER)] := by
  simp [LL_RTC_SetAsynchPrescaler, LL_RTC_SetSynchPrescaler, LL_RTC_SetHourFormat,
    World.advance, configure_PRER]

theorem leave_initialization_mode_frame (env : Env) (w : World) :
    (rtc_stm32_leave_initialization_mode env w).regs.CR = w.regs.CR ∧
    (rtc_stm32_leave_initialization_mode env w).regs.PRER = w.regs.PRER ∧
    (rtc_stm32_leave_initialization_mode env w).trace = w.trace ++ [Event.DisableInitMode] := by
  simp [rtc_stm32_leave_initialization_mode, LL_RTC_DisableInitMode, World.advance]

/-- The state in which `rtc_stm32_configure` leaves initialization mode
when it entered it, up to the polls and sleeps of the bounded wait. -/
theorem configure_enter_frame (env : Env) (w : World) :
    (rtc_stm32_enter_initialization_mode env (configure_entry env w)).2.regs.CR = w.regs.CR ∧
    (rtc_stm32_enter_initialization_mode env (configure_entry env w)).2.regs.PRER
      = w.regs.PRER ∧
    ∃ lw, (rtc_stm32_enter_initialization_mode env (configure_entry env w)).2.trace
        = w.trace ++ (configure_entry_events w.regs ++ [Event.EnableInitMode] ++ lw) ∧
      ∀ e ∈ lw, e.isWaitEvent = true := by
  obtain ⟨c1, c2, c3⟩ := configure_entry_frame env w
  obtain ⟨_, _, _, _, f1, f2, lw, f3, f4⟩ :=
    enter_initialization_mode_frame env (configure_entry env w)
  have g1 : (LL_RTC_EnableInitMode env (configure_entry env w)).regs.CR
      = (configure_entry env w).regs.CR := by
    simp [LL_RTC_EnableInitMode, World.advance]
  have g2 : (LL_RTC_EnableInitMode env (configure_entry env w)).regs.PRER
      = (configure_entry env w).regs.PRER := by
    simp [LL_RTC_EnableInitMode, World.advance]
  have g3 : (LL_RTC_EnableInitMode env (configure_entry env w)).trace
      = (configure_entry env w).trace ++ [Event.EnableInitMode] := by
    simp [LL_RTC_EnableInitMode, World.advance]
  refine ⟨by rw [f1, g1, c1], by rw [f2, g2, c2], lw, ?_, f4⟩
  rw [f3, g3, c3]
  simp [configure_entry_events]

/-- The path of `rtc_stm32_configure` on a hardware that already matches. -/
theorem configure_path_match (env : Env) (has_BYPSHAD : Bool) (cfg : rtc_stm32_config)
    (w : World) (h : ¬ configure_needs_init cfg w.regs) :
    (rtc_stm32_configure env has_BYPSHAD cfg w).1 = 0 ∧
    (rtc_stm32_configure env has_BYPSHAD cfg w).2.trace = w.trace ++
      (configure_entry_events w.regs ++ configure_exit_events has_BYPSHAD w.regs.CR) ∧
    (rtc_stm32_configure env has_BYPSHAD cfg w).2.regs.PRER = w.regs.PRER ∧
    (rtc_stm32_configure env has_BYPSHAD cfg w).2.regs.CR =
      (if has_BYPSHAD then (w.regs.CR ||| 0x20) % 4294967296 else w.regs.CR) := by
  obtain ⟨c1, c2, c3⟩ := configure_entry_frame env w
  obtain ⟨x1, x2, _, x4⟩ := configure_exit_frame env has_BYPSHAD (configure_entry env w)
  rw [configure_of_match env has_BYPSHAD cfg w h]
  refine ⟨rfl, ?_, ?_, ?_⟩
  · show (configure_exit env has_BYPSHAD (configure_entry env w)).trace = _
    rw [x4, c3, c1]
    simp [configure_entry_events, configure_exit_events]
  · show (configure_exit env has_BYPSHAD (configure_entry env w)).regs.PRER = _
    rw [x1, c2]
  · show (configure_exit env has_BYPSHAD (configure_entry env w)).regs.CR = _
    rw [x2, c1]

/-- The path of `rtc_stm32_configure` when the initialization mode was
entered: the three fields are written between the wait and the leave. -/
theorem configure_path_written (env : Env) (has_BYPSHAD : Bool) (cfg : rtc_stm32_config)
    (w : World) (h : configure_needs_init cfg w.regs)
    (he : (rtc_stm32_enter_initialization_mode env (configure_entry env w)).1 = 0) :
    (rtc_stm32_configure env has_BYPSHAD cfg w).1 = 0 ∧
    (∃ lw, (rtc_stm32_configure env has_BYPSHAD cfg w).2.trace = w.trace ++
      (configure_entry_events w.regs ++ [Event.EnableInitMode] ++ lw ++
        [Event.write Reg.CR (MODIFY_REG w.regs.CR 0x40 LL_RTC_HOURFORMAT_24HOUR),
         Event.write Reg.PRER (MODIFY_REG w.regs.PRER 0x7FFF (cfg.sync_prescaler % 4294967296)),
         Event.write Reg.PRER (configure_PRER cfg w.regs.PRER),
         Event.DisableInitMode] ++
        configure_exit_events has_BYPSHAD (MODIFY_REG w.regs.CR 0x40 LL_RTC_HOURFORMAT_24HOUR)) ∧
      ∀ e ∈ lw, e.isWaitEvent = true) ∧
    (rtc_stm32_configure env has_BYPSHAD cfg w).2.regs.PRER = configure_PRER cfg w.regs.PRER ∧
    (rtc_stm32_configure env has_BYPSHAD cfg w).2.regs.CR =
      (if has_BYPSHAD then
        (MODIFY_REG w.regs.CR 0x40 LL_RTC_HOURFORMAT_24HOUR ||| 0x20) % 4294967296
       else MODIFY_REG w.regs.CR 0x40 LL_RTC_HOURFORMAT_24HOUR) := by
  obtain ⟨e1, e2, lw, e3, e4⟩ := configure_enter_frame env w
  rw [configure_of_mismatch env has_BYPSHAD cfg w h]
  simp only [he, if_true]
  generalize rtc_stm32_enter_initialization_mode env (configure_entry env w) = e at *
  obtain ⟨s1, s2, s3⟩ := configure_writes_frame env cfg e.2
  generalize LL_RTC_SetAsynchPrescaler env (cfg.async_prescaler % 4294967296)
      (LL_RTC_SetSynchPrescaler env (cfg.sync_prescaler % 4294967296)
        (LL_RTC_SetHourFormat env LL_RTC_HOURFORMAT_24HOUR e.2)) = W2 at *
  obtain ⟨l1, l2, l3⟩ := leave_initialization_mode_frame env W2
  generalize rtc_stm32_leave_initialization_mode env W2 = W3 at *
  obtain ⟨x1, x2, _, x4⟩ := configure_exit_frame env has_BYPSHAD W3
  refine ⟨trivial, ⟨lw, ?_, e4⟩, ?_, ?_⟩
  · rw [x4, l3, s3, e3, l1, s1, e1, e2]
    simp [configure_exit_events]
  · rw [x1, l2, s2, e2]
  · rw [x2, l1, s1, e1]

/-- The path of `rtc_stm32_configure` when the initialization mode was not
entered in time: nothing is written between the wait and the leave. -/
theorem configure_path_timeout (env : Env) (has_BYPSHAD : Bool) (cfg : rtc_stm32_config)
    (w : World) (h : configure_needs_init cfg w.regs)
    (he : (rtc_stm32_enter_initialization_mode env (configure_entry env w)).1 = - EIO) :
    (rtc_stm32_configure env has_BYPSHAD cfg w).1 = - EIO ∧
    (∃ lw, (rtc_stm32_configure env has_BYPSHAD cfg w).2.trace = w.trace ++
      (configure_entry_events w.regs ++ [Event.EnableInitMode] ++ lw ++
        [Event.DisableInitMode] ++ configure_exit_events has_BYPSHAD w.regs.CR) ∧
      ∀ e ∈ lw, e.isWaitEvent = true) ∧
    (rtc_stm32_configure env has_BYPSHAD cfg w).2.regs.PRER = w.regs.PRER ∧
    (rtc_stm32_configure env has_BYPSHAD cfg w).2.regs.CR =
      (if has_BYPSHAD then (w.regs.CR ||| 0x20) % 4294967296 else w.regs.CR) := by
  obtain ⟨e1, e2, lw, e3, e4⟩ := configure_enter_frame env w
  rw [configure_of_mismatch env has_BYPSHAD cfg w h]
  have hne : ¬ ((- EIO : Int) = 0) := by decide
  simp only [he, hne, if_false]
  generalize rtc_stm32_enter_initialization_mode env (configure_entry env w) = e at *
  obtain ⟨l1, l2, l3⟩ := leave_initialization_mode_frame env e.2
  generalize rtc_stm32_leave_initialization_mode env e.2 = W3 at *
  obtain ⟨x1, x2, _, x4⟩ := configure_exit_frame env has_BYPSHAD W3
  refine ⟨trivial, ⟨lw, ?_, e4⟩, ?_, ?_⟩
  · rw [x4, l3, e3, l1, e1]
    simp [configure_exit_events]
  · rw [x1, l2, e2]
  · rw [x2, l1, e1]

/-- C15: `rtc_stm32_configure` requests initialization mode if and only if
the hardware hour format is not 24-hour or a hardware prescaler differs from
the configured one. When all three match, its accesses are the three reads,
the write protection disable, the shadow register bypass where the SoC has it
and the write protection enable, it returns 0, and PRER and the hour format
bit are as before. When it returns 0 the hour format reads 24-hour and both
prescalers read the configured values (which fit their fields). It returns a
non-zero value exactly when initialization mode was requested and
`rtc_stm32_enter_initialization_mode` returned `-EIO`; the value is then
`-EIO`, no write to PRER is made, and PRER and the hour format bit are as
before. -/
theorem configure_enters_init_mode_only_when_needed (env : Env) (has_BYPSHAD : Bool)
    (cfg : rtc_stm32_config) (w : World)
    (hs : cfg.sync_prescaler ≤ 0x7FFF) (ha : cfg.async_prescaler ≤ 0x7F) :
    (∃ l, (rtc_stm32_configure env has_BYPSHAD cfg w).2.trace = w.trace ++ l ∧
      (Event.EnableInitMode ∈ l ↔ configure_needs_init cfg w.regs) ∧
      (¬ configure_needs_init cfg w.regs →
        l = configure_entry_events w.regs ++ configure_exit_events has_BYPSHAD w.regs.CR) ∧
      ((rtc_stm32_configure env has_BYPSHAD cfg w).1 ≠ 0 →
        (∀ v, Event.write Reg.PRER v ∉ l) ∧
        ∃ lw, (∀ e ∈ lw, e.isWaitEvent = true) ∧
          l = configure_entry_events w.regs ++ [Event.EnableInitMode] ++ lw ++
            [Event.DisableInitMode] ++ configure_exit_events has_BYPSHAD w.regs.CR)) ∧
    (¬ configure_needs_init cfg w.regs →
      (rtc_stm32_configure env has_BYPSHAD cfg w).1 = 0 ∧
      (rtc_stm32_configure env has_BYPSHAD cfg w).2.regs.PRER = w.regs.PRER ∧
      READ_BIT (rtc_stm32_configure env has_BYPSHAD cfg w).2.regs.CR 0x40
        = READ_BIT w.regs.CR 0x40) ∧
    ((rtc_stm32_configure env has_BYPSHAD cfg w).1 = 0 →
      READ_BIT (rtc_stm32_configure env has_BYPSHAD cfg w).2.regs.CR 0x40
        = LL_RTC_HOURFORMAT_24HOUR ∧
      READ_BIT (rtc_stm32_configure env has_BYPSHAD cfg w).2.regs.PRER 0x7FFF
        = cfg.sync_prescaler ∧
      (READ_BIT (rtc_stm32_configure env has_BYPSHAD cfg w).2.regs.PRER 0x7F0000) >>> 16
        = cfg.async_prescaler) ∧
    ((rtc_stm32_configure env has_BYPSHAD cfg w).1 ≠ 0 ↔
      configure_needs_init cfg w.regs ∧
      (rtc_stm32_enter_initialization_mode env (configure_entry env w)).1 = - EIO) ∧
    ((rtc_stm32_configure env has_BYPSHAD cfg w).1 ≠ 0 →
      (rtc_stm32_configure env has_BYPSHAD cfg w).1 = - EIO ∧
      (rtc_stm32_configure env has_BYPSHAD cfg w).2.regs.PRER = w.regs.PRER ∧
      READ_BIT (rtc_stm32_configure env has_BYPSHAD cfg w).2.regs.CR 0x40
        = READ_BIT w.regs.CR 0x40) := by
  have hsm : cfg.sync_prescaler % 4294967296 = cfg.sync_prescaler :=
    Nat.mod_eq_of_lt (by omega)
  have ham : cfg.async_prescaler % 4294967296 = cfg.async_prescaler :=
    Nat.mod_eq_of_lt (by omega)
  have hne : ¬ ((- EIO : Int) = 0) := by decide
  have hfmt : ∀ c : Nat, READ_BIT (if has_BYPSHAD then (c ||| 0x20) % 4294967296 else c) 0x40
      = READ_BIT c 0x40 := by
    intro c
    cases has_BYPSHAD
    · rfl
    · exact FMT_after_bypass c
  by_cases h : configure_needs_init cfg w.regs
  · rcases enter_initialization_mode_result env (configure_entry env w) with he | he
    · obtain ⟨p1, ⟨lw, p2, p3⟩, p4, p5⟩ := configure_path_written env has_BYPSHAD cfg w h he
      refine ⟨⟨_, p2, ?_, fun hn => absurd h hn, fun hn => absurd p1 hn⟩,
        fun hn => absurd h hn, ?_, ?_, fun hn => absurd p1 hn⟩
      · simp [h]
      · intro _
        rw [p4, p5, hfmt]
        refine ⟨FMT_after_set _, ?_, ?_⟩
        · unfold configure_PRER
          rw [hsm, ham]
          exact PREDIV_S_after_set _ _ _ hs
        · unfold configure_PRER
          rw [hsm, ham]
          exact PREDIV_A_after_set _ _ _ hs ha
      · rw [p1, he]
        exact ⟨fun hn => absurd rfl hn, fun hn => absurd hn.2.symm hne⟩
    · obtain ⟨p1, ⟨lw, p2, p3⟩, p4, p5⟩ := configure_path_timeout env has_BYPSHAD cfg w h he
      refine ⟨⟨_, p2, ?_, fun hn => absurd h hn, fun _ => ⟨?_, lw, p3, rfl⟩⟩,
        fun hn => absurd h hn, ?_, ?_, fun _ => ⟨p1, p4, ?_⟩⟩
      · simp [h]
      · intro v hv
        have hw : ∀ e ∈ lw, e ≠ Event.write Reg.PRER v := by
          intro e hm heq
          have := p3 e hm
          rw [heq] at this
          simp [Event.isWaitEvent] at this
        cases has_BYPSHAD <;>
          simp [configure_entry_events, configure_exit_events] at hv <;>
          exact hw _ hv rfl
      · intro h0
        rw [p1] at h0
        exact absurd h0 hne
      · rw [p1]
        exact ⟨fun _ => ⟨h, he⟩, fun _ => hne⟩
      · rw [p5, hfmt]
  · obtain ⟨p1, p2, p4, p5⟩ := configure_path_match env has_BYPSHAD cfg w h
    have hfields := h
    unfold configure_needs_init at hfields
    rw [hsm, ham] at hfields
    simp only [not_or, not_not] at hfields
    refine ⟨⟨_, p2, ?_, fun _ => rfl, fun hn => absurd p1 hn⟩,
      fun _ => ⟨p1, p4, by rw [p5, hfmt]⟩, ?_, ?_, fun hn => absurd p1 hn⟩
    · cases has_BYPSHAD <;> simp [h, configure_entry_events, configure_exit_events]
    · intro _
      rw [p4, p5, hfmt]
      exact hfields
    · rw [p1]
      simp [h]

theorem configure_enters_init_mode_only_when_needed_witness :
    (rtc_config_LSI.sync_prescaler ≤ 0x7FFF ∧ rtc_config_LSI.async_prescaler ≤ 0x7F) ∧
    configure_needs_init rtc_config_LSI idle_world.regs ∧
    (rtc_stm32_configure quiet_env true rtc_config_LSI idle_world).1 = 0 ∧
    READ_BIT (rtc_stm32_configure quiet_env true rtc_config_LSI idle_world).2.regs.PRER 0x7FFF
      = 0xF9 :=
  ⟨⟨by decide, by decide⟩, by decide, by decide,
   ((configure_enters_init_mode_only_when_needed quiet_env true rtc_config_LSI idle_world
      (by decide) (by decide)).2.2.1 (by decide)).2.1⟩

end RtcStm32
